import Mathlib

/-!
# Random test drivers of the Dominion card effects

A shallow embedding of the four random test drivers

* `dominion/randomtestadventurer.c`   (namespace `Adventurer`)
* `dominion/randomtestsmithy.c`       (namespace `Smithy`)
* `dominion/randomtestcouncilroom.c`  (namespace `CouncilRoom`)
* `perrychrDominion/randomtestcard1.c` (namespace `Card1`)

The function `assertTrue` and the loop of `main` are the same in the four
files.

Conventions of the embedding.

* A C `int` is an `Int`.  C leaves signed overflow undefined, so the model
  describes the executions in which no `int` computation overflows.
* The header `dominion.h` is not among the sources.  The macros and
  enumeration constants the drivers take from it are the fields of
  `Dominion`, over which every definition is parametric; of
  `struct gameState` the model keeps the members the drivers touch.
* An array is a function from the index; a read whose index is computed
  from the state goes through `readAt`, which fails outside the array.
* `Random()` of `rngs.c` is a stream `rnd : Nat → ℚ` together with a cursor
  that counts the calls made so far; `floor (Random() * n)` is `⌊rnd k * n⌋`.
* The globals of a driver (`debug`, `nGenerate`) and the text written to
  standard output are the record `Globals`, passed explicitly.
* `cardEffect` is external: it is a parameter, a function from the
  arguments of the call and the state to the state it leaves.
* `while (1)` loops take a fuel argument and return `none` when it runs out.
* A function that a file calls and does not define (`checkSmithy` and
  `asswertTrue` in `randomtestcouncilroom.c`) is a parameter as well.
-/

/-! ## dominion.h -/

/-- Macros and enumeration constants that the drivers take from `dominion.h`. -/
structure Dominion where
  MAX_HAND : Int
  MAX_DECK : Int
  copper : Int
  gold : Int
  adventurer : Int
  smithy : Int
  village : Int
  treasure_map : Int

/-- The values of the constants in the header distributed with the Dominion
code base (`enum CARD` starts at `curse = 0`); used to instantiate examples. -/
def dominionH : Dominion where
  MAX_HAND := 500
  MAX_DECK := 500
  copper := 4
  gold := 6
  adventurer := 7
  smithy := 13
  village := 14
  treasure_map := 26

/-- Members of `struct gameState` used by the drivers.  The arrays indexed by
a player are functions of the player; `hand p`, `deck p`, `discard p` and
`playedCards` are the card arrays. -/
structure gameState where
  whoseTurn : Int
  numActions : Int
  hand : Int → Int → Int
  handCount : Int → Int
  deck : Int → Int → Int
  deckCount : Int → Int
  discard : Int → Int → Int
  discardCount : Int → Int
  playedCards : Int → Int
  playedCardCount : Int

/-- Arguments of one call `cardEffect(card, choice1, choice2, choice3, state,
handPos, &bonus)`; `bonus` is the value the pointer refers to at the call. -/
structure EffectCall where
  card : Int
  choice1 : Int
  choice2 : Int
  choice3 : Int
  handPos : Int
  bonus : Int
deriving DecidableEq

/-- A behaviour of the external `cardEffect`: the state it leaves, as a
function of the arguments and of the state it is given. -/
abbrev CardEffect := EffectCall → gameState → gameState

/-- Read of slot `i` of an array with `size` slots. -/
def readAt (size : Int) (a : Int → Int) (i : Int) : Option Int :=
  if 0 ≤ i ∧ i < size then some (a i) else none

/-- Store `v` in slot `i` of an array. -/
def writeAt (a : Int → Int) (i : Int) (v : Int) : Int → Int :=
  fun j => if j = i then v else a j

/-- Store `v` in slot `j` of row `p` of a two-dimensional array. -/
def writeAt2 (a : Int → Int → Int) (p j : Int) (v : Int) : Int → Int → Int :=
  fun q => if q = p then writeAt (a p) j v else a q

/-! ## rngs.h -/

/-- Value of `floor(Random() * n)` when the call of `Random()` is the `k`-th of
the run: `rnd k` is the number that call returns. -/
def randomBelow (rnd : Nat → ℚ) (k : Nat) (n : Int) : Int :=
  ⌊rnd k * (n : ℚ)⌋

/-- The loop `for (j = j0; j < j0 + n; j++) body(j, floor(Random() * m))`,
from cursor `k` of the random stream; returns the state and the cursor. -/
def forRandom {σ : Type} (rnd : Nat → ℚ) (m : Int) (body : Int → Int → σ → σ) :
    Nat → Int → σ → Nat → σ × Nat
  | 0, _, s, k => (s, k)
  | n + 1, j, s, k => forRandom rnd m body n (j + 1) (body j (randomBelow rnd k m) s) (k + 1)

/-- Number of treasure cards (`copper ≤ card ≤ gold`) in slots `0 .. n-1`. -/
def countTreasure (D : Dominion) (a : Int → Int) : Nat → Nat
  | 0 => 0
  | n + 1 => countTreasure D a n + (if D.copper ≤ a n ∧ a n ≤ D.gold then 1 else 0)

/-! ## Globals and helpers shared by the four files -/

/-- Globals of a driver: `debug`, `nGenerate`, and the text printed so far. -/
structure Globals where
  debug : Int
  nGenerate : Int
  out : List String
deriving DecidableEq

/-- Globals at program start: `debug = 0`, `nGenerate = 0`, nothing printed. -/
def startGlobals : Globals where
  debug := 0
  nGenerate := 0
  out := []

/-- Append a piece of text to standard output. -/
def printf (s : String) (g : Globals) : Globals :=
  { g with out := g.out ++ [s] }

/-- C conjunction `a && b` on `int`. -/
def land (a b : Int) : Int :=
  if a ≠ 0 ∧ b ≠ 0 then 1 else 0

/-- C truth value of a condition. -/
def cbool (p : Prop) [Decidable p] : Int :=
  if p then 1 else 0

/-- Function `assertTrue(testResult, expectedResult, info)`, the same in the
four files. -/
def assertTrue (testResult expectedResult : Int) (info : String) (g : Globals) :
    Int × Globals :=
  if testResult = expectedResult then
    if g.debug ≠ 0 then
      (1, printf info (printf "TEST SUCCESSFULLY COMPLETED: " g))
    else
      (1, g)
  else
    if g.debug ≠ 0 then
      (0, printf info (printf "TEST FAILED: " g))
    else
      (0, g)

/-! ## dominion/randomtestadventurer.c -/

namespace Adventurer

/-- Arguments of the call on line 64, `cardEffect(adventurer,0,0,0,post,0,&bonus)`
with `bonus = 0`. -/
def checkAdventurerCall (D : Dominion) : EffectCall :=
  { card := D.adventurer, choice1 := 0, choice2 := 0, choice3 := 0, handPos := 0, bonus := 0 }

/-- Function `checkAdventurer(player, post)`.  The result is the returned
`int`, the state `*post` after the call, and the globals; `none` when one of
the two reads of `post->hand[player]` is outside its `MAX_HAND` slots. -/
def checkAdventurer (D : Dominion) (cardEffect : CardEffect) (player : Int) (post : gameState)
    (g : Globals) : Option (Int × gameState × Globals) :=
  let pre := post
  let result : Int := 1
  let post := cardEffect (checkAdventurerCall D) post
  -- check whether two more cards are added to the hand
  let a := assertTrue (pre.handCount player + 2) (post.handCount player)
    "2 cards should be added to hand\n" g
  let result := land result a.1
  let g := a.2
  let g := if g.debug ≠ 0 then
      printf (toString (post.handCount player - pre.handCount player)
        ++ " cards were added to hand\n") g
    else g
  -- check whether the total number of cards the player has remains unchanged
  let preTotal := pre.handCount player + pre.deckCount player + pre.discardCount player
  let postTotal := post.handCount player + post.deckCount player + post.discardCount player
  let a := assertTrue preTotal postTotal "Player\x27s total card count should remain unchanged\n" g
  let result := land result a.1
  let g := a.2
  let g := if g.debug ≠ 0 then
      printf ("Expected total card count: " ++ toString preTotal
        ++ "; Actual total card count: " ++ toString postTotal ++ "\n") g
    else g
  -- check whether the two cards added to the hand are treasure cards
  let count := post.handCount player
  match readAt D.MAX_HAND (post.hand player) (count - 2),
        readAt D.MAX_HAND (post.hand player) (count - 1) with
  | some card1, some card2 =>
    let a := assertTrue (land (cbool (card1 ≥ D.copper)) (cbool (card1 ≤ D.gold))) 1
      "first card added should be a treasure card\n" g
    let result := land result a.1
    let g := a.2
    let g := if g.debug ≠ 0 then
        printf ("First card added to hand is " ++ toString card1 ++ "\n") g
      else g
    let a := assertTrue (land (cbool (card2 ≥ D.copper)) (cbool (card2 ≤ D.gold))) 1
      "second card added should be a treasure card\n" g
    let result := land result a.1
    let g := a.2
    let g := if g.debug ≠ 0 then
        printf ("Second card added to hand is " ++ toString card2 ++ "\n") g
      else g
    some (result, post, g)
  | _, _ => none

/-- Lines 128-131 of `generateAdventurerTestCase`: the turn and the three
counts of `player` are set from the next three numbers of the stream. -/
def forceCounts (D : Dominion) (rnd : Nat → ℚ) (player : Int) (game : gameState) (k : Nat) :
    gameState × Nat :=
  let game := { game with whoseTurn := player }
  let game := { game with deckCount := writeAt game.deckCount player (randomBelow rnd k D.MAX_DECK) }
  let k := k + 1
  let game := { game with
    discardCount := writeAt game.discardCount player (randomBelow rnd k D.MAX_DECK) }
  let k := k + 1
  let game := { game with handCount := writeAt game.handCount player (randomBelow rnd k D.MAX_HAND) }
  let k := k + 1
  (game, k)

/-- Lines 140-143, the body of the deck loop: the state of the loop is `*game`
and `nTreasure`. -/
def deckStep (D : Dominion) (player : Int) (j tempCard : Int) (s : gameState × Int) :
    gameState × Int :=
  ({ s.1 with deck := writeAt2 s.1.deck player j tempCard },
   if tempCard ≥ D.copper ∧ tempCard ≤ D.gold then s.2 + 1 else s.2)

/-- Lines 149-152, the body of the discard loop. -/
def discardStep (D : Dominion) (player : Int) (j tempCard : Int) (s : gameState × Int) :
    gameState × Int :=
  ({ s.1 with discard := writeAt2 s.1.discard player j tempCard },
   if tempCard ≥ D.copper ∧ tempCard ≤ D.gold then s.2 + 1 else s.2)

/-- Lines 138-145: the loop that selects random cards for the deck and counts
the treasure cards among them. -/
def fillDeck (D : Dominion) (rnd : Nat → ℚ) (player : Int) (s : gameState × Int) (k : Nat) :
    (gameState × Int) × Nat :=
  forRandom rnd (D.treasure_map + 1) (deckStep D player) (s.1.deckCount player).toNat 0 s k

/-- Lines 147-153: the loop that selects random cards for the discard pile. -/
def fillDiscard (D : Dominion) (rnd : Nat → ℚ) (player : Int) (s : gameState × Int) (k : Nat) :
    (gameState × Int) × Nat :=
  forRandom rnd (D.treasure_map + 1) (discardStep D player) (s.1.discardCount player).toNat 0 s k

/-- One pass through the body of the `while(1)` of `generateAdventurerTestCase`
after `nGenerate++` (lines 125-158).  `size` is `sizeof(struct gameState)` and
`image` gives the members of the structure whose bytes are the given ones;
`k` is the cursor of the random stream.  The boolean tells whether the pass
reached `break` (`true`) or a `continue` (`false`). -/
def generateAttempt (D : Dominion) (size : Nat) (image : (Nat → Int) → gameState)
    (rnd : Nat → ℚ) (k : Nat) : Bool × gameState × Nat :=
  let game := image (fun i => randomBelow rnd (k + i) 256)
  let k := k + size
  let player := randomBelow rnd k 4
  let k := k + 1
  let r := forceCounts D rnd player game k
  let game := r.1
  let k := r.2
  -- make sure the player has at least two cards to draw from
  if game.deckCount player + game.discardCount player < 2 then
    (false, game, k)
  else
    let nTreasure : Int := 0
    let r := fillDeck D rnd player (game, nTreasure) k
    let r := fillDiscard D rnd player r.1 r.2
    -- make sure the player has at least two treasure cards to draw from
    if r.1.2 < 2 then
      (false, r.1.1, r.2)
    else
      (true, r.1.1, r.2)

/-- Function `generateAdventurerTestCase(game)`: passes through the loop body
until one reaches `break`; `none` when the fuel is used up first.  Returns the
state `*game`, the cursor of the random stream and the globals. -/
def generateAdventurerTestCase (D : Dominion) (size : Nat) (image : (Nat → Int) → gameState)
    (rnd : Nat → ℚ) : Nat → Nat → Globals → Option (gameState × Nat × Globals)
  | 0, _, _ => none
  | fuel + 1, k, g =>
    let g := { g with nGenerate := g.nGenerate + 1 }
    let r := generateAttempt D size image rnd k
    if r.1 then some (r.2.1, r.2.2, g)
    else generateAdventurerTestCase D size image rnd fuel r.2.2 g

/-- What `generateAdventurerTestCase` promises of `*game`, with `p` the player
whose turn it is: `p` and the three counts are in range, the deck and the
discard pile together hold at least two cards, each card in them is a card
number, and at least two of them are treasure cards. -/
def Suitable (D : Dominion) (game : gameState) : Prop :=
  0 ≤ game.whoseTurn ∧ game.whoseTurn ≤ 3
  ∧ (0 ≤ game.deckCount game.whoseTurn ∧ game.deckCount game.whoseTurn < D.MAX_DECK)
  ∧ (0 ≤ game.discardCount game.whoseTurn ∧ game.discardCount game.whoseTurn < D.MAX_DECK)
  ∧ (0 ≤ game.handCount game.whoseTurn ∧ game.handCount game.whoseTurn < D.MAX_HAND)
  ∧ 2 ≤ game.deckCount game.whoseTurn + game.discardCount game.whoseTurn
  ∧ (∀ i : Int, 0 ≤ i → i < game.deckCount game.whoseTurn →
      0 ≤ game.deck game.whoseTurn i ∧ game.deck game.whoseTurn i ≤ D.treasure_map)
  ∧ (∀ i : Int, 0 ≤ i → i < game.discardCount game.whoseTurn →
      0 ≤ game.discard game.whoseTurn i ∧ game.discard game.whoseTurn i ≤ D.treasure_map)
  ∧ 2 ≤ countTreasure D (game.deck game.whoseTurn) (game.deckCount game.whoseTurn).toNat
        + countTreasure D (game.discard game.whoseTurn)
            (game.discardCount game.whoseTurn).toNat

end Adventurer

/-! ## perrychrDominion/randomtestcard1.c -/

namespace Card1

/-- Arguments of the call on line 66, `cardEffect(smithy,0,0,0,post,0,&bonus)`
with `bonus = 0`. -/
def checkSmithyCall (D : Dominion) : EffectCall :=
  { card := D.smithy, choice1 := 0, choice2 := 0, choice3 := 0, handPos := 0, bonus := 0 }

/-- Function `checkSmithy(player, post, handPos)` of `randomtestcard1.c`.
`none` when the read `post->playedCards[pre.playedCardCount]` is outside the
`MAX_DECK` slots of the array. -/
def checkSmithy (D : Dominion) (cardEffect : CardEffect) (player : Int) (post : gameState)
    (handPos : Int) (g : Globals) : Option (Int × gameState × Globals) :=
  let _ := handPos
  let pre := post
  let result : Int := 1
  let post := cardEffect (checkSmithyCall D) post
  -- check whether two more cards are added to the hand
  let a := assertTrue (pre.handCount player + 2) (post.handCount player)
    "2 cards should be added to hand\n" g
  let result := land result a.1
  let g := a.2
  let g := if g.debug ≠ 0 then
      printf (toString (post.handCount player - pre.handCount player)
        ++ " cards were added to hand\n") g
    else g
  -- check whether the total number of cards the player has remains unchanged
  let preTotal := pre.handCount player + pre.deckCount player + pre.discardCount player
    + pre.playedCardCount
  let postTotal := post.handCount player + post.deckCount player + post.discardCount player
    + post.playedCardCount
  let a := assertTrue preTotal postTotal "Player\x27s total card count should remain unchanged\n" g
  let result := land result a.1
  let g := a.2
  let g := if g.debug ≠ 0 then
      printf ("Expected total card count: " ++ toString preTotal
        ++ "; Actual total card count: " ++ toString postTotal ++ "\n") g
    else g
  -- check whether the smithy card is added to the played card pile
  let a := assertTrue post.playedCardCount (pre.playedCardCount + 1)
    "1 card should be added to the played pile\n" g
  let result := land result a.1
  let g := a.2
  match readAt D.MAX_DECK post.playedCards pre.playedCardCount with
  | some played =>
    let a := assertTrue played D.smithy "The new played card should be smithy\n" g
    let result := land result a.1
    let g := a.2
    some (result, post, g)
  | none => none

/-- Lines 118-122 of `generateSmithyTestCase`: the turn, the three counts of
`player` and the played count are set from the next four numbers of the
stream. -/
def forceCounts (D : Dominion) (rnd : Nat → ℚ) (player : Int) (game : gameState) (k : Nat) :
    gameState × Nat :=
  let game := { game with whoseTurn := player }
  let game := { game with deckCount := writeAt game.deckCount player (randomBelow rnd k D.MAX_DECK) }
  let k := k + 1
  let game := { game with
    discardCount := writeAt game.discardCount player (randomBelow rnd k D.MAX_DECK) }
  let k := k + 1
  let game := { game with
    handCount := writeAt game.handCount player (randomBelow rnd k (D.MAX_HAND - 1) + 1) }
  let k := k + 1
  let game := { game with playedCardCount := randomBelow rnd k (D.MAX_DECK - 1) }
  let k := k + 1
  (game, k)

/-- Line 129, the body of the deck loop. -/
def deckStep (player : Int) (j card : Int) (s : gameState) : gameState :=
  { s with deck := writeAt2 s.deck player j card }

/-- Line 132, the body of the discard loop. -/
def discardStep (player : Int) (j card : Int) (s : gameState) : gameState :=
  { s with discard := writeAt2 s.discard player j card }

/-- Lines 128-129: the loop that selects random cards for the deck. -/
def fillDeck (D : Dominion) (rnd : Nat → ℚ) (player : Int) (game : gameState) (k : Nat) :
    gameState × Nat :=
  forRandom rnd (D.treasure_map + 1) (deckStep player) (game.deckCount player).toNat 0 game k

/-- Lines 131-132: the loop that selects random cards for the discard pile. -/
def fillDiscard (D : Dominion) (rnd : Nat → ℚ) (player : Int) (game : gameState) (k : Nat) :
    gameState × Nat :=
  forRandom rnd (D.treasure_map + 1) (discardStep player) (game.discardCount player).toNat 0 game k

/-- One pass through the body of the `while(1)` of `generateSmithyTestCase`
after `nGenerate++` (lines 115-137); see `Adventurer.generateAttempt`.  The
result also carries the local `handPos`, which is set only on the way to
`break`. -/
def generateAttempt (D : Dominion) (size : Nat) (image : (Nat → Int) → gameState)
    (rnd : Nat → ℚ) (k : Nat) : Bool × Int × gameState × Nat :=
  let game := image (fun i => randomBelow rnd (k + i) 256)
  let k := k + size
  let player := randomBelow rnd k 4
  let k := k + 1
  let r := forceCounts D rnd player game k
  let game := r.1
  let k := r.2
  -- make sure the player has at least three cards to draw from
  if game.deckCount player + game.discardCount player < 3 then
    (false, 0, game, k)
  else
    let r := fillDeck D rnd player game k
    let r := fillDiscard D rnd player r.1 r.2
    let game := r.1
    let k := r.2
    -- select handPos
    let handPos := randomBelow rnd k (game.handCount player)
    let k := k + 1
    let game := { game with hand := writeAt2 game.hand player handPos D.smithy }
    (true, handPos, game, k)

/-- Function `generateSmithyTestCase(game)` of `randomtestcard1.c`: returns the
value of `handPos`, the state `*game`, the cursor of the random stream and the
globals; `none` when the fuel is used up before a pass reaches `break`. -/
def generateSmithyTestCase (D : Dominion) (size : Nat) (image : (Nat → Int) → gameState)
    (rnd : Nat → ℚ) : Nat → Nat → Globals → Option (Int × gameState × Nat × Globals)
  | 0, _, _ => none
  | fuel + 1, k, g =>
    let g := { g with nGenerate := g.nGenerate + 1 }
    let r := generateAttempt D size image rnd k
    if r.1 then some (r.2.1, r.2.2.1, r.2.2.2, g)
    else generateSmithyTestCase D size image rnd fuel r.2.2.2 g

/-- What `generateSmithyTestCase` promises of its result `h` and of `*game`,
with `p` the player whose turn it is: `p` and the counts are in range, `h` is
a position of the hand, the hand holds smithy there, the deck and the discard
pile together hold at least three cards, and the played pile has room for one
more card. -/
def Suitable (D : Dominion) (h : Int) (game : gameState) : Prop :=
  0 ≤ game.whoseTurn ∧ game.whoseTurn ≤ 3
  ∧ (1 ≤ game.handCount game.whoseTurn ∧ game.handCount game.whoseTurn ≤ D.MAX_HAND - 1)
  ∧ (0 ≤ h ∧ h < game.handCount game.whoseTurn)
  ∧ game.hand game.whoseTurn h = D.smithy
  ∧ (0 ≤ game.deckCount game.whoseTurn ∧ game.deckCount game.whoseTurn < D.MAX_DECK)
  ∧ (0 ≤ game.discardCount game.whoseTurn ∧ game.discardCount game.whoseTurn < D.MAX_DECK)
  ∧ 3 ≤ game.deckCount game.whoseTurn + game.discardCount game.whoseTurn
  ∧ 0 ≤ game.playedCardCount ∧ game.playedCardCount ≤ D.MAX_DECK - 2

end Card1

/-! ## dominion/randomtestsmithy.c -/

namespace Smithy

/-- Arguments of the call on line 66, `cardEffect(0,0,0,0,post,0,&bonus)` with
`bonus = 0`. -/
def checkSmithyCall : EffectCall :=
  { card := 0, choice1 := 0, choice2 := 0, choice3 := 0, handPos := 0, bonus := 0 }

/-- Function `checkSmithy(player, post)` of `randomtestsmithy.c`. -/
def checkSmithy (cardEffect : CardEffect) (player : Int) (post : gameState)
    (g : Globals) : Int × gameState × Globals :=
  let pre := post
  let result : Int := 1
  let post := cardEffect checkSmithyCall post
  -- check whether three more cards are added to the hand
  let a := assertTrue (pre.handCount player + 3) (post.handCount player)
    "3 cards should be added to hand\n" g
  let result := land result a.1
  let g := a.2
  let g := if g.debug ≠ 0 then
      printf (toString (post.handCount player - pre.handCount player)
        ++ " cards were added to hand\n") g
    else g
  -- check whether the total number of cards the player has remains unchanged
  let preTotal := pre.handCount player + pre.deckCount player + pre.discardCount player
  let postTotal := post.handCount player + post.deckCount player + post.discardCount player
  let a := assertTrue preTotal postTotal "Player\x27s total card count should remain unchanged\n" g
  let result := land result a.1
  let g := a.2
  let g := if g.debug ≠ 0 then
      printf ("Expected total card count: " ++ toString preTotal
        ++ "; Actual total card count: " ++ toString postTotal ++ "\n") g
    else g
  (result, post, g)

/-- Lines 111-114 of `generateSmithyTestCase`: the turn and the three counts of
`player` are set from the next three numbers of the stream. -/
def forceCounts (D : Dominion) (rnd : Nat → ℚ) (player : Int) (game : gameState) (k : Nat) :
    gameState × Nat :=
  let game := { game with whoseTurn := player }
  let game := { game with deckCount := writeAt game.deckCount player (randomBelow rnd k D.MAX_DECK) }
  let k := k + 1
  let game := { game with
    discardCount := writeAt game.discardCount player (randomBelow rnd k D.MAX_DECK) }
  let k := k + 1
  let game := { game with handCount := writeAt game.handCount player (randomBelow rnd k D.MAX_HAND) }
  let k := k + 1
  (game, k)

/-- Line 121, the body of the deck loop. -/
def deckStep (player : Int) (j card : Int) (s : gameState) : gameState :=
  { s with deck := writeAt2 s.deck player j card }

/-- Line 124, the body of the discard loop. -/
def discardStep (player : Int) (j card : Int) (s : gameState) : gameState :=
  { s with discard := writeAt2 s.discard player j card }

/-- One pass through the body of the `while(1)` of `generateSmithyTestCase`
after `nGenerate++` (lines 108-126); see `Adventurer.generateAttempt`. -/
def generateAttempt (D : Dominion) (size : Nat) (image : (Nat → Int) → gameState)
    (rnd : Nat → ℚ) (k : Nat) : Bool × gameState × Nat :=
  let game := image (fun i => randomBelow rnd (k + i) 256)
  let k := k + size
  let player := randomBelow rnd k 4
  let k := k + 1
  let r := forceCounts D rnd player game k
  let game := r.1
  let k := r.2
  -- make sure the player has at least three cards to draw from
  if game.deckCount player + game.discardCount player < 3 then
    (false, game, k)
  else
    let r := forRandom rnd (D.treasure_map + 1) (deckStep player)
      (game.deckCount player).toNat 0 game k
    let r := forRandom rnd (D.treasure_map + 1) (discardStep player)
      (r.1.discardCount player).toNat 0 r.1 r.2
    (true, r.1, r.2)

/-- Function `generateSmithyTestCase(game)` of `randomtestsmithy.c`; `none`
when the fuel is used up before a pass reaches `break`. -/
def generateSmithyTestCase (D : Dominion) (size : Nat) (image : (Nat → Int) → gameState)
    (rnd : Nat → ℚ) : Nat → Nat → Globals → Option (gameState × Nat × Globals)
  | 0, _, _ => none
  | fuel + 1, k, g =>
    let g := { g with nGenerate := g.nGenerate + 1 }
    let r := generateAttempt D size image rnd k
    if r.1 then some (r.2.1, r.2.2, g)
    else generateSmithyTestCase D size image rnd fuel r.2.2 g

end Smithy

/-! ## main

The function `main` is the same in the files but for the value of `MAXTEST`
and for the generator and the checker it calls.  The state of the loop is the
four counters of `main`, the globals, and a `world` that holds whatever else
the generator, the checker and the external code read and write (the state
`G`, the cursor of the random stream). -/

/-- Locals of `main` that live across the iterations, the globals, and the
rest of the world. -/
structure MainState (σ : Type) where
  nTest : Int
  nDebug : Int
  nSuccess : Int
  nFailure : Int
  glob : Globals
  world : σ

/-- State of `main` when the loop is entered: the four counters are 0, the
globals are those of program start followed by the banner. -/
def MainState.start {σ : Type} (banner : String) (w0 : σ) : MainState σ where
  nTest := 0
  nDebug := 0
  nSuccess := 0
  nFailure := 0
  glob := printf banner startGlobals
  world := w0

/-- First part of an iteration, up to the call of the checker: `nTest++`, the
call of the generator, and the headline printed when `debug` is set. -/
def prepare {σ : Type} (generate : Globals → σ → Option (σ × Globals)) (s : MainState σ) :
    Option (MainState σ) :=
  let s := { s with nTest := s.nTest + 1 }
  match generate s.glob s.world with
  | none => none
  | some (w, g) =>
    let g := if g.debug ≠ 0 then
        printf ("*************** TEST Case #" ++ toString s.nDebug ++ " **************\n") g
      else g
    some { s with glob := g, world := w }

/-- Last part of an iteration, after `pass = check...(G.whoseTurn, &G)`: the
counting of the result and the switching of `debug`. -/
def tally {σ : Type} (MAXDEBUG : Int) (pass : Int) (s : MainState σ) : MainState σ :=
  let s :=
    if pass ≠ 0 then { s with nSuccess := s.nSuccess + 1 }
    else
      let s := { s with nFailure := s.nFailure + 1 }
      -- if this is the first failure, then turn on debug
      if s.nDebug = 0 then { s with glob := { s.glob with debug := 1 } } else s
  if s.glob.debug ≠ 0 then
    let s := { s with nDebug := s.nDebug + 1 }
    -- if MAXDEBUG messages have been printed out, then turn off debug
    if s.nDebug > MAXDEBUG then { s with glob := { s.glob with debug := 0 } } else s
  else s

/-- The call of the checker in an iteration: the value it returns and the
state it leaves. -/
def callChecker {σ : Type} (check : Globals → σ → Option (Int × σ × Globals)) (s : MainState σ) :
    Option (Int × MainState σ) :=
  match check s.glob s.world with
  | none => none
  | some (pass, w, g) => some (pass, { s with glob := g, world := w })

/-- One iteration of the `for` loop of `main`. -/
def iteration {σ : Type} (MAXDEBUG : Int) (generate : Globals → σ → Option (σ × Globals))
    (check : Globals → σ → Option (Int × σ × Globals)) (s : MainState σ) :
    Option (MainState σ) :=
  match prepare generate s with
  | none => none
  | some s =>
    match callChecker check s with
    | none => none
    | some (pass, s) => some (tally MAXDEBUG pass s)

/-- The loop `for (i = ...; i < MAXTEST; i++)` with `n` iterations to go. -/
def forLoop {σ : Type} (MAXDEBUG : Int) (generate : Globals → σ → Option (σ × Globals))
    (check : Globals → σ → Option (Int × σ × Globals)) : Nat → MainState σ → Option (MainState σ)
  | 0, s => some s
  | n + 1, s =>
    match iteration MAXDEBUG generate check s with
    | none => none
    | some s => forLoop MAXDEBUG generate check n s

/-- The function `main` for given `MAXTEST`, `MAXDEBUG`, generator and checker:
the value returned and the final state, or `none` when a call does not
return. -/
def driver {σ : Type} (MAXTEST : Nat) (MAXDEBUG : Int) (banner : String)
    (summary : Int → Int → Int → String)
    (generate : Globals → σ → Option (σ × Globals))
    (check : Globals → σ → Option (Int × σ × Globals)) (w0 : σ) : Option (Int × MainState σ) :=
  match forLoop MAXDEBUG generate check MAXTEST (MainState.start banner w0) with
  | none => none
  | some s => some (0, { s with glob := printf (summary s.nTest s.nSuccess s.nFailure) s.glob })

/-- The summary line of `randomtestadventurer.c`. -/
def summaryTight (nTest nSuccess nFailure : Int) : String :=
  "\n\n******SUMMARY: Generated " ++ toString nTest ++ " cases, " ++ toString nSuccess
    ++ " passed, " ++ toString nFailure ++ " failed******\n\n"

/-- The summary line of the other files. -/
def summarySpaced (nTest nSuccess nFailure : Int) : String :=
  "\n\n****** SUMMARY: Generated " ++ toString nTest ++ " cases, " ++ toString nSuccess
    ++ " passed, " ++ toString nFailure ++ " failed ******\n\n"

/-- State of `main` at the beginning of iteration `i` (counted from 0). -/
def stateAt {σ : Type} (MAXDEBUG : Int) (banner : String)
    (generate : Globals → σ → Option (σ × Globals))
    (check : Globals → σ → Option (Int × σ × Globals)) (w0 : σ) (i : Nat) :
    Option (MainState σ) :=
  forLoop MAXDEBUG generate check i (MainState.start banner w0)

/-- Value of the debug flag when the checker is called in iteration `i`. -/
def debugAt {σ : Type} (MAXDEBUG : Int) (banner : String)
    (generate : Globals → σ → Option (σ × Globals))
    (check : Globals → σ → Option (Int × σ × Globals)) (w0 : σ) (i : Nat) : Option Int :=
  ((stateAt MAXDEBUG banner generate check w0 i).bind (prepare generate)).map
    (fun s => s.glob.debug)

/-- Value that the checker returns in iteration `i`. -/
def passAt {σ : Type} (MAXDEBUG : Int) (banner : String)
    (generate : Globals → σ → Option (σ × Globals))
    (check : Globals → σ → Option (Int × σ × Globals)) (w0 : σ) (i : Nat) : Option Int :=
  (((stateAt MAXDEBUG banner generate check w0 i).bind (prepare generate)).bind
    (callChecker check)).map (fun r => r.1)

/-- The window of verbose checking in the first `n` iterations of a run, for
the values `pass i` returned by the checker and the values `dbg i` of the
debug flag when the checker is called.  If `k` is the first iteration whose
checker returns 0, the flag is 0 up to and including `k`, 1 in the iterations
`k+1 .. k+MAXDEBUG`, and 0 afterwards; if no checker returns 0 the flag is
always 0; and the flag is set in at most `MAXDEBUG` iterations. -/
def DebugWindow (MAXDEBUG : Nat) (pass dbg : Nat → Option Int) (n : Nat) : Prop :=
  (∀ k, k < n → pass k = some 0 → (∀ j, j < k → pass j ≠ some 0) →
      (∀ i, i ≤ k → dbg i = some 0)
      ∧ (∀ i, k < i → i ≤ k + MAXDEBUG → i < n → dbg i = some 1)
      ∧ (∀ i, k + MAXDEBUG < i → i < n → dbg i = some 0))
  ∧ ((∀ i, i < n → pass i ≠ some 0) → ∀ i, i < n → dbg i = some 0)
  ∧ ((Finset.range n).filter (fun i => dbg i ≠ some 0)).card ≤ MAXDEBUG

namespace Adventurer

/-- The call `generateAdventurerTestCase(&G)` in `main`; the world is the state
`G` and the cursor of the random stream, and the call has the given fuel. -/
def generateCall (D : Dominion) (size : Nat) (image : (Nat → Int) → gameState) (rnd : Nat → ℚ)
    (fuel : Nat) (g : Globals) (w : gameState × Nat) : Option ((gameState × Nat) × Globals) :=
  (generateAdventurerTestCase D size image rnd fuel w.2 g).map (fun r => ((r.1, r.2.1), r.2.2))

/-- The call `checkAdventurer(G.whoseTurn, &G)` in `main`. -/
def checkCall (D : Dominion) (cardEffect : CardEffect) (g : Globals) (w : gameState × Nat) :
    Option (Int × (gameState × Nat) × Globals) :=
  (checkAdventurer D cardEffect w.1.whoseTurn w.1 g).map (fun r => (r.1, (r.2.1, w.2), r.2.2))

/-- The function `main` of `randomtestadventurer.c`: `MAXTEST = 10000`,
`MAXDEBUG = 5`. -/
def main (D : Dominion) (size : Nat) (image : (Nat → Int) → gameState) (rnd : Nat → ℚ)
    (cardEffect : CardEffect) (fuel : Nat) (G : gameState) :
    Option (Int × MainState (gameState × Nat)) :=
  driver 10000 5
    "\n\n*************************  Random Testing - Acventurer  ***************************\n"
    summaryTight (generateCall D size image rnd fuel) (checkCall D cardEffect) (G, 0)

end Adventurer

namespace Smithy

/-- The call `generateSmithyTestCase(&G)` in `main`. -/
def generateCall (D : Dominion) (size : Nat) (image : (Nat → Int) → gameState) (rnd : Nat → ℚ)
    (fuel : Nat) (g : Globals) (w : gameState × Nat) : Option ((gameState × Nat) × Globals) :=
  (generateSmithyTestCase D size image rnd fuel w.2 g).map (fun r => ((r.1, r.2.1), r.2.2))

/-- The call `checkSmithy(G.whoseTurn, &G)` in `main`. -/
def checkCall (cardEffect : CardEffect) (g : Globals) (w : gameState × Nat) :
    Option (Int × (gameState × Nat) × Globals) :=
  some ((checkSmithy cardEffect w.1.whoseTurn w.1 g).1,
    ((checkSmithy cardEffect w.1.whoseTurn w.1 g).2.1, w.2),
    (checkSmithy cardEffect w.1.whoseTurn w.1 g).2.2)

/-- The function `main` of `randomtestsmithy.c`: `MAXTEST = 30`,
`MAXDEBUG = 5`. -/
def main (D : Dominion) (size : Nat) (image : (Nat → Int) → gameState) (rnd : Nat → ℚ)
    (cardEffect : CardEffect) (fuel : Nat) (G : gameState) :
    Option (Int × MainState (gameState × Nat)) :=
  driver 30 5
    "\n\n*************************  Random Testing - Smithy  ***************************\n"
    summarySpaced (generateCall D size image rnd fuel) (checkCall cardEffect) (G, 0)

end Smithy

namespace Card1

/-- The call `handPos = generateSmithyTestCase(&G)` in `main`; the world is
the state `G`, the local `handPos` and the cursor of the random stream. -/
def generateCall (D : Dominion) (size : Nat) (image : (Nat → Int) → gameState) (rnd : Nat → ℚ)
    (fuel : Nat) (g : Globals) (w : (gameState × Int) × Nat) :
    Option (((gameState × Int) × Nat) × Globals) :=
  (generateSmithyTestCase D size image rnd fuel w.2 g).map
    (fun r => (((r.2.1, r.1), r.2.2.1), r.2.2.2))

/-- The call `checkSmithy(G.whoseTurn, &G, handPos)` in `main`. -/
def checkCall (D : Dominion) (cardEffect : CardEffect) (g : Globals)
    (w : (gameState × Int) × Nat) : Option (Int × ((gameState × Int) × Nat) × Globals) :=
  (checkSmithy D cardEffect w.1.1.whoseTurn w.1.1 w.1.2 g).map
    (fun r => (r.1, ((r.2.1, w.1.2), w.2), r.2.2))

/-- The function `main` of `randomtestcard1.c`: `MAXTEST = 10000`,
`MAXDEBUG = 5`. -/
def main (D : Dominion) (size : Nat) (image : (Nat → Int) → gameState) (rnd : Nat → ℚ)
    (cardEffect : CardEffect) (fuel : Nat) (G : gameState) (handPos : Int) :
    Option (Int × MainState ((gameState × Int) × Nat)) :=
  driver 10000 5
    "\n\n*************************  Random Testing - Smithy  ***************************\n"
    summarySpaced (generateCall D size image rnd fuel) (checkCall D cardEffect) ((G, handPos), 0)

end Card1

/-! ## States and effects used in the examples -/

/-- A state in which every count of every player is `n` and every card slot
holds the card `c`. -/
def uniformState (n c : Int) : gameState where
  whoseTurn := 0
  numActions := 1
  hand := fun _ _ => c
  handCount := fun _ => n
  deck := fun _ _ => c
  deckCount := fun _ => n
  discard := fun _ _ => c
  discardCount := fun _ => n
  playedCards := fun _ => c
  playedCardCount := n

/-- An effect for the examples that reacts to the adventurer card only: the
current player moves the two top cards of the deck to the hand. -/
def sampleAdventurer (D : Dominion) : CardEffect := fun c s =>
  if c.card = D.adventurer then
    let p := s.whoseTurn
    let n := s.handCount p
    let d := s.deckCount p
    { s with
      hand := fun q => if q = p then
          writeAt (writeAt (s.hand p) n (s.deck p (d - 1))) (n + 1) (s.deck p (d - 2))
        else s.hand q
      handCount := fun q => if q = p then n + 2 else s.handCount q
      deckCount := fun q => if q = p then d - 2 else s.deckCount q }
  else s

/-- An effect for the examples that reacts to the smithy card only: the
current player moves the three top cards of the deck to the hand, then the
card at `handPos` goes to the played pile and the last hand card takes its
slot. -/
def sampleSmithy (D : Dominion) : CardEffect := fun c s =>
  if c.card = D.smithy then
    let p := s.whoseTurn
    let n := s.handCount p
    let d := s.deckCount p
    let drawn := writeAt (writeAt (writeAt (s.hand p) n (s.deck p (d - 1)))
      (n + 1) (s.deck p (d - 2))) (n + 2) (s.deck p (d - 3))
    { s with
      hand := fun q => if q = p then writeAt drawn c.handPos (drawn (n + 2)) else s.hand q
      handCount := fun q => if q = p then n + 2 else s.handCount q
      deckCount := fun q => if q = p then d - 3 else s.deckCount q
      playedCards := writeAt s.playedCards s.playedCardCount (drawn c.handPos)
      playedCardCount := s.playedCardCount + 1 }
  else s

/-- A random stream for the examples, for a structure of `size` bytes: the
player drawn is 0, the deck count is `⌊n / 500 * MAX_DECK⌋`, the other forced
members are drawn with 0, and the next `n` numbers, from cursor `first` on, are
`5 / 27`, which selects card 5 out of 27; all further numbers are 0. -/
def sampleStream (size n first : Nat) : Nat → ℚ := fun i =>
  if i = size + 1 then (n : ℚ) / 500
  else if first ≤ i ∧ i < first + n then 5 / 27
  else 0

/-- A generator for the examples: it always leaves the same state, in which
every count is 5 and every card is smithy. -/
def sampleGenerate (g : Globals) (_w : gameState) : Option (gameState × Globals) :=
  some (uniformState 5 13, { g with nGenerate := g.nGenerate + 1 })

/-- A checker call for the examples: `checkSmithy(G.whoseTurn, &G)` of
`randomtestsmithy.c` with the sample smithy effect. -/
def sampleCheck (g : Globals) (w : gameState) : Option (Int × gameState × Globals) :=
  some (Smithy.checkSmithy (sampleSmithy dominionH) w.whoseTurn w g)

/-- A random stream for the examples of `randomtestcard1.c`, for a structure
of `size` bytes.  Every number is a dyadic fraction in `(0,1)`, so it is a
value of a `double` and its products with the bounds are exact.  All numbers
are `1 / 1024`, which draws 0 from every bound used, but three: the deck count
is drawn with `1 / 128` (`⌊500 / 128⌋ = 3`), the hand count with `1 / 256`
(`⌊499 / 256⌋ + 1 = 2`), and `handPos` with `3 / 4` (`⌊3 / 4 * 2⌋ = 1`). -/
def handPosStream (size : Nat) : Nat → ℚ := fun i =>
  if i = size + 1 then 1 / 128
  else if i = size + 3 then 1 / 256
  else if i = size + 8 then 3 / 4
  else 1 / 1024

/-- A random stream for the examples of `randomtestadventurer.c`, for a
structure of `size` bytes: the player drawn is 0, the deck count is 2, the
discard count is 0, the hand count is `⌊499 / 500 * MAX_HAND⌋ = 499`, and the
two deck cards are card 5. -/
def fullHandStream (size : Nat) : Nat → ℚ := fun i =>
  if i = size + 1 then 2 / 500
  else if i = size + 3 then 499 / 500
  else if i = size + 4 ∨ i = size + 5 then 5 / 27
  else 0

/-- Cursor of the random stream at which pass number `j` (counted from 0)
through the loop body of `generateAdventurerTestCase` begins, for a call that
starts at cursor `k`. -/
def Adventurer.attemptCursor (D : Dominion) (size : Nat) (image : (Nat → Int) → gameState)
    (rnd : Nat → ℚ) (k : Nat) : Nat → Nat
  | 0 => k
  | j + 1 => (Adventurer.generateAttempt D size image rnd
      (Adventurer.attemptCursor D size image rnd k j)).2.2

/-- A random stream under which `generateAdventurerTestCase`, called at cursor
0 for a structure of `size` bytes, rejects `n + 1` states and accepts the next
one.  Every number is 0 but three: in the pass that begins at cursor
`(n + 1) * (size + 4)` the deck count is drawn with `2 / MAX_DECK` and the two
deck cards with `copper / (treasure_map + 1)`. -/
def Adventurer.retryStream (D : Dominion) (size n : Nat) : Nat → ℚ := fun i =>
  if i = (n + 1) * (size + 4) + size + 1 then 2 / (D.MAX_DECK : ℚ)
  else if i = (n + 1) * (size + 4) + size + 4 ∨ i = (n + 1) * (size + 4) + size + 5 then
    (D.copper : ℚ) / ((D.treasure_map + 1 : Int) : ℚ)
  else 0

/-- State left by pass number `j` through the loop body of
`generateAdventurerTestCase`, for a call that starts at cursor `k`. -/
def Adventurer.attemptState (D : Dominion) (size : Nat) (image : (Nat → Int) → gameState)
    (rnd : Nat → ℚ) (k : Nat) (j : Nat) : gameState :=
  (Adventurer.generateAttempt D size image rnd
    (Adventurer.attemptCursor D size image rnd k j)).2.1

/-- The two tests of `generateAdventurerTestCase` on a state: the deck and
the discard pile of the current player hold at least two cards, at least two
of them treasure cards. -/
def Adventurer.Drawable (D : Dominion) (game : gameState) : Prop :=
  2 ≤ game.deckCount game.whoseTurn + game.discardCount game.whoseTurn
  ∧ 2 ≤ countTreasure D (game.deck game.whoseTurn) (game.deckCount game.whoseTurn).toNat
        + countTreasure D (game.discard game.whoseTurn)
            (game.discardCount game.whoseTurn).toNat

/-! ## dominion/randomtestcouncilroom.c -/

namespace CouncilRoom

/-- Functions that `randomtestcouncilroom.c` calls and does not define:
`cardEffect` of the rules engine, `checkSmithy`, called on line 170 of `main`,
and `asswertTrue`, called on line 100 of `checkVillage`.  Each is a parameter:
a function of its arguments, of the state it is given and of the globals. -/
structure Externals where
  cardEffect : CardEffect
  checkSmithy : Int → gameState → Globals → Option (Int × gameState × Globals)
  asswertTrue : Int → Int → String → Globals → Int × Globals

/-- Arguments of the call on line 70,
`cardEffect(village,0,0,0,post,handPos,&bonus)` with `bonus = 0`. -/
def checkVillageCall (D : Dominion) (handPos : Int) : EffectCall :=
  { card := D.village, choice1 := 0, choice2 := 0, choice3 := 0, handPos := handPos, bonus := 0 }

/-- Function `checkVillage(player, post, handPos)`.  `none` when the read
`post->playedCards[pre.playedCardCount]` is outside the `MAX_DECK` slots of
the array. -/
def checkVillage (D : Dominion) (ext : Externals) (player : Int) (post : gameState)
    (handPos : Int) (g : Globals) : Option (Int × gameState × Globals) :=
  let pre := post
  let result : Int := 1
  let post := ext.cardEffect (checkVillageCall D handPos) post
  -- check whether the number of card of the hand remains unchanged
  let a := assertTrue (pre.handCount player) (post.handCount player)
    "No card should be added to hand\n" g
  let result := land result a.1
  let g := a.2
  let g := if g.debug ≠ 0 then
      printf (toString (post.handCount player - pre.handCount player)
        ++ " cards were added to hand\n") g
    else g
  -- check whether the village card is added to the played pile
  let a := assertTrue post.playedCardCount (pre.playedCardCount + 1)
    "1 card should be added to the played pile\n" g
  let result := land result a.1
  let g := a.2
  match readAt D.MAX_DECK post.playedCards pre.playedCardCount with
  | some played =>
    let a := assertTrue played D.village "The new played card should be village\n" g
    let result := land result a.1
    let g := a.2
    -- check whether the total number of cards the player has remains unchanged
    let preTotal := pre.handCount player + pre.deckCount player + pre.discardCount player
      + pre.playedCardCount
    let postTotal := post.handCount player + post.deckCount player + post.discardCount player
      + post.playedCardCount
    let a := assertTrue preTotal postTotal
      "Player\x27s total card count should remain unchanged\n" g
    let result := land result a.1
    let g := a.2
    let g := if g.debug ≠ 0 then
        printf ("Expected total card count: " ++ toString preTotal
          ++ "; Actual total card count: " ++ toString postTotal ++ "\n") g
      else g
    -- check whether two actions were added
    let a := ext.asswertTrue (pre.numActions + 2) post.numActions "2 actions should be added\n" g
    let result := land result a.1
    let g := a.2
    some (result, post, g)
  | none => none

/-- Function `generateSmithyTestCase(game)` of `randomtestcouncilroom.c`
(lines 117-144): its text is that of the function of the same name in
`randomtestsmithy.c`. -/
def generateSmithyTestCase (D : Dominion) (size : Nat) (image : (Nat → Int) → gameState)
    (rnd : Nat → ℚ) (fuel k : Nat) (g : Globals) : Option (gameState × Nat × Globals) :=
  Smithy.generateSmithyTestCase D size image rnd fuel k g

/-- The call `generateSmithyTestCase(&G)` in `main`; the world is the state
`G` and the cursor of the random stream. -/
def generateCall (D : Dominion) (size : Nat) (image : (Nat → Int) → gameState) (rnd : Nat → ℚ)
    (fuel : Nat) (g : Globals) (w : gameState × Nat) : Option ((gameState × Nat) × Globals) :=
  (generateSmithyTestCase D size image rnd fuel w.2 g).map (fun r => ((r.1, r.2.1), r.2.2))

/-- The call `checkSmithy(G.whoseTurn, &G)` on line 170 of `main`. -/
def checkCall (ext : Externals) (g : Globals) (w : gameState × Nat) :
    Option (Int × (gameState × Nat) × Globals) :=
  (ext.checkSmithy w.1.whoseTurn w.1 g).map (fun r => (r.1, (r.2.1, w.2), r.2.2))

/-- The banner that `main` prints first. -/
def banner : String :=
  "\n\n*************************  Random Testing - Smithy  ***************************\n"

/-- The function `main` of `randomtestcouncilroom.c`: `MAXTEST = 30`,
`MAXDEBUG = 5`. -/
def main (D : Dominion) (size : Nat) (image : (Nat → Int) → gameState) (rnd : Nat → ℚ)
    (ext : Externals) (fuel : Nat) (G : gameState) :
    Option (Int × MainState (gameState × Nat)) :=
  driver 30 5 banner summarySpaced (generateCall D size image rnd fuel) (checkCall ext) (G, 0)

end CouncilRoom

/-- An effect for the examples that reacts to the village card only: the
current player draws the top card of the deck into the slot of the card at
`handPos`, which goes to the played pile, and gets two more actions. -/
def sampleVillage (D : Dominion) : CardEffect := fun c s =>
  if c.card = D.village then
    let p := s.whoseTurn
    let d := s.deckCount p
    { s with
      numActions := s.numActions + 2
      hand := fun q => if q = p then writeAt (s.hand p) c.handPos (s.deck p (d - 1)) else s.hand q
      deckCount := fun q => if q = p then d - 1 else s.deckCount q
      playedCards := writeAt s.playedCards s.playedCardCount (s.hand p c.handPos)
      playedCardCount := s.playedCardCount + 1 }
  else s

/-- A random stream for the examples of runs of `main`, for a structure of
`size` bytes.  Every number is a dyadic fraction in `(0,1)`.  All numbers are
`1 / 128`, which draws player 0, 3 for a count out of 500 and card 0 out of
27, but the one at cursor `size + 1`, which is `1 / 1024`: the first deck count
drawn is `⌊500 / 1024⌋ = 0`. -/
def runStream (size : Nat) : Nat → ℚ := fun i =>
  if i = size + 1 then 1 / 1024 else 1 / 128

/-- Cursor of `runStream` at which the generator of `randomtestsmithy.c` is
called in iteration `i` of `main`: the first call uses `size + 4` numbers and
3 for the discard pile, every later call 3 more for the deck. -/
def runCursor (size : Nat) (i : Nat) : Nat :=
  if i = 0 then 0 else i * (size + 10) - 3

/-- State that the generator of `randomtestsmithy.c` builds in iteration `i`
of `main` on `runStream`, when every state that the random bytes describe has
counts 0 and cards `c`. -/
def runGame (size : Nat) (c : Int) (i : Nat) : gameState :=
  (Smithy.generateAttempt dominionH size (fun _ => uniformState 0 c) (runStream size)
    (runCursor size i)).2.1

/-- An effect for the examples that plays the village card as `sampleVillage`
does; with any other card the current player moves the three top cards of
the deck to the hand when the deck holds at least three cards, and nothing
happens otherwise. -/
def sampleRules (D : Dominion) : CardEffect := fun c s =>
  if c.card = D.village then sampleVillage D c s
  else
    let p := s.whoseTurn
    let n := s.handCount p
    let d := s.deckCount p
    if 3 ≤ d then
      { s with
        hand := fun q => if q = p then
            writeAt (writeAt (writeAt (s.hand p) n (s.deck p (d - 1)))
              (n + 1) (s.deck p (d - 2))) (n + 2) (s.deck p (d - 3))
          else s.hand q
        handCount := fun q => if q = p then n + 3 else s.handCount q
        deckCount := fun q => if q = p then d - 3 else s.deckCount q }
    else s

/-- Externals for the examples of runs: `randomtestcouncilroom.c` linked with
the function `checkSmithy` of `randomtestsmithy.c`, with `assertTrue` for
`asswertTrue`, and with the given effect. -/
def linkedExternals (cardEffect : CardEffect) : CouncilRoom.Externals where
  cardEffect := cardEffect
  checkSmithy := fun player game g => some (Smithy.checkSmithy cardEffect player game g)
  asswertTrue := assertTrue

/-- A random stream for the examples of runs of `main` of
`randomtestadventurer.c`, for a structure of `size` bytes; it repeats after
`size + 7` numbers, which is what one call of the generator uses.  The numbers
are dyadic fractions in `(0,1)`: `1 / 128` for the deck count
(`⌊500 / 128⌋ = 3`), `3 / 16` for the three deck cards (`⌊27 * 3 / 16⌋ = 5`,
a treasure card), and `1 / 1024`, which draws 0, everywhere else. -/
def treasureStream (size : Nat) : Nat → ℚ := fun i =>
  if i % (size + 7) = size + 1 then 1 / 128
  else if size + 4 ≤ i % (size + 7) then 3 / 16
  else 1 / 1024

/-- State that the generator of `randomtestadventurer.c` builds in iteration
`i` of `main` on `treasureStream`, when every state that the random bytes
describe has counts 0 and cards 0. -/
def treasureGame (size : Nat) (i : Nat) : gameState :=
  (Adventurer.generateAttempt dominionH size (fun _ => uniformState 0 0) (treasureStream size)
    (i * (size + 7))).2.1

/-- A random stream for the examples of runs of `main` of `randomtestcard1.c`,
for a structure of `size` bytes; it repeats after `size + 9` numbers, which is
what one call of the generator uses.  The numbers are `1 / 128` for the deck
count (`⌊500 / 128⌋ = 3`) and `1 / 1024`, which draws 0, everywhere else. -/
def handStream (size : Nat) : Nat → ℚ := fun i =>
  if i % (size + 9) = size + 1 then 1 / 128 else 1 / 1024

/-- State that the generator of `randomtestcard1.c` builds in iteration `i` of
`main` on `handStream`, when every state that the random bytes describe has
counts 0 and cards 0. -/
def handGame (size : Nat) (i : Nat) : gameState :=
  (Card1.generateAttempt dominionH size (fun _ => uniformState 0 0) (handStream size)
    (i * (size + 9))).2.2.1

/-! ## Lemmas on the helpers -/

@[simp] theorem printf_debug (s : String) (g : Globals) : (printf s g).debug = g.debug := rfl

@[simp] theorem printf_nGenerate (s : String) (g : Globals) :
    (printf s g).nGenerate = g.nGenerate := rfl

@[simp] theorem assertTrue_fst (t e : Int) (info : String) (g : Globals) :
    (assertTrue t e info g).1 = cbool (t = e) := by
  unfold assertTrue cbool
  split_ifs <;> rfl

@[simp] theorem assertTrue_debug (t e : Int) (info : String) (g : Globals) :
    (assertTrue t e info g).2.debug = g.debug := by
  unfold assertTrue
  split_ifs <;> rfl

@[simp] theorem assertTrue_nGenerate (t e : Int) (info : String) (g : Globals) :
    (assertTrue t e info g).2.nGenerate = g.nGenerate := by
  unfold assertTrue
  split_ifs <;> rfl

theorem assertTrue_out (t e : Int) (info : String) (g : Globals) :
    (assertTrue t e info g).2.out =
      if g.debug ≠ 0 then
        g.out ++ [if t = e then "TEST SUCCESSFULLY COMPLETED: " else "TEST FAILED: ", info]
      else g.out := by
  unfold assertTrue printf
  split_ifs <;> simp

/-- C9. `assertTrue` returns 1 when `testResult == expectedResult` and 0
otherwise, whatever the info string and the debug flag; the debug flag decides
only whether the two pieces of text are printed, and `assertTrue` leaves the
debug flag (and `nGenerate`) as it found them. -/
theorem assertTrue_spec (testResult expectedResult : Int) (info : String) (g : Globals) :
    (assertTrue testResult expectedResult info g).1
        = (if testResult = expectedResult then 1 else 0)
      ∧ (assertTrue testResult expectedResult info g).2.debug = g.debug
      ∧ (assertTrue testResult expectedResult info g).2.nGenerate = g.nGenerate
      ∧ (assertTrue testResult expectedResult info g).2.out
          = (if g.debug ≠ 0 then
              g.out ++ [if testResult = expectedResult then "TEST SUCCESSFULLY COMPLETED: "
                        else "TEST FAILED: ", info]
             else g.out)
      ∧ (∀ d : Int, (assertTrue testResult expectedResult info { g with debug := d }).1
            = (assertTrue testResult expectedResult info g).1) := by
  refine ⟨?_, ?_, ?_, ?_, ?_⟩
  · simp [cbool]
  · simp
  · simp
  · exact assertTrue_out _ _ _ _
  · intro d
    simp

/-! ## The checkers -/

theorem land_one_left (a : Int) : land 1 a = cbool (a ≠ 0) := by
  unfold land cbool
  simp

theorem land_cbool (p q : Prop) [Decidable p] [Decidable q] :
    land (cbool p) (cbool q) = cbool (p ∧ q) := by
  unfold land cbool
  by_cases hp : p <;> by_cases hq : q <;> simp [hp, hq]

theorem cbool_eq_one (p : Prop) [Decidable p] : cbool p = 1 ↔ p := by
  unfold cbool
  split_ifs with h <;> simp [h]

theorem cbool_ne_zero (p : Prop) [Decidable p] : cbool p ≠ 0 ↔ p := by
  unfold cbool
  split_ifs with h <;> simp [h]

theorem cbool_cases (p : Prop) [Decidable p] : cbool p = 1 ∨ cbool p = 0 := by
  unfold cbool
  split_ifs <;> simp


theorem land_cbool_left (p : Prop) [Decidable p] (a : Int) :
    land (cbool p) a = cbool (p ∧ a ≠ 0) := by
  unfold land cbool
  by_cases hp : p <;> by_cases ha : a = 0 <;> simp [hp, ha]

/-- The value returned by `Adventurer.checkAdventurer` when both hand reads
are inside the array. -/
theorem adventurer_checkAdventurer_eq (D : Dominion) (cardEffect : CardEffect) (player : Int)
    (pre : gameState) (g : Globals)
    (hlo : 2 ≤ (cardEffect (Adventurer.checkAdventurerCall D) pre).handCount player)
    (hhi : (cardEffect (Adventurer.checkAdventurerCall D) pre).handCount player ≤ D.MAX_HAND) :
    ∃ g1 : Globals, g1.debug = g.debug ∧ g1.nGenerate = g.nGenerate ∧
      Adventurer.checkAdventurer D cardEffect player pre g =
        some (cbool
          ((pre.handCount player + 2
              = (cardEffect (Adventurer.checkAdventurerCall D) pre).handCount player
            ∧ pre.handCount player + pre.deckCount player + pre.discardCount player
              = (cardEffect (Adventurer.checkAdventurerCall D) pre).handCount player
                + (cardEffect (Adventurer.checkAdventurerCall D) pre).deckCount player
                + (cardEffect (Adventurer.checkAdventurerCall D) pre).discardCount player
            ∧ (D.copper ≤ (cardEffect (Adventurer.checkAdventurerCall D) pre).hand player
                  ((cardEffect (Adventurer.checkAdventurerCall D) pre).handCount player - 2)
              ∧ (cardEffect (Adventurer.checkAdventurerCall D) pre).hand player
                  ((cardEffect (Adventurer.checkAdventurerCall D) pre).handCount player - 2)
                  ≤ D.gold)
            ∧ (D.copper ≤ (cardEffect (Adventurer.checkAdventurerCall D) pre).hand player
                  ((cardEffect (Adventurer.checkAdventurerCall D) pre).handCount player - 1)
              ∧ (cardEffect (Adventurer.checkAdventurerCall D) pre).hand player
                  ((cardEffect (Adventurer.checkAdventurerCall D) pre).handCount player - 1)
                  ≤ D.gold))),
          cardEffect (Adventurer.checkAdventurerCall D) pre, g1) := by
  generalize hpost : cardEffect (Adventurer.checkAdventurerCall D) pre = post at hlo hhi ⊢
  have r1 : readAt D.MAX_HAND (post.hand player) (post.handCount player - 2)
      = some (post.hand player (post.handCount player - 2)) := by
    unfold readAt
    rw [if_pos ⟨by omega, by omega⟩]
  have r2 : readAt D.MAX_HAND (post.hand player) (post.handCount player - 1)
      = some (post.hand player (post.handCount player - 1)) := by
    unfold readAt
    rw [if_pos ⟨by omega, by omega⟩]
  unfold Adventurer.checkAdventurer
  simp only [hpost, r1, r2]
  refine ⟨_, ?_, ?_, congrArg some (Prod.ext ?_ rfl)⟩
  · simp [apply_ite Globals.debug]
  · simp [apply_ite Globals.nGenerate]
  · simp only [assertTrue_fst, land_one_left, land_cbool, land_cbool_left, cbool_eq_one,
      cbool_ne_zero, ge_iff_le]
    congr 1
    simp only [eq_iff_iff]
    tauto

/-- C1. Provided the hand count of the player after the effect is between 2
and `MAX_HAND`, `checkAdventurer` returns, and it returns 1 exactly when
(a) the hand count grew by 2, (b) hand + deck + discard count is unchanged and
(c) the last two hand cards after the effect are treasure cards; otherwise it
returns 0.  The state left is the one `cardEffect` left. -/
theorem adventurer_checkAdventurer_spec (D : Dominion) (cardEffect : CardEffect) (player : Int)
    (pre post : gameState) (g : Globals)
    (hpost : post = cardEffect (Adventurer.checkAdventurerCall D) pre)
    (hlo : 2 ≤ post.handCount player) (hhi : post.handCount player ≤ D.MAX_HAND) :
    ∃ (r : Int) (g1 : Globals),
      Adventurer.checkAdventurer D cardEffect player pre g = some (r, post, g1)
      ∧ (r = 1 ↔
          (post.handCount player = pre.handCount player + 2
          ∧ post.handCount player + post.deckCount player + post.discardCount player
              = pre.handCount player + pre.deckCount player + pre.discardCount player
          ∧ (D.copper ≤ post.hand player (post.handCount player - 2)
              ∧ post.hand player (post.handCount player - 2) ≤ D.gold)
          ∧ (D.copper ≤ post.hand player (post.handCount player - 1)
              ∧ post.hand player (post.handCount player - 1) ≤ D.gold)))
      ∧ (r ≠ 1 → r = 0) := by
  subst hpost
  obtain ⟨g1, -, -, h⟩ := adventurer_checkAdventurer_eq D cardEffect player pre g hlo hhi
  refine ⟨_, g1, h, ?_, ?_⟩
  · rw [cbool_eq_one]
    constructor
    · rintro ⟨h1, h2, h3, h4⟩
      exact ⟨h1.symm, h2.symm, h3, h4⟩
    · rintro ⟨h1, h2, h3, h4⟩
      exact ⟨h1.symm, h2.symm, h3, h4⟩
  · unfold cbool
    split_ifs <;> simp

/-- Instance of C1: two silver cards drawn into a hand of five make
`checkAdventurer` return 1. -/
theorem adventurer_checkAdventurer_spec_witness :
    ∃ (post : gameState) (g1 : Globals),
      Adventurer.checkAdventurer dominionH (sampleAdventurer dominionH) 0 (uniformState 5 5)
          startGlobals = some (1, post, g1) := by
  obtain ⟨r, g1, h, hiff, -⟩ :=
    adventurer_checkAdventurer_spec dominionH (sampleAdventurer dominionH) 0 (uniformState 5 5) _
      startGlobals rfl (by decide) (by decide)
  have hr : r = 1 := hiff.mpr (by decide)
  subst hr
  exact ⟨_, g1, h⟩

/-- The value returned by `Card1.checkSmithy` when the read of the played pile
is inside the array. -/
theorem card1_checkSmithy_eq (D : Dominion) (cardEffect : CardEffect) (player : Int)
    (pre : gameState) (handPos : Int) (g : Globals)
    (hlo : 0 ≤ pre.playedCardCount) (hhi : pre.playedCardCount < D.MAX_DECK) :
    ∃ g1 : Globals, g1.debug = g.debug ∧ g1.nGenerate = g.nGenerate ∧
      Card1.checkSmithy D cardEffect player pre handPos g =
        some (cbool
          ((pre.handCount player + 2
              = (cardEffect (Card1.checkSmithyCall D) pre).handCount player
            ∧ pre.handCount player + pre.deckCount player + pre.discardCount player
                + pre.playedCardCount
              = (cardEffect (Card1.checkSmithyCall D) pre).handCount player
                + (cardEffect (Card1.checkSmithyCall D) pre).deckCount player
                + (cardEffect (Card1.checkSmithyCall D) pre).discardCount player
                + (cardEffect (Card1.checkSmithyCall D) pre).playedCardCount
            ∧ (cardEffect (Card1.checkSmithyCall D) pre).playedCardCount
              = pre.playedCardCount + 1
            ∧ (cardEffect (Card1.checkSmithyCall D) pre).playedCards pre.playedCardCount
              = D.smithy)),
          cardEffect (Card1.checkSmithyCall D) pre, g1) := by
  generalize hpost : cardEffect (Card1.checkSmithyCall D) pre = post
  have r1 : readAt D.MAX_DECK post.playedCards pre.playedCardCount
      = some (post.playedCards pre.playedCardCount) := by
    unfold readAt
    rw [if_pos ⟨hlo, hhi⟩]
  unfold Card1.checkSmithy
  simp only [hpost, r1]
  refine ⟨_, ?_, ?_, congrArg some (Prod.ext ?_ rfl)⟩
  · simp [apply_ite Globals.debug]
  · simp [apply_ite Globals.nGenerate]
  · simp only [assertTrue_fst, land_one_left, land_cbool, land_cbool_left, cbool_eq_one,
      cbool_ne_zero]
    congr 1
    simp only [eq_iff_iff]
    tauto

/-- The value returned by `Smithy.checkSmithy`. -/
theorem smithy_checkSmithy_eq (cardEffect : CardEffect) (player : Int)
    (pre : gameState) (g : Globals) :
    ∃ g1 : Globals, g1.debug = g.debug ∧ g1.nGenerate = g.nGenerate ∧
      Smithy.checkSmithy cardEffect player pre g =
        (cbool
          ((pre.handCount player + 3
              = (cardEffect Smithy.checkSmithyCall pre).handCount player
            ∧ pre.handCount player + pre.deckCount player + pre.discardCount player
              = (cardEffect Smithy.checkSmithyCall pre).handCount player
                + (cardEffect Smithy.checkSmithyCall pre).deckCount player
                + (cardEffect Smithy.checkSmithyCall pre).discardCount player)),
          cardEffect Smithy.checkSmithyCall pre, g1) := by
  generalize hpost : cardEffect Smithy.checkSmithyCall pre = post
  unfold Smithy.checkSmithy
  simp only [hpost]
  refine ⟨_, ?_, ?_, Prod.ext ?_ rfl⟩
  · simp [apply_ite Globals.debug]
  · simp [apply_ite Globals.nGenerate]
  · simp only [assertTrue_fst, land_one_left, land_cbool, land_cbool_left, cbool_eq_one,
      cbool_ne_zero]

/-- C3. For a state with `0 ≤ playedCardCount < MAX_DECK`, `checkSmithy` of
`randomtestcard1.c` returns, and it returns 1 exactly when (a) the hand count
grew by 2, (b) hand + deck + discard + played count is unchanged, (c) the
played count grew by 1 and (d) the played pile holds smithy at the index of the
old played count; otherwise it returns 0. -/
theorem card1_checkSmithy_spec (D : Dominion) (cardEffect : CardEffect) (player : Int)
    (pre post : gameState) (handPos : Int) (g : Globals)
    (hpost : post = cardEffect (Card1.checkSmithyCall D) pre)
    (hlo : 0 ≤ pre.playedCardCount) (hhi : pre.playedCardCount < D.MAX_DECK) :
    ∃ (r : Int) (g1 : Globals),
      Card1.checkSmithy D cardEffect player pre handPos g = some (r, post, g1)
      ∧ (r = 1 ↔
          (post.handCount player = pre.handCount player + 2
          ∧ post.handCount player + post.deckCount player + post.discardCount player
                + post.playedCardCount
              = pre.handCount player + pre.deckCount player + pre.discardCount player
                + pre.playedCardCount
          ∧ post.playedCardCount = pre.playedCardCount + 1
          ∧ post.playedCards pre.playedCardCount = D.smithy))
      ∧ (r ≠ 1 → r = 0) := by
  subst hpost
  obtain ⟨g1, -, -, h⟩ := card1_checkSmithy_eq D cardEffect player pre handPos g hlo hhi
  refine ⟨_, g1, h, ?_, ?_⟩
  · rw [cbool_eq_one]
    constructor
    · rintro ⟨h1, h2, h3, h4⟩
      exact ⟨h1.symm, h2.symm, h3, h4⟩
    · rintro ⟨h1, h2, h3, h4⟩
      exact ⟨h1.symm, h2.symm, h3, h4⟩
  · unfold cbool
    split_ifs <;> simp

/-- Instance of C3: the sample smithy effect played from the slot that holds
the smithy card makes `checkSmithy` return 1. -/
theorem card1_checkSmithy_spec_witness :
    ∃ (post : gameState) (g1 : Globals),
      Card1.checkSmithy dominionH (sampleSmithy dominionH) 0 (uniformState 5 13) 0
          startGlobals = some (1, post, g1) := by
  obtain ⟨r, g1, h, hiff, -⟩ :=
    card1_checkSmithy_spec dominionH (sampleSmithy dominionH) 0 (uniformState 5 13) _ 0
      startGlobals rfl (by decide) (by decide)
  have hr : r = 1 := hiff.mpr (by decide)
  subst hr
  exact ⟨_, g1, h⟩

/-- C4, as stated, fails: on the sample smithy effect `checkSmithy` of
`randomtestcard1.c` returns 1 while the hand count grew by 2, not by 3. -/
theorem card1_checkSmithy_three_cards_counterexample :
    ∃ (post : gameState) (g1 : Globals),
      Card1.checkSmithy dominionH (sampleSmithy dominionH) 0 (uniformState 5 13) 0 startGlobals
        = some (1, post, g1)
      ∧ post.handCount 0 = (uniformState 5 13).handCount 0 + 2
      ∧ post.handCount 0 ≠ (uniformState 5 13).handCount 0 + 3 :=
  ⟨_, _, rfl, by decide, by decide⟩

/-- C4, amended. If `checkSmithy` of `randomtestcard1.c` returns 1 then the
hand count of the player after the effect is the hand count before plus 2 (the
three cards drawn less the smithy card that left the hand). -/
theorem card1_checkSmithy_two_cards (D : Dominion) (cardEffect : CardEffect) (player : Int)
    (pre post : gameState) (handPos : Int) (g g1 : Globals)
    (h : Card1.checkSmithy D cardEffect player pre handPos g = some (1, post, g1)) :
    post = cardEffect (Card1.checkSmithyCall D) pre
      ∧ post.handCount player = pre.handCount player + 2 := by
  have hread : ∃ c, readAt D.MAX_DECK (cardEffect (Card1.checkSmithyCall D) pre).playedCards
      pre.playedCardCount = some c := by
    cases hc : readAt D.MAX_DECK (cardEffect (Card1.checkSmithyCall D) pre).playedCards
      pre.playedCardCount with
    | none =>
      unfold Card1.checkSmithy at h
      simp only [hc] at h
      exact absurd h (by simp)
    | some c => exact ⟨c, rfl⟩
  obtain ⟨c, hc⟩ := hread
  have hb : 0 ≤ pre.playedCardCount ∧ pre.playedCardCount < D.MAX_DECK := by
    unfold readAt at hc
    by_contra hn
    rw [if_neg hn] at hc
    exact absurd hc (by simp)
  obtain ⟨g2, -, -, h2⟩ := card1_checkSmithy_eq D cardEffect player pre handPos g hb.1 hb.2
  rw [h2] at h
  simp only [Option.some.injEq, Prod.mk.injEq] at h
  obtain ⟨hr, hp, -⟩ := h
  refine ⟨hp.symm, ?_⟩
  rw [cbool_eq_one] at hr
  rw [← hp]
  exact hr.1.symm

/-- Instance of the amended C4 on the sample smithy effect. -/
theorem card1_checkSmithy_two_cards_witness :
    (sampleSmithy dominionH (Card1.checkSmithyCall dominionH) (uniformState 5 13)).handCount 0
      = (uniformState 5 13).handCount 0 + 2 :=
  (card1_checkSmithy_two_cards dominionH (sampleSmithy dominionH) 0 (uniformState 5 13)
    (sampleSmithy dominionH (Card1.checkSmithyCall dominionH) (uniformState 5 13)) 0
    startGlobals startGlobals rfl).2

/-- C6. `checkSmithy` of `randomtestsmithy.c` returns 1 exactly when the hand
count after the effect is the hand count before plus 3 and hand + deck +
discard count is the same before and after; otherwise it returns 0.  The state
left is the one `cardEffect` left. -/
theorem smithy_checkSmithy_spec (cardEffect : CardEffect) (player : Int)
    (pre : gameState) (g : Globals) :
    ((Smithy.checkSmithy cardEffect player pre g).1 = 1 ↔
        ((cardEffect Smithy.checkSmithyCall pre).handCount player = pre.handCount player + 3
        ∧ (cardEffect Smithy.checkSmithyCall pre).handCount player
            + (cardEffect Smithy.checkSmithyCall pre).deckCount player
            + (cardEffect Smithy.checkSmithyCall pre).discardCount player
          = pre.handCount player + pre.deckCount player + pre.discardCount player))
      ∧ ((Smithy.checkSmithy cardEffect player pre g).1 = 1
          ∨ (Smithy.checkSmithy cardEffect player pre g).1 = 0)
      ∧ (Smithy.checkSmithy cardEffect player pre g).2.1 = cardEffect Smithy.checkSmithyCall pre := by
  obtain ⟨g1, -, -, h⟩ := smithy_checkSmithy_eq cardEffect player pre g
  rw [h]
  refine ⟨?_, cbool_cases _, rfl⟩
  · simp only [cbool_eq_one]
    constructor
    · rintro ⟨h1, h2⟩
      exact ⟨h1.symm, h2.symm⟩
    · rintro ⟨h1, h2⟩
      exact ⟨h1.symm, h2.symm⟩

/-! ## The random stream and the filling loops -/

theorem randomBelow_nonneg (rnd : Nat → ℚ) (hrnd : ∀ i, 0 ≤ rnd i ∧ rnd i < 1) (k : Nat)
    (n : Int) (hn : 0 ≤ n) : 0 ≤ randomBelow rnd k n := by
  unfold randomBelow
  apply Int.floor_nonneg.mpr
  exact mul_nonneg (hrnd k).1 (by exact_mod_cast hn)

theorem randomBelow_lt (rnd : Nat → ℚ) (hrnd : ∀ i, 0 ≤ rnd i ∧ rnd i < 1) (k : Nat)
    (n : Int) (hn : 0 < n) : randomBelow rnd k n < n := by
  unfold randomBelow
  apply Int.floor_lt.mpr
  have hpos : (0 : ℚ) < (n : ℚ) := by exact_mod_cast hn
  calc rnd k * (n : ℚ) < 1 * (n : ℚ) := mul_lt_mul_of_pos_right (hrnd k).2 hpos
    _ = (n : ℚ) := one_mul _

theorem forRandom_snoc {σ : Type} (rnd : Nat → ℚ) (m : Int) (body : Int → Int → σ → σ) :
    ∀ (n : Nat) (j : Int) (s : σ) (k : Nat),
      forRandom rnd m body (n + 1) j s k
        = (body (j + n) (randomBelow rnd ((forRandom rnd m body n j s k).2) m)
            (forRandom rnd m body n j s k).1,
           (forRandom rnd m body n j s k).2 + 1) := by
  intro n
  induction n with
  | zero =>
    intro j s k
    simp [forRandom]
  | succ n ih =>
    intro j s k
    rw [forRandom, ih (j + 1) (body j (randomBelow rnd k m) s) (k + 1)]
    have e : j + 1 + (n : Int) = j + ((n + 1 : Nat) : Int) := by push_cast; ring
    rw [e]
    rfl

theorem forRandom_frame {σ β : Type} (rnd : Nat → ℚ) (m : Int) (body : Int → Int → σ → σ)
    (f : σ → β) (hf : ∀ j c s, f (body j c s) = f s) (n : Nat) (j : Int) (s : σ) (k : Nat) :
    f (forRandom rnd m body n j s k).1 = f s := by
  induction n with
  | zero => rfl
  | succ n ih => rw [forRandom_snoc, hf, ih]

theorem countTreasure_congr (D : Dominion) (a b : Int → Int) :
    ∀ n : Nat, (∀ i : Nat, i < n → a i = b i) → countTreasure D a n = countTreasure D b n := by
  intro n
  induction n with
  | zero => intro _; rfl
  | succ n ih =>
    intro h
    rw [countTreasure, countTreasure, ih (fun i hi => h i (Nat.lt_succ_of_lt hi)),
      h n (Nat.lt_succ_self n)]

theorem forRandom_range {σ : Type} (rnd : Nat → ℚ) (hrnd : ∀ i, 0 ≤ rnd i ∧ rnd i < 1)
    (m : Int) (hm : 0 < m) (body : Int → Int → σ → σ) (get : σ → Int → Int)
    (hget : ∀ j c s, get (body j c s) = writeAt (get s) j c) (s : σ) (k : Nat) :
    ∀ (n : Nat) (i : Int), 0 ≤ i → i < n →
      0 ≤ get (forRandom rnd m body n 0 s k).1 i ∧ get (forRandom rnd m body n 0 s k).1 i < m := by
  intro n
  induction n with
  | zero =>
    intro i h0 hn
    exact absurd hn (by simp; omega)
  | succ n ih =>
    intro i h0 hn
    rw [forRandom_snoc, hget]
    unfold writeAt
    simp only [zero_add]
    split_ifs with hi
    · exact ⟨randomBelow_nonneg rnd hrnd _ m hm.le, randomBelow_lt rnd hrnd _ m hm⟩
    · exact ih i h0 (by push_cast at hn; omega)

theorem forRandom_count {σ : Type} (D : Dominion) (rnd : Nat → ℚ)
    (m : Int) (body : Int → Int → σ → σ) (get : σ → Int → Int) (cnt : σ → Int)
    (hget : ∀ j c s, get (body j c s) = writeAt (get s) j c)
    (hcnt : ∀ j c s, cnt (body j c s) = cnt s + (if D.copper ≤ c ∧ c ≤ D.gold then 1 else 0))
    (s : σ) (k : Nat) :
    ∀ n : Nat, cnt (forRandom rnd m body n 0 s k).1
      = cnt s + countTreasure D (get (forRandom rnd m body n 0 s k).1) n := by
  intro n
  induction n with
  | zero => simp [forRandom, countTreasure]
  | succ n ih =>
    rw [forRandom_snoc, hget, hcnt, ih, countTreasure]
    simp only [zero_add]
    have e : countTreasure D
        (writeAt (get (forRandom rnd m body n 0 s k).1) n
          (randomBelow rnd (forRandom rnd m body n 0 s k).2 m)) n
        = countTreasure D (get (forRandom rnd m body n 0 s k).1) n := by
      apply countTreasure_congr
      intro i hi
      unfold writeAt
      rw [if_neg]
      exact_mod_cast Nat.ne_of_lt hi
    rw [e]
    have e2 : writeAt (get (forRandom rnd m body n 0 s k).1) n
          (randomBelow rnd (forRandom rnd m body n 0 s k).2 m) n
        = randomBelow rnd (forRandom rnd m body n 0 s k).2 m := by
      unfold writeAt
      rw [if_pos rfl]
    rw [e2]
    push_cast
    split_ifs <;> ring

/-! ## generateAdventurerTestCase -/

theorem adventurer_fillDeck_frame (D : Dominion) (rnd : Nat → ℚ) (player : Int)
    (s : gameState × Int) (k : Nat) :
    (Adventurer.fillDeck D rnd player s k).1.1.whoseTurn = s.1.whoseTurn
    ∧ (Adventurer.fillDeck D rnd player s k).1.1.deckCount = s.1.deckCount
    ∧ (Adventurer.fillDeck D rnd player s k).1.1.discardCount = s.1.discardCount
    ∧ (Adventurer.fillDeck D rnd player s k).1.1.handCount = s.1.handCount := by
  unfold Adventurer.fillDeck
  refine ⟨?_, ?_, ?_, ?_⟩
  · exact forRandom_frame rnd _ _ (fun s : gameState × Int => s.1.whoseTurn) (by intros; rfl) _ _ _ _
  · exact forRandom_frame rnd _ _ (fun s : gameState × Int => s.1.deckCount) (by intros; rfl) _ _ _ _
  · exact forRandom_frame rnd _ _ (fun s : gameState × Int => s.1.discardCount) (by intros; rfl) _ _ _ _
  · exact forRandom_frame rnd _ _ (fun s : gameState × Int => s.1.handCount) (by intros; rfl) _ _ _ _

theorem adventurer_fillDiscard_frame (D : Dominion) (rnd : Nat → ℚ) (player : Int)
    (s : gameState × Int) (k : Nat) :
    (Adventurer.fillDiscard D rnd player s k).1.1.whoseTurn = s.1.whoseTurn
    ∧ (Adventurer.fillDiscard D rnd player s k).1.1.deckCount = s.1.deckCount
    ∧ (Adventurer.fillDiscard D rnd player s k).1.1.discardCount = s.1.discardCount
    ∧ (Adventurer.fillDiscard D rnd player s k).1.1.handCount = s.1.handCount
    ∧ (Adventurer.fillDiscard D rnd player s k).1.1.deck = s.1.deck := by
  unfold Adventurer.fillDiscard
  refine ⟨?_, ?_, ?_, ?_, ?_⟩
  · exact forRandom_frame rnd _ _ (fun s : gameState × Int => s.1.whoseTurn) (by intros; rfl) _ _ _ _
  · exact forRandom_frame rnd _ _ (fun s : gameState × Int => s.1.deckCount) (by intros; rfl) _ _ _ _
  · exact forRandom_frame rnd _ _ (fun s : gameState × Int => s.1.discardCount) (by intros; rfl) _ _ _ _
  · exact forRandom_frame rnd _ _ (fun s : gameState × Int => s.1.handCount) (by intros; rfl) _ _ _ _
  · exact forRandom_frame rnd _ _ (fun s : gameState × Int => s.1.deck) (by intros; rfl) _ _ _ _

theorem writeAt2_same (a : Int → Int → Int) (p j v : Int) :
    writeAt2 a p j v p = writeAt (a p) j v := by
  unfold writeAt2
  rw [if_pos rfl]

theorem adventurer_fillDeck_cards (D : Dominion) (rnd : Nat → ℚ)
    (hrnd : ∀ i, 0 ≤ rnd i ∧ rnd i < 1) (htm : 0 ≤ D.treasure_map) (player : Int)
    (s : gameState × Int) (k : Nat) :
    (∀ i : Int, 0 ≤ i → i < s.1.deckCount player →
        0 ≤ (Adventurer.fillDeck D rnd player s k).1.1.deck player i
        ∧ (Adventurer.fillDeck D rnd player s k).1.1.deck player i ≤ D.treasure_map)
    ∧ (Adventurer.fillDeck D rnd player s k).1.2
        = s.2 + countTreasure D ((Adventurer.fillDeck D rnd player s k).1.1.deck player)
            (s.1.deckCount player).toNat := by
  unfold Adventurer.fillDeck
  constructor
  · intro i h0 hi
    have h := forRandom_range rnd hrnd (D.treasure_map + 1) (by omega)
      (Adventurer.deckStep D player)
      (fun s : gameState × Int => s.1.deck player) (fun j c s => writeAt2_same _ _ _ _)
      s k (s.1.deckCount player).toNat i h0 (by omega)
    exact ⟨h.1, Int.lt_add_one_iff.mp h.2⟩
  · exact forRandom_count D rnd _ (Adventurer.deckStep D player)
      (fun s : gameState × Int => s.1.deck player) (fun s => s.2)
      (fun j c s => writeAt2_same _ _ _ _)
      (fun j c s => by unfold Adventurer.deckStep; simp only [ge_iff_le]; split_ifs <;> simp)
      s k _

theorem adventurer_fillDiscard_cards (D : Dominion) (rnd : Nat → ℚ)
    (hrnd : ∀ i, 0 ≤ rnd i ∧ rnd i < 1) (htm : 0 ≤ D.treasure_map) (player : Int)
    (s : gameState × Int) (k : Nat) :
    (∀ i : Int, 0 ≤ i → i < s.1.discardCount player →
        0 ≤ (Adventurer.fillDiscard D rnd player s k).1.1.discard player i
        ∧ (Adventurer.fillDiscard D rnd player s k).1.1.discard player i ≤ D.treasure_map)
    ∧ (Adventurer.fillDiscard D rnd player s k).1.2
        = s.2 + countTreasure D ((Adventurer.fillDiscard D rnd player s k).1.1.discard player)
            (s.1.discardCount player).toNat := by
  unfold Adventurer.fillDiscard
  constructor
  · intro i h0 hi
    have h := forRandom_range rnd hrnd (D.treasure_map + 1) (by omega)
      (Adventurer.discardStep D player)
      (fun s : gameState × Int => s.1.discard player) (fun j c s => writeAt2_same _ _ _ _)
      s k (s.1.discardCount player).toNat i h0 (by omega)
    exact ⟨h.1, Int.lt_add_one_iff.mp h.2⟩
  · exact forRandom_count D rnd _ (Adventurer.discardStep D player)
      (fun s : gameState × Int => s.1.discard player)
      (fun s => s.2) (fun j c s => writeAt2_same _ _ _ _)
      (fun j c s => by unfold Adventurer.discardStep; simp only [ge_iff_le]; split_ifs <;> simp)
      s k _

theorem writeAt_same (a : Int → Int) (i v : Int) : writeAt a i v i = v := by
  unfold writeAt
  rw [if_pos rfl]

theorem adventurer_forceCounts_eq (D : Dominion) (rnd : Nat → ℚ) (player : Int)
    (game : gameState) (k : Nat) :
    (Adventurer.forceCounts D rnd player game k).1.whoseTurn = player
    ∧ (Adventurer.forceCounts D rnd player game k).1.deckCount player
        = randomBelow rnd k D.MAX_DECK
    ∧ (Adventurer.forceCounts D rnd player game k).1.discardCount player
        = randomBelow rnd (k + 1) D.MAX_DECK
    ∧ (Adventurer.forceCounts D rnd player game k).1.handCount player
        = randomBelow rnd (k + 1 + 1) D.MAX_HAND := by
  unfold Adventurer.forceCounts
  simp only [writeAt_same, and_self]

theorem adventurer_generateAttempt_break (D : Dominion) (size : Nat)
    (image : (Nat → Int) → gameState) (rnd : Nat → ℚ) (hrnd : ∀ i, 0 ≤ rnd i ∧ rnd i < 1)
    (hdeck : 0 < D.MAX_DECK) (hhand : 0 < D.MAX_HAND) (htm : 0 ≤ D.treasure_map)
    (k : Nat) (hb : (Adventurer.generateAttempt D size image rnd k).1 = true) :
    Adventurer.Suitable D (Adventurer.generateAttempt D size image rnd k).2.1 := by
  unfold Adventurer.generateAttempt at hb ⊢
  simp only at hb ⊢
  generalize image (fun i => randomBelow rnd (k + i) 256) = game0 at hb ⊢
  have hp0 := randomBelow_nonneg rnd hrnd (k + size) 4 (by norm_num)
  have hp3 := randomBelow_lt rnd hrnd (k + size) 4 (by norm_num)
  generalize randomBelow rnd (k + size) 4 = player at hb hp0 hp3 ⊢
  obtain ⟨c1, c2, c3, c4⟩ := adventurer_forceCounts_eq D rnd player game0 (k + size + 1)
  have d0 := randomBelow_nonneg rnd hrnd (k + size + 1) D.MAX_DECK hdeck.le
  have d1 := randomBelow_lt rnd hrnd (k + size + 1) D.MAX_DECK hdeck
  have e0 := randomBelow_nonneg rnd hrnd (k + size + 1 + 1) D.MAX_DECK hdeck.le
  have e1 := randomBelow_lt rnd hrnd (k + size + 1 + 1) D.MAX_DECK hdeck
  have f0 := randomBelow_nonneg rnd hrnd (k + size + 1 + 1 + 1) D.MAX_HAND hhand.le
  have f1 := randomBelow_lt rnd hrnd (k + size + 1 + 1 + 1) D.MAX_HAND hhand
  rw [← c2] at d0 d1
  rw [← c3] at e0 e1
  rw [← c4] at f0 f1
  generalize Adventurer.forceCounts D rnd player game0 (k + size + 1) = r0 at *
  split_ifs at hb ⊢ with h1 h2
  · simp only
    obtain ⟨a1, a2, a3, a4⟩ := adventurer_fillDeck_frame D rnd player (r0.1, 0) r0.2
    obtain ⟨a5, a6⟩ := adventurer_fillDeck_cards D rnd hrnd htm player (r0.1, 0) r0.2
    generalize Adventurer.fillDeck D rnd player (r0.1, 0) r0.2 = r1 at *
    obtain ⟨b1, b2, b3, b4, b5⟩ := adventurer_fillDiscard_frame D rnd player r1.1 r1.2
    obtain ⟨b6, b7⟩ := adventurer_fillDiscard_cards D rnd hrnd htm player r1.1 r1.2
    generalize Adventurer.fillDiscard D rnd player r1.1 r1.2 = r2 at *
    simp only at a1 a2 a3 a4 a5 a6
    unfold Adventurer.Suitable
    rw [b1, a1, c1, b2, a2, b3, a3, b4, a4, b5]
    rw [a3] at b6 b7
    refine ⟨hp0, by omega, ⟨d0, d1⟩, ⟨e0, e1⟩, ⟨f0, f1⟩, by omega, a5, b6, ?_⟩
    rw [a6] at b7
    omega

/-- C2. Whenever `generateAdventurerTestCase` returns, the state it leaves
satisfies, with `p = whoseTurn`: `0 ≤ p ≤ 3`; the deck and discard counts of
`p` are in `[0, MAX_DECK)` and the hand count in `[0, MAX_HAND)`; deck and
discard together hold at least 2 cards; every card in them is between 0 and
`treasure_map`; and at least two of them are treasure cards. -/
theorem adventurer_generateAdventurerTestCase_spec (D : Dominion) (size : Nat)
    (image : (Nat → Int) → gameState) (rnd : Nat → ℚ) (hrnd : ∀ i, 0 ≤ rnd i ∧ rnd i < 1)
    (hdeck : 0 < D.MAX_DECK) (hhand : 0 < D.MAX_HAND) (htm : 0 ≤ D.treasure_map)
    (fuel k : Nat) (g : Globals) (game : gameState) (k1 : Nat) (g1 : Globals)
    (h : Adventurer.generateAdventurerTestCase D size image rnd fuel k g = some (game, k1, g1)) :
    0 ≤ game.whoseTurn ∧ game.whoseTurn ≤ 3
    ∧ (0 ≤ game.deckCount game.whoseTurn ∧ game.deckCount game.whoseTurn < D.MAX_DECK)
    ∧ (0 ≤ game.discardCount game.whoseTurn ∧ game.discardCount game.whoseTurn < D.MAX_DECK)
    ∧ (0 ≤ game.handCount game.whoseTurn ∧ game.handCount game.whoseTurn < D.MAX_HAND)
    ∧ 2 ≤ game.deckCount game.whoseTurn + game.discardCount game.whoseTurn
    ∧ (∀ i : Int, 0 ≤ i → i < game.deckCount game.whoseTurn →
        0 ≤ game.deck game.whoseTurn i ∧ game.deck game.whoseTurn i ≤ D.treasure_map)
    ∧ (∀ i : Int, 0 ≤ i → i < game.discardCount game.whoseTurn →
        0 ≤ game.discard game.whoseTurn i ∧ game.discard game.whoseTurn i ≤ D.treasure_map)
    ∧ 2 ≤ countTreasure D (game.deck game.whoseTurn) (game.deckCount game.whoseTurn).toNat
          + countTreasure D (game.discard game.whoseTurn)
              (game.discardCount game.whoseTurn).toNat := by
  induction fuel generalizing k g with
  | zero => simp [Adventurer.generateAdventurerTestCase] at h
  | succ fuel ih =>
    unfold Adventurer.generateAdventurerTestCase at h
    simp only at h
    split_ifs at h with hb
    · simp only [Option.some.injEq, Prod.mk.injEq] at h
      have hs := adventurer_generateAttempt_break D size image rnd hrnd hdeck hhand htm k hb
      rw [h.1] at hs
      exact hs
    · exact ih _ _ h

theorem sampleStream_range (size n first : Nat) (hn : n < 500) (i : Nat) :
    0 ≤ sampleStream size n first i ∧ sampleStream size n first i < 1 := by
  unfold sampleStream
  split_ifs
  · constructor
    · positivity
    · rw [div_lt_one (by norm_num)]
      exact_mod_cast hn
  · norm_num
  · norm_num

theorem adventurer_generateAttempt_sample :
    (Adventurer.generateAttempt dominionH 100 (fun _ => uniformState 0 0)
      (sampleStream 100 2 104) 0).1 = true := by
  simp [Adventurer.generateAttempt, Adventurer.forceCounts, Adventurer.fillDeck,
    Adventurer.fillDiscard, Adventurer.deckStep, Adventurer.discardStep, forRandom, randomBelow,
    sampleStream, writeAt, writeAt2, dominionH, uniformState]

/-- Instance of C2: on the sample stream the first pass is accepted, with two
silver cards in the deck. -/
theorem adventurer_generateAdventurerTestCase_spec_witness :
    ∃ (game : gameState) (k1 : Nat) (g1 : Globals),
      Adventurer.generateAdventurerTestCase dominionH 100 (fun _ => uniformState 0 0)
          (sampleStream 100 2 104) 1 0 startGlobals = some (game, k1, g1)
      ∧ 0 ≤ game.whoseTurn ∧ game.whoseTurn ≤ 3
      ∧ 2 ≤ game.deckCount game.whoseTurn + game.discardCount game.whoseTurn
      ∧ 2 ≤ countTreasure dominionH (game.deck game.whoseTurn)
              (game.deckCount game.whoseTurn).toNat
            + countTreasure dominionH (game.discard game.whoseTurn)
              (game.discardCount game.whoseTurn).toNat := by
  have hrun : Adventurer.generateAdventurerTestCase dominionH 100 (fun _ => uniformState 0 0)
      (sampleStream 100 2 104) 1 0 startGlobals
      = some ((Adventurer.generateAttempt dominionH 100 (fun _ => uniformState 0 0)
            (sampleStream 100 2 104) 0).2.1,
          (Adventurer.generateAttempt dominionH 100 (fun _ => uniformState 0 0)
            (sampleStream 100 2 104) 0).2.2,
          { startGlobals with nGenerate := startGlobals.nGenerate + 1 }) := by
    simp [Adventurer.generateAdventurerTestCase, adventurer_generateAttempt_sample]
  have h := adventurer_generateAdventurerTestCase_spec dominionH 100 (fun _ => uniformState 0 0)
    (sampleStream 100 2 104) (sampleStream_range 100 2 104 (by norm_num)) (by decide) (by decide)
    (by decide) 1 0 startGlobals _ _ _ hrun
  exact ⟨_, _, _, hrun, h.1, h.2.1, h.2.2.2.2.2.1, h.2.2.2.2.2.2.2.2⟩

/-! ## generateSmithyTestCase of randomtestcard1.c -/

theorem card1_fillDeck_frame (D : Dominion) (rnd : Nat → ℚ) (player : Int)
    (s : gameState) (k : Nat) :
    (Card1.fillDeck D rnd player s k).1.whoseTurn = s.whoseTurn
    ∧ (Card1.fillDeck D rnd player s k).1.deckCount = s.deckCount
    ∧ (Card1.fillDeck D rnd player s k).1.discardCount = s.discardCount
    ∧ (Card1.fillDeck D rnd player s k).1.handCount = s.handCount
    ∧ (Card1.fillDeck D rnd player s k).1.playedCardCount = s.playedCardCount := by
  unfold Card1.fillDeck
  refine ⟨?_, ?_, ?_, ?_, ?_⟩
  · exact forRandom_frame rnd _ _ (fun s : gameState => s.whoseTurn) (by intros; rfl) _ _ _ _
  · exact forRandom_frame rnd _ _ (fun s : gameState => s.deckCount) (by intros; rfl) _ _ _ _
  · exact forRandom_frame rnd _ _ (fun s : gameState => s.discardCount) (by intros; rfl) _ _ _ _
  · exact forRandom_frame rnd _ _ (fun s : gameState => s.handCount) (by intros; rfl) _ _ _ _
  · exact forRandom_frame rnd _ _ (fun s : gameState => s.playedCardCount) (by intros; rfl)
      _ _ _ _

theorem card1_fillDiscard_frame (D : Dominion) (rnd : Nat → ℚ) (player : Int)
    (s : gameState) (k : Nat) :
    (Card1.fillDiscard D rnd player s k).1.whoseTurn = s.whoseTurn
    ∧ (Card1.fillDiscard D rnd player s k).1.deckCount = s.deckCount
    ∧ (Card1.fillDiscard D rnd player s k).1.discardCount = s.discardCount
    ∧ (Card1.fillDiscard D rnd player s k).1.handCount = s.handCount
    ∧ (Card1.fillDiscard D rnd player s k).1.playedCardCount = s.playedCardCount := by
  unfold Card1.fillDiscard
  refine ⟨?_, ?_, ?_, ?_, ?_⟩
  · exact forRandom_frame rnd _ _ (fun s : gameState => s.whoseTurn) (by intros; rfl) _ _ _ _
  · exact forRandom_frame rnd _ _ (fun s : gameState => s.deckCount) (by intros; rfl) _ _ _ _
  · exact forRandom_frame rnd _ _ (fun s : gameState => s.discardCount) (by intros; rfl) _ _ _ _
  · exact forRandom_frame rnd _ _ (fun s : gameState => s.handCount) (by intros; rfl) _ _ _ _
  · exact forRandom_frame rnd _ _ (fun s : gameState => s.playedCardCount) (by intros; rfl)
      _ _ _ _

theorem card1_forceCounts_eq (D : Dominion) (rnd : Nat → ℚ) (player : Int)
    (game : gameState) (k : Nat) :
    (Card1.forceCounts D rnd player game k).1.whoseTurn = player
    ∧ (Card1.forceCounts D rnd player game k).1.deckCount player
        = randomBelow rnd k D.MAX_DECK
    ∧ (Card1.forceCounts D rnd player game k).1.discardCount player
        = randomBelow rnd (k + 1) D.MAX_DECK
    ∧ (Card1.forceCounts D rnd player game k).1.handCount player
        = randomBelow rnd (k + 1 + 1) (D.MAX_HAND - 1) + 1
    ∧ (Card1.forceCounts D rnd player game k).1.playedCardCount
        = randomBelow rnd (k + 1 + 1 + 1) (D.MAX_DECK - 1) := by
  unfold Card1.forceCounts
  simp only [writeAt_same, and_self]

theorem card1_generateAttempt_break (D : Dominion) (size : Nat)
    (image : (Nat → Int) → gameState) (rnd : Nat → ℚ) (hrnd : ∀ i, 0 ≤ rnd i ∧ rnd i < 1)
    (hdeck : 1 < D.MAX_DECK) (hhand : 1 < D.MAX_HAND)
    (k : Nat) (hb : (Card1.generateAttempt D size image rnd k).1 = true) :
    Card1.Suitable D (Card1.generateAttempt D size image rnd k).2.1
      (Card1.generateAttempt D size image rnd k).2.2.1 := by
  unfold Card1.generateAttempt at hb ⊢
  simp only at hb ⊢
  generalize image (fun i => randomBelow rnd (k + i) 256) = game0 at hb ⊢
  have hp0 := randomBelow_nonneg rnd hrnd (k + size) 4 (by norm_num)
  have hp3 := randomBelow_lt rnd hrnd (k + size) 4 (by norm_num)
  generalize randomBelow rnd (k + size) 4 = player at hb hp0 hp3 ⊢
  obtain ⟨c1, c2, c3, c4, c5⟩ := card1_forceCounts_eq D rnd player game0 (k + size + 1)
  have d0 := randomBelow_nonneg rnd hrnd (k + size + 1) D.MAX_DECK (by omega)
  have d1 := randomBelow_lt rnd hrnd (k + size + 1) D.MAX_DECK (by omega)
  have e0 := randomBelow_nonneg rnd hrnd (k + size + 1 + 1) D.MAX_DECK (by omega)
  have e1 := randomBelow_lt rnd hrnd (k + size + 1 + 1) D.MAX_DECK (by omega)
  have f0 := randomBelow_nonneg rnd hrnd (k + size + 1 + 1 + 1) (D.MAX_HAND - 1) (by omega)
  have f1 := randomBelow_lt rnd hrnd (k + size + 1 + 1 + 1) (D.MAX_HAND - 1) (by omega)
  have p0 := randomBelow_nonneg rnd hrnd (k + size + 1 + 1 + 1 + 1) (D.MAX_DECK - 1) (by omega)
  have p1 := randomBelow_lt rnd hrnd (k + size + 1 + 1 + 1 + 1) (D.MAX_DECK - 1) (by omega)
  rw [← c2] at d0 d1
  rw [← c3] at e0 e1
  rw [← c5] at p0 p1
  have f2 : 1 ≤ (Card1.forceCounts D rnd player game0 (k + size + 1)).1.handCount player
      ∧ (Card1.forceCounts D rnd player game0 (k + size + 1)).1.handCount player
          ≤ D.MAX_HAND - 1 := by
    rw [c4]
    omega
  clear c2 c3 c4 c5 f0 f1
  generalize Card1.forceCounts D rnd player game0 (k + size + 1) = r0 at *
  split_ifs at hb ⊢ with h1
  · simp only
    obtain ⟨a1, a2, a3, a4, a5⟩ := card1_fillDeck_frame D rnd player r0.1 r0.2
    generalize Card1.fillDeck D rnd player r0.1 r0.2 = r1 at *
    obtain ⟨b1, b2, b3, b4, b5⟩ := card1_fillDiscard_frame D rnd player r1.1 r1.2
    generalize Card1.fillDiscard D rnd player r1.1 r1.2 = r2 at *
    have q0 := randomBelow_nonneg rnd hrnd r2.2 (r2.1.handCount player)
      (by rw [b4, a4]; omega)
    have q1 := randomBelow_lt rnd hrnd r2.2 (r2.1.handCount player) (by rw [b4, a4]; omega)
    unfold Card1.Suitable
    simp only
    rw [b1, a1, c1, b2, a2, b3, a3, b4, a4, b5, a5, writeAt2_same, writeAt_same]
    rw [b4, a4] at q0 q1
    exact ⟨hp0, by omega, f2, ⟨q0, q1⟩, rfl, ⟨d0, d1⟩, ⟨e0, e1⟩, by omega, p0, by omega⟩

theorem card1_generate_suitable (D : Dominion) (size : Nat)
    (image : (Nat → Int) → gameState) (rnd : Nat → ℚ) (hrnd : ∀ i, 0 ≤ rnd i ∧ rnd i < 1)
    (hdeck : 1 < D.MAX_DECK) (hhand : 1 < D.MAX_HAND)
    (fuel k : Nat) (g : Globals) (h : Int) (game : gameState) (k1 : Nat) (g1 : Globals)
    (hret : Card1.generateSmithyTestCase D size image rnd fuel k g = some (h, game, k1, g1)) :
    Card1.Suitable D h game := by
  induction fuel generalizing k g with
  | zero => simp [Card1.generateSmithyTestCase] at hret
  | succ fuel ih =>
    unfold Card1.generateSmithyTestCase at hret
    simp only at hret
    split_ifs at hret with hb
    · simp only [Option.some.injEq, Prod.mk.injEq] at hret
      have hs := card1_generateAttempt_break D size image rnd hrnd hdeck hhand k hb
      rw [hret.1, hret.2.1] at hs
      exact hs
    · exact ih _ _ hret

/-- C5. Whenever `generateSmithyTestCase` of `randomtestcard1.c` returns the
value `h`, the state it leaves satisfies, with `p = whoseTurn`: `0 ≤ p ≤ 3`;
`1 ≤ handCount[p] ≤ MAX_HAND - 1`; `0 ≤ h < handCount[p]`; `hand[p][h]` is
smithy; the deck and discard counts of `p` are in `[0, MAX_DECK)` and add up
to at least 3; and `0 ≤ playedCardCount ≤ MAX_DECK - 2`, so that the slot
`playedCards[playedCardCount]` exists and `checkSmithy` returns on this state
whatever the effect does. -/
theorem card1_generateSmithyTestCase_spec (D : Dominion) (size : Nat)
    (image : (Nat → Int) → gameState) (rnd : Nat → ℚ) (hrnd : ∀ i, 0 ≤ rnd i ∧ rnd i < 1)
    (hdeck : 1 < D.MAX_DECK) (hhand : 1 < D.MAX_HAND)
    (fuel k : Nat) (g : Globals) (h : Int) (game : gameState) (k1 : Nat) (g1 : Globals)
    (hret : Card1.generateSmithyTestCase D size image rnd fuel k g = some (h, game, k1, g1)) :
    0 ≤ game.whoseTurn ∧ game.whoseTurn ≤ 3
    ∧ (1 ≤ game.handCount game.whoseTurn ∧ game.handCount game.whoseTurn ≤ D.MAX_HAND - 1)
    ∧ (0 ≤ h ∧ h < game.handCount game.whoseTurn)
    ∧ game.hand game.whoseTurn h = D.smithy
    ∧ (0 ≤ game.deckCount game.whoseTurn ∧ game.deckCount game.whoseTurn < D.MAX_DECK)
    ∧ (0 ≤ game.discardCount game.whoseTurn ∧ game.discardCount game.whoseTurn < D.MAX_DECK)
    ∧ 3 ≤ game.deckCount game.whoseTurn + game.discardCount game.whoseTurn
    ∧ (0 ≤ game.playedCardCount ∧ game.playedCardCount ≤ D.MAX_DECK - 2)
    ∧ (∀ (cardEffect : CardEffect) (g2 : Globals),
        (Card1.checkSmithy D cardEffect game.whoseTurn game h g2).isSome = true) := by
  obtain ⟨s1, s2, s3, s4, s5, s6, s7, s8, s9, s10⟩ :=
    card1_generate_suitable D size image rnd hrnd hdeck hhand fuel k g h game k1 g1 hret
  refine ⟨s1, s2, s3, s4, s5, s6, s7, s8, ⟨s9, s10⟩, ?_⟩
  intro cardEffect g2
  obtain ⟨g3, -, -, he⟩ :=
    card1_checkSmithy_eq D cardEffect game.whoseTurn game h g2 s9 (by omega)
  rw [he]
  rfl

theorem card1_generateAttempt_sample :
    (Card1.generateAttempt dominionH 100 (fun _ => uniformState 0 0)
      (sampleStream 100 3 105) 0).1 = true := by
  simp [Card1.generateAttempt, Card1.forceCounts, randomBelow,
    sampleStream, writeAt, dominionH, uniformState]

/-- Instance of C5: on the sample stream the first pass is accepted; the hand
has one card, the smithy at position 0. -/
theorem card1_generateSmithyTestCase_spec_witness :
    ∃ (h : Int) (game : gameState) (k1 : Nat) (g1 : Globals),
      Card1.generateSmithyTestCase dominionH 100 (fun _ => uniformState 0 0)
          (sampleStream 100 3 105) 1 0 startGlobals = some (h, game, k1, g1)
      ∧ (0 ≤ h ∧ h < game.handCount game.whoseTurn)
      ∧ game.hand game.whoseTurn h = dominionH.smithy
      ∧ 3 ≤ game.deckCount game.whoseTurn + game.discardCount game.whoseTurn := by
  have hrun : Card1.generateSmithyTestCase dominionH 100 (fun _ => uniformState 0 0)
      (sampleStream 100 3 105) 1 0 startGlobals
      = some ((Card1.generateAttempt dominionH 100 (fun _ => uniformState 0 0)
            (sampleStream 100 3 105) 0).2.1,
          (Card1.generateAttempt dominionH 100 (fun _ => uniformState 0 0)
            (sampleStream 100 3 105) 0).2.2.1,
          (Card1.generateAttempt dominionH 100 (fun _ => uniformState 0 0)
            (sampleStream 100 3 105) 0).2.2.2,
          { startGlobals with nGenerate := startGlobals.nGenerate + 1 }) := by
    simp [Card1.generateSmithyTestCase, card1_generateAttempt_sample]
  have h := card1_generateSmithyTestCase_spec dominionH 100 (fun _ => uniformState 0 0)
    (sampleStream 100 3 105) (sampleStream_range 100 3 105 (by norm_num)) (by decide) (by decide)
    1 0 startGlobals _ _ _ _ hrun
  exact ⟨_, _, _, _, hrun, h.2.2.2.1, h.2.2.2.2.1, h.2.2.2.2.2.2.2.1⟩

/-- C10 fails on the code: the card argument that `checkSmithy` of
`randomtestsmithy.c` passes to `cardEffect` is the literal 0, which is not the
smithy card of the header (13), while `checkSmithy` of `randomtestcard1.c`
passes `smithy`.  An effect that reacts to the smithy card only therefore
leaves the state as it was, the hand count included, and the check returns 0. -/
theorem smithy_checkSmithy_card_argument :
    Smithy.checkSmithyCall.card = 0
    ∧ Smithy.checkSmithyCall.card ≠ dominionH.smithy
    ∧ (Card1.checkSmithyCall dominionH).card = dominionH.smithy
    ∧ (Smithy.checkSmithy (sampleSmithy dominionH) 0 (uniformState 5 13) startGlobals).2.1.handCount 0
        = (uniformState 5 13).handCount 0
    ∧ (Smithy.checkSmithy (sampleSmithy dominionH) 0 (uniformState 5 13) startGlobals).1 = 0 := by
  refine ⟨rfl, by decide, rfl, by decide, by decide⟩

/-! ## The loop of main -/

section Driver

variable {σ : Type}

theorem forLoop_snoc (M : Int) (gen : Globals → σ → Option (σ × Globals))
    (chk : Globals → σ → Option (Int × σ × Globals)) (n : Nat) (s : MainState σ) :
    forLoop M gen chk (n + 1) s = (forLoop M gen chk n s).bind (iteration M gen chk) := by
  induction n generalizing s with
  | zero =>
    simp only [forLoop, Option.some_bind]
    cases iteration M gen chk s <;> rfl
  | succ n ih =>
    rw [forLoop]
    cases h : iteration M gen chk s with
    | none => simp [forLoop, h]
    | some s1 =>
      simp only
      rw [ih s1]
      conv_rhs => rw [forLoop, h]

theorem stateAt_succ (M : Int) (banner : String) (gen : Globals → σ → Option (σ × Globals))
    (chk : Globals → σ → Option (Int × σ × Globals)) (w0 : σ) (i : Nat) :
    stateAt M banner gen chk w0 (i + 1)
      = (stateAt M banner gen chk w0 i).bind (iteration M gen chk) :=
  forLoop_snoc M gen chk i _

theorem prepare_some (gen : Globals → σ → Option (σ × Globals)) (s s1 : MainState σ)
    (h : prepare gen s = some s1) :
    s1.nTest = s.nTest + 1 ∧ s1.nDebug = s.nDebug ∧ s1.nSuccess = s.nSuccess
      ∧ s1.nFailure = s.nFailure
      ∧ ∃ w g, gen s.glob s.world = some (w, g) ∧ s1.glob.debug = g.debug := by
  unfold prepare at h
  simp only at h
  cases hg : gen s.glob s.world with
  | none => simp [hg] at h
  | some r =>
    obtain ⟨w, g⟩ := r
    simp only [hg, Option.some.injEq] at h
    subst h
    refine ⟨rfl, rfl, rfl, rfl, w, g, rfl, ?_⟩
    simp [apply_ite Globals.debug]

theorem callChecker_some (chk : Globals → σ → Option (Int × σ × Globals)) (s s2 : MainState σ)
    (v : Int) (h : callChecker chk s = some (v, s2)) :
    s2.nTest = s.nTest ∧ s2.nDebug = s.nDebug ∧ s2.nSuccess = s.nSuccess
      ∧ s2.nFailure = s.nFailure
      ∧ ∃ w, chk s.glob s.world = some (v, w, s2.glob) := by
  unfold callChecker at h
  cases hc : chk s.glob s.world with
  | none => simp [hc] at h
  | some r =>
    obtain ⟨p, w, g⟩ := r
    simp only [hc, Option.some.injEq, Prod.mk.injEq] at h
    obtain ⟨h1, h2⟩ := h
    subst h1 h2
    exact ⟨rfl, rfl, rfl, rfl, w, rfl⟩

theorem tally_counts (M : Int) (v : Int) (s : MainState σ) :
    (tally M v s).nTest = s.nTest
    ∧ (tally M v s).nSuccess = s.nSuccess + (if v = 0 then 0 else 1)
    ∧ (tally M v s).nFailure = s.nFailure + (if v = 0 then 1 else 0) := by
  unfold tally
  by_cases hv : v = 0 <;> simp only [hv, ne_eq, not_true_eq_false, not_false_eq_true, if_true,
    if_false] <;> split_ifs <;> simp

theorem tally_debug (M : Int) (v : Int) (s : MainState σ) :
    (tally M v s).nDebug
        = (if (if v = 0 ∧ s.nDebug = 0 then 1 else s.glob.debug) ≠ 0 then s.nDebug + 1
           else s.nDebug)
    ∧ (tally M v s).glob.debug
        = (if (if v = 0 ∧ s.nDebug = 0 then 1 else s.glob.debug) ≠ 0 then
            (if s.nDebug + 1 > M then 0
             else (if v = 0 ∧ s.nDebug = 0 then 1 else s.glob.debug))
           else 0) := by
  unfold tally
  by_cases hv : v = 0 <;> by_cases hn : s.nDebug = 0 <;> by_cases hd : s.glob.debug = 0 <;>
    by_cases hm : s.nDebug + 1 > M <;> simp [hv, hn, hd, hm] <;> split_ifs <;> simp_all

theorem passAt_some (M : Int) (banner : String) (gen : Globals → σ → Option (σ × Globals))
    (chk : Globals → σ → Option (Int × σ × Globals)) (w0 : σ) (i : Nat) (v : Int)
    (h : passAt M banner gen chk w0 i = some v) :
    ∃ s s1 s2, stateAt M banner gen chk w0 i = some s ∧ prepare gen s = some s1
      ∧ callChecker chk s1 = some (v, s2)
      ∧ stateAt M banner gen chk w0 (i + 1) = some (tally M v s2)
      ∧ debugAt M banner gen chk w0 i = some s1.glob.debug := by
  unfold passAt at h
  rw [stateAt_succ]
  unfold debugAt
  cases hs : stateAt M banner gen chk w0 i with
  | none => simp [hs] at h
  | some s =>
    cases hp : prepare gen s with
    | none => simp [hs, hp] at h
    | some s1 =>
      cases hc : callChecker chk s1 with
      | none => simp [hs, hp, hc] at h
      | some r =>
        obtain ⟨v1, s2⟩ := r
        simp only [hs, hp, hc, Option.some_bind, Option.map_some', Option.some.injEq] at h
        subst h
        refine ⟨s, s1, s2, rfl, hp, hc, ?_, ?_⟩
        · simp [iteration, hp, hc]
        · simp [hp]

theorem step_debug (M : Int) (banner : String) (gen : Globals → σ → Option (σ × Globals))
    (chk : Globals → σ → Option (Int × σ × Globals)) (w0 : σ)
    (hgen : ∀ g w w1 g1, gen g w = some (w1, g1) → g1.debug = g.debug)
    (hchk : ∀ g w v w1 g1, chk g w = some (v, w1, g1) → g1.debug = g.debug)
    (i : Nat) (v : Int) (h : passAt M banner gen chk w0 i = some v) :
    ∃ s s2, stateAt M banner gen chk w0 i = some s
      ∧ stateAt M banner gen chk w0 (i + 1) = some (tally M v s2)
      ∧ s2.nDebug = s.nDebug ∧ s2.glob.debug = s.glob.debug
      ∧ debugAt M banner gen chk w0 i = some s.glob.debug := by
  obtain ⟨s, s1, s2, hs, hp, hc, hnext, hd⟩ := passAt_some M banner gen chk w0 i v h
  obtain ⟨-, p2, -, -, w, g, hg, pd⟩ := prepare_some gen s s1 hp
  obtain ⟨-, c2, -, -, w', hc'⟩ := callChecker_some chk s1 s2 v hc
  have e1 : s1.glob.debug = s.glob.debug := by rw [pd]; exact hgen _ _ _ _ hg
  have e2 : s2.glob.debug = s1.glob.debug := hchk _ _ _ _ _ hc'
  exact ⟨s, s2, hs, hnext, by rw [c2, p2], by rw [e2, e1], by rw [hd, e1]⟩

theorem stateAt_quiet (M : Int) (banner : String) (gen : Globals → σ → Option (σ × Globals))
    (chk : Globals → σ → Option (Int × σ × Globals)) (w0 : σ)
    (hgen : ∀ g w w1 g1, gen g w = some (w1, g1) → g1.debug = g.debug)
    (hchk : ∀ g w v w1 g1, chk g w = some (v, w1, g1) → g1.debug = g.debug)
    (n : Nat)
    (hret : ∀ j, j < n → (passAt M banner gen chk w0 j).isSome = true)
    (hno : ∀ j, j < n → passAt M banner gen chk w0 j ≠ some 0) :
    ∃ s, stateAt M banner gen chk w0 n = some s ∧ s.nDebug = 0 ∧ s.glob.debug = 0 := by
  induction n with
  | zero => exact ⟨_, rfl, rfl, rfl⟩
  | succ n ih =>
    obtain ⟨s, hs, h1, h2⟩ := ih (fun j hj => hret j (Nat.lt_succ_of_lt hj))
      (fun j hj => hno j (Nat.lt_succ_of_lt hj))
    obtain ⟨v, hv⟩ := Option.isSome_iff_exists.mp (hret n (Nat.lt_succ_self n))
    have hv0 : v ≠ 0 := by
      intro h0
      exact hno n (Nat.lt_succ_self n) (by rw [hv, h0])
    obtain ⟨s', s2, hs', hnext, d1, d2, -⟩ := step_debug M banner gen chk w0 hgen hchk n v hv
    rw [hs] at hs'
    obtain rfl : s = s' := Option.some.inj hs'
    obtain ⟨t1, t2⟩ := tally_debug M v s2
    refine ⟨_, hnext, ?_, ?_⟩
    · rw [t1, d1, d2, h1, h2]
      simp [hv0]
    · rw [t2, d1, d2, h1, h2]
      simp [hv0]

theorem stateAt_window (M : Int) (hM : 0 ≤ M) (banner : String)
    (gen : Globals → σ → Option (σ × Globals))
    (chk : Globals → σ → Option (Int × σ × Globals)) (w0 : σ)
    (hgen : ∀ g w w1 g1, gen g w = some (w1, g1) → g1.debug = g.debug)
    (hchk : ∀ g w v w1 g1, chk g w = some (v, w1, g1) → g1.debug = g.debug)
    (k : Nat)
    (hfail : passAt M banner gen chk w0 k = some 0)
    (hfirst : ∀ j, j < k → passAt M banner gen chk w0 j ≠ some 0)
    (d : Nat)
    (hret : ∀ j, j < k + d + 1 → (passAt M banner gen chk w0 j).isSome = true) :
    ∃ s, stateAt M banner gen chk w0 (k + d + 1) = some s
      ∧ s.nDebug = min ((d : Int) + 1) (M + 1)
      ∧ s.glob.debug = (if (d : Int) + 1 ≤ M then 1 else 0) := by
  induction d with
  | zero =>
    obtain ⟨s, hs, h1, h2⟩ := stateAt_quiet M banner gen chk w0 hgen hchk k
      (fun j hj => hret j (by omega)) hfirst
    obtain ⟨s', s2, hs', hnext, d1, d2, -⟩ := step_debug M banner gen chk w0 hgen hchk k 0 hfail
    rw [hs] at hs'
    obtain rfl : s = s' := Option.some.inj hs'
    obtain ⟨t1, t2⟩ := tally_debug M 0 s2
    refine ⟨_, hnext, ?_, ?_⟩
    · rw [t1, d1, d2, h1, h2]
      simp
      omega
    · rw [t2, d1, d2, h1, h2]
      simp
      split_ifs <;> omega
  | succ d ih =>
    obtain ⟨s, hs, h1, h2⟩ := ih (fun j hj => hret j (by omega))
    obtain ⟨v, hv⟩ := Option.isSome_iff_exists.mp (hret (k + d + 1) (by omega))
    obtain ⟨s', s2, hs', hnext, d1, d2, -⟩ :=
      step_debug M banner gen chk w0 hgen hchk (k + d + 1) v hv
    rw [hs] at hs'
    obtain rfl : s = s' := Option.some.inj hs'
    obtain ⟨t1, t2⟩ := tally_debug M v s2
    have hnd : s.nDebug ≠ 0 := by
      rw [h1]
      omega
    refine ⟨_, hnext, ?_, ?_⟩
    · rw [t1, d1, d2, h1, h2]
      push_cast
      by_cases hd : (d : Int) + 1 ≤ M
      · simp [hd, hnd, h1]
        omega
      · simp [hd, hnd, h1]
        omega
    · rw [t2, d1, d2, h2]
      push_cast
      by_cases hd : (d : Int) + 1 ≤ M
      · simp [hd, hnd, h1]
        split_ifs <;> omega
      · simp [hd, hnd, h1]
        omega

theorem iteration_eq (M : Int) (gen : Globals → σ → Option (σ × Globals))
    (chk : Globals → σ → Option (Int × σ × Globals)) (s : MainState σ) :
    iteration M gen chk s
      = (((some s).bind (prepare gen)).bind (callChecker chk)).map (fun r => tally M r.1 r.2) := by
  unfold iteration
  cases hp : prepare gen s with
  | none => simp [hp]
  | some s1 =>
    cases hc : callChecker chk s1 with
    | none => simp [hp, hc]
    | some r => simp [hp, hc]

theorem passAt_isSome_of_stateAt (M : Int) (banner : String)
    (gen : Globals → σ → Option (σ × Globals))
    (chk : Globals → σ → Option (Int × σ × Globals)) (w0 : σ) (n : Nat)
    (h : (stateAt M banner gen chk w0 n).isSome = true) :
    ∀ i, i < n → (passAt M banner gen chk w0 i).isSome = true := by
  induction n with
  | zero =>
    intro i hi
    exact absurd hi (Nat.not_lt_zero i)
  | succ n ih =>
    rw [stateAt_succ] at h
    cases hs : stateAt M banner gen chk w0 n with
    | none => simp [hs] at h
    | some s =>
      rw [hs, Option.some_bind, iteration_eq, Option.isSome_map'] at h
      have hn : (passAt M banner gen chk w0 n).isSome = true := by
        unfold passAt
        rw [hs, Option.isSome_map']
        exact h
      intro i hi
      rcases Nat.lt_succ_iff_lt_or_eq.mp hi with hlt | heq
      · exact ih (by simp [hs]) i hlt
      · rw [heq]
        exact hn

theorem forLoop_isSome_of_total (M : Int) (gen : Globals → σ → Option (σ × Globals))
    (chk : Globals → σ → Option (Int × σ × Globals))
    (hgen : ∀ g w, (gen g w).isSome = true) (hchk : ∀ g w, (chk g w).isSome = true)
    (n : Nat) (s : MainState σ) : (forLoop M gen chk n s).isSome = true := by
  induction n generalizing s with
  | zero => rfl
  | succ n ih =>
    obtain ⟨r, hr⟩ := Option.isSome_iff_exists.mp (hgen s.glob s.world)
    have hp : ∃ s1, prepare gen s = some s1 := by
      unfold prepare
      simp only [hr]
      exact ⟨_, rfl⟩
    obtain ⟨s1, hs1⟩ := hp
    obtain ⟨c, hc⟩ := Option.isSome_iff_exists.mp (hchk s1.glob s1.world)
    have hi : iteration M gen chk s = some (tally M c.1 { s1 with glob := c.2.2, world := c.2.1 }) := by
      unfold iteration callChecker
      simp only [hs1, hc]
    rw [forLoop, hi]
    exact ih _

theorem passAt_isSome_of_total (M : Int) (banner : String)
    (gen : Globals → σ → Option (σ × Globals))
    (chk : Globals → σ → Option (Int × σ × Globals)) (w0 : σ)
    (hgen : ∀ g w, (gen g w).isSome = true) (hchk : ∀ g w, (chk g w).isSome = true)
    (i : Nat) : (passAt M banner gen chk w0 i).isSome = true :=
  passAt_isSome_of_stateAt M banner gen chk w0 (i + 1)
    (forLoop_isSome_of_total M gen chk hgen hchk (i + 1) _) i (Nat.lt_succ_self i)

theorem debugAt_of_state (M : Int) (banner : String) (gen : Globals → σ → Option (σ × Globals))
    (chk : Globals → σ → Option (Int × σ × Globals)) (w0 : σ)
    (hgen : ∀ g w w1 g1, gen g w = some (w1, g1) → g1.debug = g.debug)
    (hchk : ∀ g w v w1 g1, chk g w = some (v, w1, g1) → g1.debug = g.debug)
    (i : Nat) (hi : (passAt M banner gen chk w0 i).isSome = true) (s : MainState σ)
    (hs : stateAt M banner gen chk w0 i = some s) :
    debugAt M banner gen chk w0 i = some s.glob.debug := by
  obtain ⟨v, hv⟩ := Option.isSome_iff_exists.mp hi
  obtain ⟨s', s2, hs', -, -, -, hd⟩ := step_debug M banner gen chk w0 hgen hchk i v hv
  rw [hs] at hs'
  obtain rfl : s = s' := Option.some.inj hs'
  exact hd

theorem debug_window (M : Int) (hM : 0 ≤ M) (banner : String)
    (gen : Globals → σ → Option (σ × Globals))
    (chk : Globals → σ → Option (Int × σ × Globals)) (w0 : σ)
    (hgen : ∀ g w w1 g1, gen g w = some (w1, g1) → g1.debug = g.debug)
    (hchk : ∀ g w v w1 g1, chk g w = some (v, w1, g1) → g1.debug = g.debug)
    (n : Nat) (hret : ∀ i, i < n → (passAt M banner gen chk w0 i).isSome = true)
    (k : Nat) (hfail : passAt M banner gen chk w0 k = some 0)
    (hfirst : ∀ j, j < k → passAt M banner gen chk w0 j ≠ some 0) (i : Nat) (hi : i < n) :
    debugAt M banner gen chk w0 i
      = some (if k < i ∧ (i : Int) ≤ k + M then 1 else 0) := by
  by_cases hik : i ≤ k
  · obtain ⟨s, hs, -, h2⟩ := stateAt_quiet M banner gen chk w0 hgen hchk i
      (fun j hj => hret j (by omega)) (fun j hj => hfirst j (by omega))
    rw [debugAt_of_state M banner gen chk w0 hgen hchk i (hret i hi) s hs, h2,
      if_neg (by omega)]
  · obtain ⟨d, hd⟩ : ∃ d, i = k + d + 1 := ⟨i - k - 1, by omega⟩
    subst hd
    obtain ⟨s, hs, -, h2⟩ := stateAt_window M hM banner gen chk w0 hgen hchk k hfail hfirst d
      (fun j hj => hret j (by omega))
    rw [debugAt_of_state M banner gen chk w0 hgen hchk _ (hret _ hi) s hs, h2]
    congr 1
    push_cast
    by_cases hdm : (d : Int) + 1 ≤ M
    · rw [if_pos hdm, if_pos ⟨by omega, by omega⟩]
    · rw [if_neg hdm, if_neg (by omega)]

theorem debug_quiet (M : Int) (banner : String)
    (gen : Globals → σ → Option (σ × Globals))
    (chk : Globals → σ → Option (Int × σ × Globals)) (w0 : σ)
    (hgen : ∀ g w w1 g1, gen g w = some (w1, g1) → g1.debug = g.debug)
    (hchk : ∀ g w v w1 g1, chk g w = some (v, w1, g1) → g1.debug = g.debug)
    (n : Nat) (hret : ∀ i, i < n → (passAt M banner gen chk w0 i).isSome = true)
    (hno : ∀ j, j < n → passAt M banner gen chk w0 j ≠ some 0) (i : Nat) (hi : i < n) :
    debugAt M banner gen chk w0 i = some 0 := by
  obtain ⟨s, hs, -, h2⟩ := stateAt_quiet M banner gen chk w0 hgen hchk i
    (fun j hj => hret j (by omega)) (fun j hj => hno j (by omega))
  rw [debugAt_of_state M banner gen chk w0 hgen hchk i (hret i hi) s hs, h2]

theorem debug_verbose_card (banner : String)
    (gen : Globals → σ → Option (σ × Globals))
    (chk : Globals → σ → Option (Int × σ × Globals)) (w0 : σ)
    (hgen : ∀ g w w1 g1, gen g w = some (w1, g1) → g1.debug = g.debug)
    (hchk : ∀ g w v w1 g1, chk g w = some (v, w1, g1) → g1.debug = g.debug)
    (n : Nat) (hret : ∀ i, i < n → (passAt 5 banner gen chk w0 i).isSome = true) :
    ((Finset.range n).filter (fun i => debugAt 5 banner gen chk w0 i ≠ some 0)).card ≤ 5 := by
  by_cases hex : ∃ k, k < n ∧ passAt 5 banner gen chk w0 k = some 0
  · classical
    have hk := Nat.find_spec hex
    have hmin : ∀ j, j < Nat.find hex → passAt 5 banner gen chk w0 j ≠ some 0 := by
      intro j hj hj0
      exact Nat.find_min hex hj ⟨by omega, hj0⟩
    have hsub : (Finset.range n).filter (fun i => debugAt 5 banner gen chk w0 i ≠ some 0)
        ⊆ Finset.Ioc (Nat.find hex) (Nat.find hex + 5) := by
      intro i hi
      rw [Finset.mem_filter, Finset.mem_range] at hi
      have hw := debug_window 5 (by norm_num) banner gen chk w0 hgen hchk n hret (Nat.find hex)
        hk.2 hmin i hi.1
      rw [Finset.mem_Ioc]
      by_contra hcon
      apply hi.2
      rw [hw, if_neg]
      intro hc
      apply hcon
      exact ⟨hc.1, by exact_mod_cast hc.2⟩
    calc _ ≤ (Finset.Ioc (Nat.find hex) (Nat.find hex + 5)).card := Finset.card_le_card hsub
      _ = 5 := by simp
  · have hno : ∀ j, j < n → passAt 5 banner gen chk w0 j ≠ some 0 :=
      fun j hj h0 => hex ⟨j, hj, h0⟩
    have hempty : (Finset.range n).filter (fun i => debugAt 5 banner gen chk w0 i ≠ some 0)
        = ∅ := by
      apply Finset.filter_eq_empty_iff.mpr
      intro i hi
      rw [Finset.mem_range] at hi
      simp [debug_quiet 5 banner gen chk w0 hgen hchk n hret hno i hi]
    rw [hempty]
    simp

end Driver

theorem adventurer_generate_debug (D : Dominion) (size : Nat)
    (image : (Nat → Int) → gameState) (rnd : Nat → ℚ) (fuel : Nat) (g : Globals)
    (w w1 : gameState × Nat) (g1 : Globals)
    (h : Adventurer.generateCall D size image rnd fuel g w = some (w1, g1)) :
    g1.debug = g.debug := by
  unfold Adventurer.generateCall at h
  generalize w.2 = k at h
  induction fuel generalizing k g with
  | zero => simp [Adventurer.generateAdventurerTestCase] at h
  | succ fuel ih =>
    unfold Adventurer.generateAdventurerTestCase at h
    simp only at h
    split_ifs at h with hb
    · simp only [Option.map_some', Option.some.injEq, Prod.mk.injEq] at h
      rw [← h.2]
    · have hd := ih _ _ h
      exact hd

theorem smithy_generate_debug (D : Dominion) (size : Nat)
    (image : (Nat → Int) → gameState) (rnd : Nat → ℚ) (fuel : Nat) (g : Globals)
    (w w1 : gameState × Nat) (g1 : Globals)
    (h : Smithy.generateCall D size image rnd fuel g w = some (w1, g1)) :
    g1.debug = g.debug := by
  unfold Smithy.generateCall at h
  generalize w.2 = k at h
  induction fuel generalizing k g with
  | zero => simp [Smithy.generateSmithyTestCase] at h
  | succ fuel ih =>
    unfold Smithy.generateSmithyTestCase at h
    simp only at h
    split_ifs at h with hb
    · simp only [Option.map_some', Option.some.injEq, Prod.mk.injEq] at h
      rw [← h.2]
    · have hd := ih _ _ h
      exact hd

theorem card1_generate_debug (D : Dominion) (size : Nat)
    (image : (Nat → Int) → gameState) (rnd : Nat → ℚ) (fuel : Nat) (g : Globals)
    (w w1 : (gameState × Int) × Nat) (g1 : Globals)
    (h : Card1.generateCall D size image rnd fuel g w = some (w1, g1)) :
    g1.debug = g.debug := by
  unfold Card1.generateCall at h
  generalize w.2 = k at h
  induction fuel generalizing k g with
  | zero => simp [Card1.generateSmithyTestCase] at h
  | succ fuel ih =>
    unfold Card1.generateSmithyTestCase at h
    simp only at h
    split_ifs at h with hb
    · simp only [Option.map_some', Option.some.injEq, Prod.mk.injEq] at h
      rw [← h.2]
    · have hd := ih _ _ h
      exact hd

theorem readAt_some (size : Int) (a : Int → Int) (i c : Int) (h : readAt size a i = some c) :
    0 ≤ i ∧ i < size := by
  unfold readAt at h
  by_contra hn
  rw [if_neg hn] at h
  exact absurd h (by simp)

theorem adventurer_check_debug (D : Dominion) (cardEffect : CardEffect) (g : Globals)
    (w : gameState × Nat) (v : Int) (w1 : gameState × Nat) (g1 : Globals)
    (h : Adventurer.checkCall D cardEffect g w = some (v, w1, g1)) : g1.debug = g.debug := by
  unfold Adventurer.checkCall at h
  cases h1 : readAt D.MAX_HAND ((cardEffect (Adventurer.checkAdventurerCall D) w.1).hand
      w.1.whoseTurn)
      ((cardEffect (Adventurer.checkAdventurerCall D) w.1).handCount w.1.whoseTurn - 2) with
  | none =>
    unfold Adventurer.checkAdventurer at h
    simp [h1] at h
  | some c1 =>
    cases h2 : readAt D.MAX_HAND ((cardEffect (Adventurer.checkAdventurerCall D) w.1).hand
        w.1.whoseTurn)
        ((cardEffect (Adventurer.checkAdventurerCall D) w.1).handCount w.1.whoseTurn - 1) with
    | none =>
      unfold Adventurer.checkAdventurer at h
      simp [h1, h2] at h
    | some c2 =>
      have b1 := readAt_some _ _ _ _ h1
      have b2 := readAt_some _ _ _ _ h2
      obtain ⟨g2, hd, -, he⟩ := adventurer_checkAdventurer_eq D cardEffect w.1.whoseTurn w.1 g
        (by omega) (by omega)
      rw [he] at h
      simp only [Option.map_some', Option.some.injEq, Prod.mk.injEq] at h
      rw [← h.2.2]
      exact hd

theorem card1_check_debug (D : Dominion) (cardEffect : CardEffect) (g : Globals)
    (w : (gameState × Int) × Nat) (v : Int) (w1 : (gameState × Int) × Nat) (g1 : Globals)
    (h : Card1.checkCall D cardEffect g w = some (v, w1, g1)) : g1.debug = g.debug := by
  unfold Card1.checkCall at h
  cases h1 : readAt D.MAX_DECK (cardEffect (Card1.checkSmithyCall D) w.1.1).playedCards
      w.1.1.playedCardCount with
  | none =>
    unfold Card1.checkSmithy at h
    simp [h1] at h
  | some c1 =>
    have b1 := readAt_some _ _ _ _ h1
    obtain ⟨g2, hd, -, he⟩ := card1_checkSmithy_eq D cardEffect w.1.1.whoseTurn w.1.1 w.1.2 g
      b1.1 b1.2
    rw [he] at h
    simp only [Option.map_some', Option.some.injEq, Prod.mk.injEq] at h
    rw [← h.2.2]
    exact hd

theorem smithy_check_debug (cardEffect : CardEffect) (g : Globals)
    (w : gameState × Nat) (v : Int) (w1 : gameState × Nat) (g1 : Globals)
    (h : Smithy.checkCall cardEffect g w = some (v, w1, g1)) : g1.debug = g.debug := by
  unfold Smithy.checkCall at h
  obtain ⟨g2, hd, -, he⟩ := smithy_checkSmithy_eq cardEffect w.1.whoseTurn w.1 g
  rw [he] at h
  simp only [Option.some.injEq, Prod.mk.injEq] at h
  rw [← h.2.2]
  exact hd

theorem debug_window_all {σ : Type} (banner : String)
    (generate : Globals → σ → Option (σ × Globals))
    (check : Globals → σ → Option (Int × σ × Globals)) (w0 : σ)
    (hgen : ∀ g w w1 g1, generate g w = some (w1, g1) → g1.debug = g.debug)
    (hchk : ∀ g w v w1 g1, check g w = some (v, w1, g1) → g1.debug = g.debug)
    (n : Nat) (hret : ∀ i, i < n → (passAt 5 banner generate check w0 i).isSome = true) :
    DebugWindow 5 (passAt 5 banner generate check w0) (debugAt 5 banner generate check w0) n := by
  refine ⟨?_, ?_, debug_verbose_card banner generate check w0 hgen hchk n hret⟩
  · intro k _ hfail hfirst
    have hw := debug_window 5 (by norm_num) banner generate check w0 hgen hchk n hret k hfail
      hfirst
    refine ⟨?_, ?_, ?_⟩
    · intro i hi
      rw [hw i (by omega), if_neg (by omega)]
    · intro i h1 h2 h3
      rw [hw i h3, if_pos ⟨h1, by exact_mod_cast h2⟩]
    · intro i h1 h2
      rw [hw i h2, if_neg]
      intro hc
      have := hc.2
      omega
  · intro hno i hi
    exact debug_quiet 5 banner generate check w0 hgen hchk n hret hno i hi

/-- C8. With `MAXDEBUG = 5`, for a generator and a checker that leave the debug
flag alone and return in the first `n` iterations: if `k` is the first
iteration in which the checker returns 0, the checker is called with
`debug = 0` in every iteration up to and including `k`, with `debug = 1` in the
iterations `k+1` to `k+5` and with `debug = 0` in every later one, whatever the
checker returns there; if the checker never returns 0 it is always called
with `debug = 0`; so at most 5 iterations are checked with the flag set.  The
generators and checkers of `randomtestadventurer.c`, `randomtestcard1.c` and
`randomtestsmithy.c` leave the flag alone, so this holds of their `main`. -/
theorem main_debug_window :
    (∀ (σ : Type) (banner : String) (generate : Globals → σ → Option (σ × Globals))
        (check : Globals → σ → Option (Int × σ × Globals)) (w0 : σ),
      (∀ g w w1 g1, generate g w = some (w1, g1) → g1.debug = g.debug) →
      (∀ g w v w1 g1, check g w = some (v, w1, g1) → g1.debug = g.debug) →
      ∀ n : Nat, (∀ i, i < n → (passAt 5 banner generate check w0 i).isSome = true) →
        (∀ k, k < n → passAt 5 banner generate check w0 k = some 0 →
            (∀ j, j < k → passAt 5 banner generate check w0 j ≠ some 0) →
            (∀ i, i ≤ k → debugAt 5 banner generate check w0 i = some 0)
            ∧ (∀ i, k < i → i ≤ k + 5 → i < n →
                debugAt 5 banner generate check w0 i = some 1)
            ∧ (∀ i, k + 5 < i → i < n → debugAt 5 banner generate check w0 i = some 0))
        ∧ ((∀ i, i < n → passAt 5 banner generate check w0 i ≠ some 0) →
            ∀ i, i < n → debugAt 5 banner generate check w0 i = some 0)
        ∧ ((Finset.range n).filter
            (fun i => debugAt 5 banner generate check w0 i ≠ some 0)).card ≤ 5)
    ∧ (∀ (D : Dominion) (size : Nat) (image : (Nat → Int) → gameState) (rnd : Nat → ℚ)
        (cardEffect : CardEffect) (fuel : Nat) (banner : String) (w0 : gameState × Nat)
        (n : Nat),
      (∀ i, i < n → (passAt 5 banner (Adventurer.generateCall D size image rnd fuel)
          (Adventurer.checkCall D cardEffect) w0 i).isSome = true) →
      DebugWindow 5
        (passAt 5 banner (Adventurer.generateCall D size image rnd fuel)
          (Adventurer.checkCall D cardEffect) w0)
        (debugAt 5 banner (Adventurer.generateCall D size image rnd fuel)
          (Adventurer.checkCall D cardEffect) w0) n)
    ∧ (∀ (D : Dominion) (size : Nat) (image : (Nat → Int) → gameState) (rnd : Nat → ℚ)
        (cardEffect : CardEffect) (fuel : Nat) (banner : String)
        (w0 : (gameState × Int) × Nat) (n : Nat),
      (∀ i, i < n → (passAt 5 banner (Card1.generateCall D size image rnd fuel)
          (Card1.checkCall D cardEffect) w0 i).isSome = true) →
      DebugWindow 5
        (passAt 5 banner (Card1.generateCall D size image rnd fuel)
          (Card1.checkCall D cardEffect) w0)
        (debugAt 5 banner (Card1.generateCall D size image rnd fuel)
          (Card1.checkCall D cardEffect) w0) n)
    ∧ (∀ (D : Dominion) (size : Nat) (image : (Nat → Int) → gameState) (rnd : Nat → ℚ)
        (cardEffect : CardEffect) (fuel : Nat) (banner : String) (w0 : gameState × Nat)
        (n : Nat),
      (∀ i, i < n → (passAt 5 banner (Smithy.generateCall D size image rnd fuel)
          (Smithy.checkCall cardEffect) w0 i).isSome = true) →
      DebugWindow 5
        (passAt 5 banner (Smithy.generateCall D size image rnd fuel)
          (Smithy.checkCall cardEffect) w0)
        (debugAt 5 banner (Smithy.generateCall D size image rnd fuel)
          (Smithy.checkCall cardEffect) w0) n) := by
  refine ⟨?_, ?_, ?_, ?_⟩
  · intro σ banner generate check w0 hgen hchk n hret
    exact debug_window_all banner generate check w0 hgen hchk n hret
  · intro D size image rnd cardEffect fuel banner w0 n hret
    exact debug_window_all banner _ _ w0 (adventurer_generate_debug D size image rnd fuel)
      (adventurer_check_debug D cardEffect) n hret
  · intro D size image rnd cardEffect fuel banner w0 n hret
    exact debug_window_all banner _ _ w0 (card1_generate_debug D size image rnd fuel)
      (card1_check_debug D cardEffect) n hret
  · intro D size image rnd cardEffect fuel banner w0 n hret
    exact debug_window_all banner _ _ w0 (smithy_generate_debug D size image rnd fuel)
      (smithy_check_debug cardEffect) n hret

theorem sampleCheck_debug (g : Globals) (w : gameState) (v : Int) (w1 : gameState)
    (g1 : Globals) (h : sampleCheck g w = some (v, w1, g1)) : g1.debug = g.debug := by
  unfold sampleCheck at h
  obtain ⟨g2, hd, -, he⟩ := smithy_checkSmithy_eq (sampleSmithy dominionH) w.whoseTurn w g
  rw [he] at h
  simp only [Option.some.injEq, Prod.mk.injEq] at h
  rw [← h.2.2]
  exact hd

theorem sampleGenerate_debug (g : Globals) (w w1 : gameState) (g1 : Globals)
    (h : sampleGenerate g w = some (w1, g1)) : g1.debug = g.debug := by
  unfold sampleGenerate at h
  simp only [Option.some.injEq, Prod.mk.injEq] at h
  rw [← h.2]

theorem sampleCheck_first : passAt 5 "" sampleGenerate sampleCheck (uniformState 0 0) 0 = some 0 := by
  decide

/-- Instance of C8: the sample checker fails in iteration 0, so of eight
iterations the checker sees `debug = 0` in iteration 0, `debug = 1` in
iterations 1 to 5, and `debug = 0` in iterations 6 and 7. -/
theorem main_debug_window_witness :
    debugAt 5 "" sampleGenerate sampleCheck (uniformState 0 0) 0 = some 0
    ∧ debugAt 5 "" sampleGenerate sampleCheck (uniformState 0 0) 1 = some 1
    ∧ debugAt 5 "" sampleGenerate sampleCheck (uniformState 0 0) 5 = some 1
    ∧ debugAt 5 "" sampleGenerate sampleCheck (uniformState 0 0) 6 = some 0
    ∧ debugAt 5 "" sampleGenerate sampleCheck (uniformState 0 0) 7 = some 0 := by
  obtain ⟨h1, h2, h3⟩ :=
    (main_debug_window.1 gameState "" sampleGenerate sampleCheck (uniformState 0 0)
      sampleGenerate_debug sampleCheck_debug 8
      (fun i _ => passAt_isSome_of_total 5 "" sampleGenerate sampleCheck (uniformState 0 0)
        (fun _ _ => rfl) (fun _ _ => rfl) i)).1 0 (by norm_num) sampleCheck_first
      (fun j hj => absurd hj (Nat.not_lt_zero j))
  exact ⟨h1 0 (le_refl 0), h2 1 (by norm_num) (by norm_num) (by norm_num),
    h2 5 (by norm_num) (by norm_num) (by norm_num), h3 6 (by norm_num) (by norm_num),
    h3 7 (by norm_num) (by norm_num)⟩

/-- The card argument of the call in `checkSmithy` of `randomtestsmithy.c` is
not the smithy card of any header whose `smithy` is not the first enumerator. -/
theorem smithy_call_card_ne (D : Dominion) (h : D.smithy ≠ 0) :
    Smithy.checkSmithyCall.card ≠ D.smithy :=
  fun e => h e.symm

/-! ## The hand position of the smithy card in randomtestcard1.c -/

theorem handPosStream_range (size : Nat) (i : Nat) :
    0 ≤ handPosStream size i ∧ handPosStream size i < 1 := by
  unfold handPosStream
  split_ifs <;> norm_num

theorem randomBelow_eq_of_bounds (rnd : Nat → ℚ) (k : Nat) (n c : Int)
    (h1 : (c : ℚ) ≤ rnd k * (n : ℚ)) (h2 : rnd k * (n : ℚ) < (c : ℚ) + 1) :
    randomBelow rnd k n = c := by
  unfold randomBelow
  exact Int.floor_eq_iff.mpr ⟨h1, h2⟩

theorem handPosStream_draws :
    randomBelow (handPosStream 100) 100 4 = 0
    ∧ randomBelow (handPosStream 100) 101 500 = 3
    ∧ randomBelow (handPosStream 100) 102 500 = 0
    ∧ randomBelow (handPosStream 100) 103 499 = 1
    ∧ randomBelow (handPosStream 100) 104 499 = 0
    ∧ randomBelow (handPosStream 100) 105 27 = 0
    ∧ randomBelow (handPosStream 100) 106 27 = 0
    ∧ randomBelow (handPosStream 100) 107 27 = 0
    ∧ randomBelow (handPosStream 100) 108 2 = 1 := by
  refine ⟨?_, ?_, ?_, ?_, ?_, ?_, ?_, ?_, ?_⟩ <;>
  apply randomBelow_eq_of_bounds <;> norm_num [handPosStream]

theorem card1_generateAttempt_handPos :
    (Card1.generateAttempt dominionH 100 (fun _ => uniformState 0 0) (handPosStream 100) 0).1
        = true
    ∧ (Card1.generateAttempt dominionH 100 (fun _ => uniformState 0 0) (handPosStream 100) 0).2.1
        = 1 := by
  obtain ⟨d0, d1, d2, d3, d4, d5, d6, d7, d8⟩ := handPosStream_draws
  constructor <;>
  simp [Card1.generateAttempt, Card1.forceCounts, Card1.fillDeck, Card1.fillDiscard,
    Card1.deckStep, Card1.discardStep, forRandom, writeAt, writeAt2, dominionH, uniformState,
    d0, d1, d2, d3, d4, d5, d6, d7, d8]

theorem card1_generated_handPos :
    (Card1.generateAttempt dominionH 100 (fun _ => uniformState 0 0)
        (handPosStream 100) 0).2.2.1.whoseTurn = 0
    ∧ (Card1.generateAttempt dominionH 100 (fun _ => uniformState 0 0)
        (handPosStream 100) 0).2.2.1.hand 0 0 = 0
    ∧ (Card1.generateAttempt dominionH 100 (fun _ => uniformState 0 0)
        (handPosStream 100) 0).2.2.1.hand 0 1 = 13
    ∧ (Card1.generateAttempt dominionH 100 (fun _ => uniformState 0 0)
        (handPosStream 100) 0).2.2.1.handCount 0 = 2
    ∧ (Card1.generateAttempt dominionH 100 (fun _ => uniformState 0 0)
        (handPosStream 100) 0).2.2.1.playedCardCount = 0 := by
  obtain ⟨d0, d1, d2, d3, d4, d5, d6, d7, d8⟩ := handPosStream_draws
  refine ⟨?_, ?_, ?_, ?_, ?_⟩ <;>
  simp [Card1.generateAttempt, Card1.forceCounts, Card1.fillDeck, Card1.fillDiscard,
    Card1.deckStep, Card1.discardStep, forRandom, writeAt, writeAt2, dominionH, uniformState,
    d0, d1, d2, d3, d4, d5, d6, d7, d8]

/-- C11 fails on the code.  On the stream `handPosStream` the generator of
`randomtestcard1.c` draws player 0, the deck count 3, the hand count 2 and
the hand position `⌊3 / 4 * 2⌋ = 1`, and it returns 1: the hand of the current
player holds smithy at position 1 and card 0 at position 0.  The call of
`cardEffect` in `checkSmithy` has the hand position 0 whatever `handPos` is,
so it is not the position the generator returned, and the sample smithy
effect, which plays the card at the position it is given, moves card 0 to the
played pile: `checkSmithy` returns 0. -/
theorem card1_checkSmithy_handPos_ignored :
    ∃ (game : gameState) (k1 : Nat) (g1 : Globals),
      Card1.generateSmithyTestCase dominionH 100 (fun _ => uniformState 0 0)
          (handPosStream 100) 1 0 startGlobals = some (1, game, k1, g1)
      ∧ game.handCount game.whoseTurn = 2
      ∧ game.hand game.whoseTurn 1 = dominionH.smithy
      ∧ game.hand game.whoseTurn 0 ≠ dominionH.smithy
      ∧ (Card1.checkSmithyCall dominionH).handPos = 0
      ∧ (Card1.checkSmithyCall dominionH).handPos ≠ 1
      ∧ ∃ (post : gameState) (g2 : Globals),
          Card1.checkSmithy dominionH (sampleSmithy dominionH) game.whoseTurn game 1 startGlobals
            = some (0, post, g2) := by
  obtain ⟨ht, h0, h1, hc, hp⟩ := card1_generated_handPos
  refine ⟨(Card1.generateAttempt dominionH 100 (fun _ => uniformState 0 0)
      (handPosStream 100) 0).2.2.1,
    (Card1.generateAttempt dominionH 100 (fun _ => uniformState 0 0)
      (handPosStream 100) 0).2.2.2,
    { startGlobals with nGenerate := startGlobals.nGenerate + 1 }, ?_, ?_, ?_, ?_, rfl,
    by decide, ?_⟩
  · simp [Card1.generateSmithyTestCase, card1_generateAttempt_handPos]
  · rw [ht, hc]
  · rw [ht, h1]
    rfl
  · rw [ht, h0]
    decide
  · generalize (Card1.generateAttempt dominionH 100 (fun _ => uniformState 0 0)
      (handPosStream 100) 0).2.2.1 = game at ht h0 h1 hc hp ⊢
    obtain ⟨g2, -, -, he⟩ := card1_checkSmithy_eq dominionH (sampleSmithy dominionH)
      game.whoseTurn game 1 startGlobals (by rw [hp]) (by rw [hp]; decide)
    refine ⟨sampleSmithy dominionH (Card1.checkSmithyCall dominionH) game, g2, ?_⟩
    rw [he]
    congr 2
    unfold cbool
    rw [if_neg]
    rintro ⟨-, -, -, h4⟩
    revert h4
    simp [sampleSmithy, Card1.checkSmithyCall, writeAt, ht, h0, hc, hp, dominionH]

/-! ## The hand count left by generateAdventurerTestCase -/

theorem fullHandStream_range (size : Nat) (i : Nat) :
    0 ≤ fullHandStream size i ∧ fullHandStream size i < 1 := by
  unfold fullHandStream
  split_ifs <;> norm_num

theorem adventurer_checkAdventurer_none (D : Dominion) (cardEffect : CardEffect) (player : Int)
    (pre : gameState) (g : Globals)
    (hbad : D.MAX_HAND < (cardEffect (Adventurer.checkAdventurerCall D) pre).handCount player) :
    Adventurer.checkAdventurer D cardEffect player pre g = none := by
  have r2 : readAt D.MAX_HAND ((cardEffect (Adventurer.checkAdventurerCall D) pre).hand player)
      ((cardEffect (Adventurer.checkAdventurerCall D) pre).handCount player - 1) = none := by
    unfold readAt
    rw [if_neg (by omega)]
  unfold Adventurer.checkAdventurer
  simp only [r2]
  split <;> simp_all

theorem adventurer_generateAttempt_fullHand :
    (Adventurer.generateAttempt dominionH 100 (fun _ => uniformState 0 0)
        (fullHandStream 100) 0).1 = true
    ∧ (Adventurer.generateAttempt dominionH 100 (fun _ => uniformState 0 0)
        (fullHandStream 100) 0).2.1.whoseTurn = 0
    ∧ (Adventurer.generateAttempt dominionH 100 (fun _ => uniformState 0 0)
        (fullHandStream 100) 0).2.1.handCount 0 = 499 := by
  refine ⟨?_, ?_, ?_⟩ <;>
  simp [Adventurer.generateAttempt, Adventurer.forceCounts, Adventurer.fillDeck,
    Adventurer.fillDiscard, Adventurer.deckStep, Adventurer.discardStep, forRandom, randomBelow,
    fullHandStream, writeAt, writeAt2, dominionH, uniformState]

/-- C12 fails on the code.  On the stream `fullHandStream` the generator of
`randomtestadventurer.c` accepts a state whose current player has
`MAX_HAND - 1` hand cards, so the generated hand count plus 2 exceeds
`MAX_HAND`.  After the sample adventurer effect, which adds exactly two cards
to that hand, the hand count is `MAX_HAND + 1`: the read at `handCount - 1` is
outside the `MAX_HAND` slots of the hand, and `checkAdventurer` has no
result. -/
theorem adventurer_generated_hand_full :
    ∃ (game : gameState) (k1 : Nat) (g1 : Globals),
      Adventurer.generateAdventurerTestCase dominionH 100 (fun _ => uniformState 0 0)
          (fullHandStream 100) 1 0 startGlobals = some (game, k1, g1)
      ∧ game.handCount game.whoseTurn = dominionH.MAX_HAND - 1
      ∧ ¬ (game.handCount game.whoseTurn + 2 ≤ dominionH.MAX_HAND)
      ∧ (sampleAdventurer dominionH (Adventurer.checkAdventurerCall dominionH) game).handCount
            game.whoseTurn = game.handCount game.whoseTurn + 2
      ∧ readAt dominionH.MAX_HAND
          ((sampleAdventurer dominionH (Adventurer.checkAdventurerCall dominionH) game).hand
            game.whoseTurn)
          ((sampleAdventurer dominionH (Adventurer.checkAdventurerCall dominionH) game).handCount
            game.whoseTurn - 1) = none
      ∧ Adventurer.checkAdventurer dominionH (sampleAdventurer dominionH) game.whoseTurn game
          startGlobals = none := by
  obtain ⟨hb, ht, hc⟩ := adventurer_generateAttempt_fullHand
  have hrun : Adventurer.generateAdventurerTestCase dominionH 100 (fun _ => uniformState 0 0)
      (fullHandStream 100) 1 0 startGlobals
      = some ((Adventurer.generateAttempt dominionH 100 (fun _ => uniformState 0 0)
            (fullHandStream 100) 0).2.1,
          (Adventurer.generateAttempt dominionH 100 (fun _ => uniformState 0 0)
            (fullHandStream 100) 0).2.2,
          { startGlobals with nGenerate := startGlobals.nGenerate + 1 }) := by
    simp [Adventurer.generateAdventurerTestCase, hb]
  refine ⟨_, _, _, hrun, ?_⟩
  generalize (Adventurer.generateAttempt dominionH 100 (fun _ => uniformState 0 0)
      (fullHandStream 100) 0).2.1 = game at ht hc
  have hadd : (sampleAdventurer dominionH (Adventurer.checkAdventurerCall dominionH) game).handCount
      game.whoseTurn = game.handCount game.whoseTurn + 2 := by
    simp [sampleAdventurer, Adventurer.checkAdventurerCall]
  have hmax : dominionH.MAX_HAND = 500 := rfl
  refine ⟨by rw [ht, hc, hmax]; norm_num, by rw [ht, hc, hmax]; norm_num, hadd, ?_, ?_⟩
  · unfold readAt
    rw [if_neg]
    rw [hadd, ht, hc, hmax]
    norm_num
  · apply adventurer_checkAdventurer_none
    rw [hadd, ht, hc, hmax]
    norm_num

/-! ## Retries of generateAdventurerTestCase -/

theorem randomBelow_of_zero (rnd : Nat → ℚ) (k : Nat) (n : Int) (h : rnd k = 0) :
    randomBelow rnd k n = 0 := by
  unfold randomBelow
  rw [h, zero_mul]
  exact Int.floor_zero

theorem randomBelow_of_div (rnd : Nat → ℚ) (k : Nat) (n c : Int) (hn : n ≠ 0)
    (h : rnd k = (c : ℚ) / (n : ℚ)) : randomBelow rnd k n = c := by
  unfold randomBelow
  have hq : (n : ℚ) ≠ 0 := by exact_mod_cast hn
  rw [h, div_mul_cancel₀ _ hq]
  exact Int.floor_intCast c

theorem adventurer_forceCounts_cursor (D : Dominion) (rnd : Nat → ℚ) (player : Int)
    (game : gameState) (k : Nat) :
    (Adventurer.forceCounts D rnd player game k).2 = k + 3 := rfl

/-- The test that decides a pass, read off the state the pass leaves. -/
theorem adventurer_generateAttempt_iff (D : Dominion) (size : Nat)
    (image : (Nat → Int) → gameState) (rnd : Nat → ℚ) (k : Nat) :
    (Adventurer.generateAttempt D size image rnd k).1 = true ↔
      (2 ≤ (Adventurer.generateAttempt D size image rnd k).2.1.deckCount
              (Adventurer.generateAttempt D size image rnd k).2.1.whoseTurn
            + (Adventurer.generateAttempt D size image rnd k).2.1.discardCount
              (Adventurer.generateAttempt D size image rnd k).2.1.whoseTurn
        ∧ 2 ≤ countTreasure D
              ((Adventurer.generateAttempt D size image rnd k).2.1.deck
                (Adventurer.generateAttempt D size image rnd k).2.1.whoseTurn)
              ((Adventurer.generateAttempt D size image rnd k).2.1.deckCount
                (Adventurer.generateAttempt D size image rnd k).2.1.whoseTurn).toNat
            + countTreasure D
              ((Adventurer.generateAttempt D size image rnd k).2.1.discard
                (Adventurer.generateAttempt D size image rnd k).2.1.whoseTurn)
              ((Adventurer.generateAttempt D size image rnd k).2.1.discardCount
                (Adventurer.generateAttempt D size image rnd k).2.1.whoseTurn).toNat) := by
  unfold Adventurer.generateAttempt
  simp only
  generalize image (fun i => randomBelow rnd (k + i) 256) = game0
  generalize randomBelow rnd (k + size) 4 = player
  obtain ⟨c1, -, -, -⟩ := adventurer_forceCounts_eq D rnd player game0 (k + size + 1)
  generalize Adventurer.forceCounts D rnd player game0 (k + size + 1) = r0 at *
  split_ifs with h1 h2
  · simp only [Bool.false_eq_true, false_iff, not_and]
    intro h
    rw [c1] at h
    omega
  · obtain ⟨a1, a2, a3, -⟩ := adventurer_fillDeck_frame D rnd player (r0.1, 0) r0.2
    obtain ⟨-, a6⟩ : True ∧ (Adventurer.fillDeck D rnd player (r0.1, 0) r0.2).1.2
        = (r0.1, (0 : Int)).2 + countTreasure D
            ((Adventurer.fillDeck D rnd player (r0.1, 0) r0.2).1.1.deck player)
            ((r0.1, (0 : Int)).1.deckCount player).toNat :=
      ⟨trivial, forRandom_count D rnd _ (Adventurer.deckStep D player)
        (fun s : gameState × Int => s.1.deck player) (fun s => s.2)
        (fun j c s => writeAt2_same _ _ _ _)
        (fun j c s => by unfold Adventurer.deckStep; simp only [ge_iff_le]; split_ifs <;> simp)
        _ _ _⟩
    generalize Adventurer.fillDeck D rnd player (r0.1, 0) r0.2 = r1 at *
    obtain ⟨b1, b2, b3, -, b5⟩ := adventurer_fillDiscard_frame D rnd player r1.1 r1.2
    have b7 : (Adventurer.fillDiscard D rnd player r1.1 r1.2).1.2
        = r1.1.2 + countTreasure D
            ((Adventurer.fillDiscard D rnd player r1.1 r1.2).1.1.discard player)
            (r1.1.1.discardCount player).toNat :=
      forRandom_count D rnd _ (Adventurer.discardStep D player)
        (fun s : gameState × Int => s.1.discard player) (fun s => s.2)
        (fun j c s => writeAt2_same _ _ _ _)
        (fun j c s => by unfold Adventurer.discardStep; simp only [ge_iff_le]; split_ifs <;> simp)
        _ _ _
    generalize Adventurer.fillDiscard D rnd player r1.1 r1.2 = r2 at *
    simp only at a1 a2 a3 a6
    simp only [Bool.false_eq_true, false_iff, not_and]
    rw [b1, a1, c1, b2, a2, b3, a3, b5]
    intro _
    rw [a6] at b7
    rw [a3] at b7
    omega
  · obtain ⟨a1, a2, a3, -⟩ := adventurer_fillDeck_frame D rnd player (r0.1, 0) r0.2
    obtain ⟨-, a6⟩ : True ∧ (Adventurer.fillDeck D rnd player (r0.1, 0) r0.2).1.2
        = (r0.1, (0 : Int)).2 + countTreasure D
            ((Adventurer.fillDeck D rnd player (r0.1, 0) r0.2).1.1.deck player)
            ((r0.1, (0 : Int)).1.deckCount player).toNat :=
      ⟨trivial, forRandom_count D rnd _ (Adventurer.deckStep D player)
        (fun s : gameState × Int => s.1.deck player) (fun s => s.2)
        (fun j c s => writeAt2_same _ _ _ _)
        (fun j c s => by unfold Adventurer.deckStep; simp only [ge_iff_le]; split_ifs <;> simp)
        _ _ _⟩
    generalize Adventurer.fillDeck D rnd player (r0.1, 0) r0.2 = r1 at *
    obtain ⟨b1, b2, b3, -, b5⟩ := adventurer_fillDiscard_frame D rnd player r1.1 r1.2
    have b7 : (Adventurer.fillDiscard D rnd player r1.1 r1.2).1.2
        = r1.1.2 + countTreasure D
            ((Adventurer.fillDiscard D rnd player r1.1 r1.2).1.1.discard player)
            (r1.1.1.discardCount player).toNat :=
      forRandom_count D rnd _ (Adventurer.discardStep D player)
        (fun s : gameState × Int => s.1.discard player) (fun s => s.2)
        (fun j c s => writeAt2_same _ _ _ _)
        (fun j c s => by unfold Adventurer.discardStep; simp only [ge_iff_le]; split_ifs <;> simp)
        _ _ _
    generalize Adventurer.fillDiscard D rnd player r1.1 r1.2 = r2 at *
    simp only at a1 a2 a3 a6
    simp only [true_iff]
    rw [b1, a1, c1, b2, a2, b3, a3, b5]
    rw [a6] at b7
    rw [a3] at b7
    refine ⟨by omega, ?_⟩
    omega

theorem adventurer_generate_reject (D : Dominion) (size : Nat)
    (image : (Nat → Int) → gameState) (rnd : Nat → ℚ) (fuel k : Nat) (g : Globals)
    (h : (Adventurer.generateAttempt D size image rnd k).1 = false) :
    Adventurer.generateAdventurerTestCase D size image rnd (fuel + 1) k g
      = Adventurer.generateAdventurerTestCase D size image rnd fuel
          (Adventurer.generateAttempt D size image rnd k).2.2
          { g with nGenerate := g.nGenerate + 1 } := by
  rw [Adventurer.generateAdventurerTestCase]
  simp only [h, Bool.false_eq_true, if_false]

theorem adventurer_generate_accept (D : Dominion) (size : Nat)
    (image : (Nat → Int) → gameState) (rnd : Nat → ℚ) (fuel k : Nat) (g : Globals)
    (h : (Adventurer.generateAttempt D size image rnd k).1 = true) :
    Adventurer.generateAdventurerTestCase D size image rnd (fuel + 1) k g
      = some ((Adventurer.generateAttempt D size image rnd k).2.1,
          (Adventurer.generateAttempt D size image rnd k).2.2,
          { g with nGenerate := g.nGenerate + 1 }) := by
  rw [Adventurer.generateAdventurerTestCase]
  simp only [h, if_true]

theorem adventurer_attemptCursor_shift (D : Dominion) (size : Nat)
    (image : (Nat → Int) → gameState) (rnd : Nat → ℚ) (k : Nat) (j : Nat) :
    Adventurer.attemptCursor D size image rnd k (j + 1)
      = Adventurer.attemptCursor D size image rnd
          (Adventurer.generateAttempt D size image rnd k).2.2 j := by
  induction j with
  | zero => rfl
  | succ j ih =>
    rw [Adventurer.attemptCursor, ih]
    rfl

theorem adventurer_generate_first_accept (D : Dominion) (size : Nat)
    (image : (Nat → Int) → gameState) (rnd : Nat → ℚ) (j : Nat) :
    ∀ (k : Nat) (g : Globals) (e : Nat),
      (∀ i, i < j → (Adventurer.generateAttempt D size image rnd
          (Adventurer.attemptCursor D size image rnd k i)).1 = false) →
      (Adventurer.generateAttempt D size image rnd
          (Adventurer.attemptCursor D size image rnd k j)).1 = true →
      Adventurer.generateAdventurerTestCase D size image rnd (j + 1 + e) k g
        = some ((Adventurer.generateAttempt D size image rnd
              (Adventurer.attemptCursor D size image rnd k j)).2.1,
            (Adventurer.generateAttempt D size image rnd
              (Adventurer.attemptCursor D size image rnd k j)).2.2,
            { g with nGenerate := g.nGenerate + ((j : Int) + 1) }) := by
  induction j with
  | zero =>
    intro k g e _ hacc
    have hf : 0 + 1 + e = e + 1 := by omega
    rw [hf, adventurer_generate_accept D size image rnd e k g hacc]
    simp [Adventurer.attemptCursor]
  | succ j ih =>
    intro k g e hrej hacc
    have hf : j + 1 + 1 + e = (j + 1 + e) + 1 := by omega
    rw [hf, adventurer_generate_reject D size image rnd (j + 1 + e) k g (hrej 0 (Nat.succ_pos j))]
    rw [adventurer_attemptCursor_shift] at hacc
    rw [ih _ _ e (fun i hi => by
      have := hrej (i + 1) (Nat.succ_lt_succ hi)
      rwa [adventurer_attemptCursor_shift] at this) hacc]
    rw [adventurer_attemptCursor_shift]
    simp only [Option.some.injEq, Prod.mk.injEq, true_and]
    congr 1
    push_cast
    ring

theorem adventurer_generate_all_reject (D : Dominion) (size : Nat)
    (image : (Nat → Int) → gameState) (rnd : Nat → ℚ) (fuel : Nat) :
    ∀ (k : Nat) (g : Globals),
      (∀ i, i < fuel → (Adventurer.generateAttempt D size image rnd
          (Adventurer.attemptCursor D size image rnd k i)).1 = false) →
      Adventurer.generateAdventurerTestCase D size image rnd fuel k g = none := by
  induction fuel with
  | zero =>
    intro k g _
    rfl
  | succ fuel ih =>
    intro k g hrej
    rw [adventurer_generate_reject D size image rnd fuel k g (hrej 0 (Nat.succ_pos fuel))]
    apply ih
    intro i hi
    have := hrej (i + 1) (Nat.succ_lt_succ hi)
    rwa [adventurer_attemptCursor_shift] at this

theorem adventurer_attempt_reject_of_zero (D : Dominion) (size : Nat)
    (image : (Nat → Int) → gameState) (rnd : Nat → ℚ) (k : Nat)
    (h1 : rnd (k + size + 1) = 0) (h2 : rnd (k + size + 1 + 1) = 0) :
    (Adventurer.generateAttempt D size image rnd k).1 = false
    ∧ (Adventurer.generateAttempt D size image rnd k).2.2 = k + size + 4 := by
  unfold Adventurer.generateAttempt
  simp only
  generalize image (fun i => randomBelow rnd (k + i) 256) = game0
  generalize randomBelow rnd (k + size) 4 = player
  obtain ⟨-, c2, c3, -⟩ := adventurer_forceCounts_eq D rnd player game0 (k + size + 1)
  have hcur := adventurer_forceCounts_cursor D rnd player game0 (k + size + 1)
  rw [randomBelow_of_zero rnd _ _ h1] at c2
  rw [randomBelow_of_zero rnd _ _ h2] at c3
  generalize Adventurer.forceCounts D rnd player game0 (k + size + 1) = r0 at *
  rw [if_pos (by rw [c2, c3]; norm_num)]
  exact ⟨rfl, by rw [hcur]⟩

theorem forRandom_two {σ : Type} (rnd : Nat → ℚ) (m : Int) (body : Int → Int → σ → σ)
    (j : Int) (s : σ) (k : Nat) :
    forRandom rnd m body 2 j s k
      = (body (j + 1) (randomBelow rnd (k + 1) m) (body j (randomBelow rnd k m) s), k + 1 + 1) :=
  rfl

theorem adventurer_attempt_accept_of_two (D : Dominion) (size : Nat)
    (image : (Nat → Int) → gameState) (rnd : Nat → ℚ) (k : Nat)
    (hcg : D.copper ≤ D.gold)
    (h1 : randomBelow rnd (k + size + 1) D.MAX_DECK = 2)
    (h2 : randomBelow rnd (k + size + 1 + 1) D.MAX_DECK = 0)
    (h4 : randomBelow rnd (k + size + 1 + 3) (D.treasure_map + 1) = D.copper)
    (h5 : randomBelow rnd (k + size + 1 + 3 + 1) (D.treasure_map + 1) = D.copper) :
    (Adventurer.generateAttempt D size image rnd k).1 = true := by
  unfold Adventurer.generateAttempt
  simp only
  generalize image (fun i => randomBelow rnd (k + i) 256) = game0
  generalize randomBelow rnd (k + size) 4 = player
  obtain ⟨-, c2, c3, -⟩ := adventurer_forceCounts_eq D rnd player game0 (k + size + 1)
  have hcur := adventurer_forceCounts_cursor D rnd player game0 (k + size + 1)
  rw [h1] at c2
  rw [h2] at c3
  generalize Adventurer.forceCounts D rnd player game0 (k + size + 1) = r0 at *
  rw [if_neg (by rw [c2, c3]; norm_num)]
  have hdeck : Adventurer.fillDeck D rnd player (r0.1, 0) r0.2
      = (Adventurer.deckStep D player 1 D.copper
          (Adventurer.deckStep D player 0 D.copper (r0.1, 0)), r0.2 + 1 + 1) := by
    unfold Adventurer.fillDeck
    simp only [c2]
    rw [show (2 : Int).toNat = 2 from rfl, forRandom_two, hcur, h4, h5]
    rfl
  rw [hdeck]
  have hdis : Adventurer.fillDiscard D rnd player
      (Adventurer.deckStep D player 1 D.copper
        (Adventurer.deckStep D player 0 D.copper (r0.1, 0))) (r0.2 + 1 + 1)
      = (Adventurer.deckStep D player 1 D.copper
          (Adventurer.deckStep D player 0 D.copper (r0.1, 0)), r0.2 + 1 + 1) := by
    unfold Adventurer.fillDiscard
    have hz : ((Adventurer.deckStep D player 1 D.copper
        (Adventurer.deckStep D player 0 D.copper (r0.1, 0))).1.discardCount player).toNat = 0 := by
      simp [Adventurer.deckStep, c3]
    rw [hz]
    rfl
  simp only [hdis]
  rw [if_neg]
  simp [Adventurer.deckStep, hcg]

theorem adventurer_attempt_drawable (D : Dominion) (size : Nat)
    (image : (Nat → Int) → gameState) (rnd : Nat → ℚ) (k j : Nat) :
    (Adventurer.generateAttempt D size image rnd
        (Adventurer.attemptCursor D size image rnd k j)).1 = true
      ↔ Adventurer.Drawable D (Adventurer.attemptState D size image rnd k j) :=
  adventurer_generateAttempt_iff D size image rnd _

theorem adventurer_retryStream_range (D : Dominion) (size n : Nat) (hdeck : 2 < D.MAX_DECK)
    (hc0 : 0 ≤ D.copper) (hct : D.copper ≤ D.treasure_map) (i : Nat) :
    0 ≤ Adventurer.retryStream D size n i ∧ Adventurer.retryStream D size n i < 1 := by
  have hM : (0 : ℚ) < (D.MAX_DECK : ℚ) := by exact_mod_cast (by omega : 0 < D.MAX_DECK)
  have hT : (0 : ℚ) < ((D.treasure_map + 1 : Int) : ℚ) := by
    exact_mod_cast (by omega : 0 < D.treasure_map + 1)
  unfold Adventurer.retryStream
  split_ifs
  · constructor
    · positivity
    · rw [div_lt_one hM]
      exact_mod_cast hdeck
  · constructor
    · apply div_nonneg _ hT.le
      exact_mod_cast hc0
    · rw [div_lt_one hT]
      exact_mod_cast (by omega : D.copper < D.treasure_map + 1)
  · norm_num

theorem adventurer_retryStream_zero (D : Dominion) (size n : Nat) (i : Nat)
    (h : i < (n + 1) * (size + 4)) : Adventurer.retryStream D size n i = 0 := by
  unfold Adventurer.retryStream
  generalize (n + 1) * (size + 4) = B at h
  rw [if_neg (by omega), if_neg (by omega)]

theorem adventurer_retry_rejects (D : Dominion) (size : Nat)
    (image : (Nat → Int) → gameState) (n : Nat) :
    ∀ i, i ≤ n + 1 →
      Adventurer.attemptCursor D size image (Adventurer.retryStream D size n) 0 i
        = i * (size + 4)
      ∧ (i ≤ n → (Adventurer.generateAttempt D size image (Adventurer.retryStream D size n)
          (i * (size + 4))).1 = false) := by
  intro i
  induction i with
  | zero =>
    intro _
    refine ⟨by simp [Adventurer.attemptCursor], ?_⟩
    intro _
    have hpos : 0 * (size + 4) + size + 1 + 1 < (n + 1) * (size + 4) := by
      have := Nat.mul_le_mul_right (size + 4) (show 1 ≤ n + 1 by omega)
      rw [one_mul] at this
      omega
    exact (adventurer_attempt_reject_of_zero D size image _ _
      (adventurer_retryStream_zero D size n _ (by omega))
      (adventurer_retryStream_zero D size n _ hpos)).1
  | succ i ih =>
    intro hi
    obtain ⟨hcur, hrej⟩ := ih (by omega)
    have hbound : i * (size + 4) + size + 1 + 1 < (n + 1) * (size + 4) := by
      have := Nat.mul_le_mul_right (size + 4) (show i + 1 ≤ n + 1 by omega)
      rw [Nat.succ_mul] at this
      omega
    have hr := adventurer_attempt_reject_of_zero D size image (Adventurer.retryStream D size n)
      (i * (size + 4)) (adventurer_retryStream_zero D size n _ (by omega))
      (adventurer_retryStream_zero D size n _ hbound)
    have hnext : Adventurer.attemptCursor D size image (Adventurer.retryStream D size n) 0 (i + 1)
        = (i + 1) * (size + 4) := by
      rw [Adventurer.attemptCursor, hcur, hr.2, Nat.succ_mul]
      omega
    refine ⟨hnext, ?_⟩
    intro hin
    have hbound2 : (i + 1) * (size + 4) + size + 1 + 1 < (n + 1) * (size + 4) := by
      have := Nat.mul_le_mul_right (size + 4) (show i + 1 + 1 ≤ n + 1 by omega)
      rw [Nat.succ_mul] at this
      omega
    exact (adventurer_attempt_reject_of_zero D size image _ _
      (adventurer_retryStream_zero D size n _ (by omega))
      (adventurer_retryStream_zero D size n _ hbound2)).1

theorem adventurer_retry_accepts (D : Dominion) (size : Nat)
    (image : (Nat → Int) → gameState) (n : Nat) (hdeck : 2 < D.MAX_DECK)
    (hcg : D.copper ≤ D.gold) (hct : D.copper ≤ D.treasure_map) (hc0 : 0 ≤ D.copper) :
    (Adventurer.generateAttempt D size image (Adventurer.retryStream D size n)
      ((n + 1) * (size + 4))).1 = true := by
  apply adventurer_attempt_accept_of_two D size image _ _ hcg
  · apply randomBelow_of_div _ _ _ 2 (by omega)
    unfold Adventurer.retryStream
    rw [if_pos rfl]
    norm_num
  · apply randomBelow_of_zero
    unfold Adventurer.retryStream
    generalize (n + 1) * (size + 4) = B
    rw [if_neg (by omega), if_neg (by omega)]
  · apply randomBelow_of_div _ _ _ D.copper (by omega)
    unfold Adventurer.retryStream
    generalize (n + 1) * (size + 4) = B
    rw [if_neg (by omega), if_pos (by omega)]
  · apply randomBelow_of_div _ _ _ D.copper (by omega)
    unfold Adventurer.retryStream
    generalize (n + 1) * (size + 4) = B
    rw [if_neg (by omega), if_pos (by omega)]

theorem adventurer_zero_stream_none (D : Dominion) (size : Nat)
    (image : (Nat → Int) → gameState) (fuel k : Nat) (g : Globals) :
    Adventurer.generateAdventurerTestCase D size image (fun _ => 0) fuel k g = none :=
  adventurer_generate_all_reject D size image (fun _ => 0) fuel k g
    (fun _ _ => (adventurer_attempt_reject_of_zero D size image (fun _ => 0) _ rfl rfl).1)

/-- C13. `generateAdventurerTestCase` retries without bound.  For every `n`
there is a stream of numbers in `[0,1)` under which the first `n + 1` passes
through the loop body are rejected, so that the call returns only in pass
`n + 2`, with `nGenerate` grown by `n + 2` (and with fuel for `n + 1` passes or
less it has not returned).  Under the stream that is constantly 0 no pass is
accepted: the call returns for no amount of fuel.  Conversely, for every
stream, if pass `j` is the first that leaves a state whose deck and discard
pile hold at least two cards, at least two of them treasure cards, the call
returns in that pass, with that state and with `nGenerate` grown by `j + 1`. -/
theorem adventurer_generate_retries (D : Dominion) (size : Nat)
    (image : (Nat → Int) → gameState) (hdeck : 2 < D.MAX_DECK) (hc0 : 0 ≤ D.copper)
    (hcg : D.copper ≤ D.gold) (hct : D.copper ≤ D.treasure_map) :
    (∀ n : Nat, ∃ rnd : Nat → ℚ, (∀ i, 0 ≤ rnd i ∧ rnd i < 1)
      ∧ (∀ i, i ≤ n → ¬ Adventurer.Drawable D (Adventurer.attemptState D size image rnd 0 i))
      ∧ (∀ (fuel : Nat) (g : Globals), fuel ≤ n + 1 →
          Adventurer.generateAdventurerTestCase D size image rnd fuel 0 g = none)
      ∧ ∃ k1 : Nat, ∀ (e : Nat) (g : Globals),
          Adventurer.generateAdventurerTestCase D size image rnd (n + 2 + e) 0 g
            = some (Adventurer.attemptState D size image rnd 0 (n + 1), k1,
                { g with nGenerate := g.nGenerate + ((n : Int) + 2) }))
    ∧ (∃ rnd : Nat → ℚ, (∀ i, 0 ≤ rnd i ∧ rnd i < 1)
      ∧ ∀ (fuel k : Nat) (g : Globals),
          Adventurer.generateAdventurerTestCase D size image rnd fuel k g = none)
    ∧ (∀ (rnd : Nat → ℚ) (k j e : Nat) (g : Globals),
        Adventurer.Drawable D (Adventurer.attemptState D size image rnd k j) →
        (∀ i, i < j → ¬ Adventurer.Drawable D (Adventurer.attemptState D size image rnd k i)) →
        ∃ k1 : Nat,
          Adventurer.generateAdventurerTestCase D size image rnd (j + 1 + e) k g
            = some (Adventurer.attemptState D size image rnd k j, k1,
                { g with nGenerate := g.nGenerate + ((j : Int) + 1) })) := by
  refine ⟨?_, ?_, ?_⟩
  · intro n
    have hrej : ∀ i, i ≤ n → (Adventurer.generateAttempt D size image
        (Adventurer.retryStream D size n)
        (Adventurer.attemptCursor D size image (Adventurer.retryStream D size n) 0 i)).1
          = false := by
      intro i hi
      obtain ⟨hcur, hr⟩ := adventurer_retry_rejects D size image n i (by omega)
      rw [hcur]
      exact hr hi
    have hacc : (Adventurer.generateAttempt D size image (Adventurer.retryStream D size n)
        (Adventurer.attemptCursor D size image (Adventurer.retryStream D size n) 0 (n + 1))).1
          = true := by
      rw [(adventurer_retry_rejects D size image n (n + 1) (le_refl _)).1]
      exact adventurer_retry_accepts D size image n hdeck hcg hct hc0
    refine ⟨Adventurer.retryStream D size n,
      adventurer_retryStream_range D size n hdeck hc0 hct, ?_, ?_, ?_⟩
    · intro i hi hd
      have := (adventurer_attempt_drawable D size image _ 0 i).mpr hd
      rw [hrej i hi] at this
      exact absurd this (by simp)
    · intro fuel g hf
      exact adventurer_generate_all_reject D size image _ fuel 0 g
        (fun i hi => hrej i (by omega))
    · refine ⟨(Adventurer.generateAttempt D size image (Adventurer.retryStream D size n)
        (Adventurer.attemptCursor D size image (Adventurer.retryStream D size n) 0
          (n + 1))).2.2, ?_⟩
      intro e g
      have h := adventurer_generate_first_accept D size image (Adventurer.retryStream D size n)
        (n + 1) 0 g e (fun i hi => hrej i (by omega)) hacc
      rw [show n + 2 + e = n + 1 + 1 + e by omega, h]
      unfold Adventurer.attemptState
      simp only [Option.some.injEq, Prod.mk.injEq, true_and]
      have hn : g.nGenerate + (((n + 1 : Nat) : Int) + 1) = g.nGenerate + ((n : Int) + 2) := by
        push_cast
        ring
      rw [hn]
  · exact ⟨fun _ => 0, fun _ => ⟨le_refl 0, by norm_num⟩,
      adventurer_zero_stream_none D size image⟩
  · intro rnd k j e g hacc hrej
    refine ⟨(Adventurer.generateAttempt D size image rnd
      (Adventurer.attemptCursor D size image rnd k j)).2.2, ?_⟩
    have hfalse : ∀ i, i < j → (Adventurer.generateAttempt D size image rnd
        (Adventurer.attemptCursor D size image rnd k i)).1 = false := by
      intro i hi
      cases hb : (Adventurer.generateAttempt D size image rnd
          (Adventurer.attemptCursor D size image rnd k i)).1 with
      | false => rfl
      | true =>
        exact absurd ((adventurer_attempt_drawable D size image rnd k i).mp hb) (hrej i hi)
    have h := adventurer_generate_first_accept D size image rnd j k g e hfalse
      ((adventurer_attempt_drawable D size image rnd k j).mpr hacc)
    rw [h]
    rfl

/-- Instance of C13 for the header values: a stream under which the first
four passes are rejected and the call returns in the fifth. -/
theorem adventurer_generate_retries_witness :
    ∃ rnd : Nat → ℚ, (∀ i, 0 ≤ rnd i ∧ rnd i < 1)
      ∧ Adventurer.generateAdventurerTestCase dominionH 100 (fun _ => uniformState 0 0) rnd 4 0
          startGlobals = none
      ∧ ∃ (game : gameState) (k1 : Nat) (g1 : Globals),
          Adventurer.generateAdventurerTestCase dominionH 100 (fun _ => uniformState 0 0) rnd 5 0
            startGlobals = some (game, k1, g1)
          ∧ g1.nGenerate = 5 := by
  obtain ⟨rnd, hr, -, hnone, k1, hsome⟩ :=
    (adventurer_generate_retries dominionH 100 (fun _ => uniformState 0 0)
      (by decide) (by decide) (by decide) (by decide)).1 3
  exact ⟨rnd, hr, hnone 4 startGlobals (by norm_num), _, k1, _, hsome 0 startGlobals, by
    simp [startGlobals]⟩

/-! ## Runs of main

The counters of `main` after `MAXTEST` iterations, from what the generator and
the checker return when they are called. -/

theorem tally_world {σ : Type} (M : Int) (v : Int) (s : MainState σ) :
    (tally M v s).world = s.world := by
  unfold tally
  simp only
  split_ifs <;> rfl

theorem iteration_run {σ : Type} (M : Int) (gen : Globals → σ → Option (σ × Globals))
    (chk : Globals → σ → Option (Int × σ × Globals)) (s : MainState σ) (wg w : σ)
    (g1 g2 : Globals) (v : Int) (g : Globals)
    (hg : gen s.glob s.world = some (wg, g1))
    (hc : chk g wg = some (v, w, g2))
    (hglob : g = (if g1.debug ≠ 0 then
        printf ("*************** TEST Case #" ++ toString s.nDebug ++ " **************\n") g1
      else g1)) :
    ∃ s1, iteration M gen chk s = some s1 ∧ s1.world = w ∧ s1.nTest = s.nTest + 1
      ∧ s1.nSuccess = s.nSuccess + (if v = 0 then 0 else 1)
      ∧ s1.nFailure = s.nFailure + (if v = 0 then 1 else 0) := by
  subst hglob
  obtain ⟨t1, t2, t3⟩ := tally_counts M v
    (⟨s.nTest + 1, s.nDebug, s.nSuccess, s.nFailure, g2, w⟩ : MainState σ)
  refine ⟨tally M v (⟨s.nTest + 1, s.nDebug, s.nSuccess, s.nFailure, g2, w⟩ : MainState σ),
    ?_, ?_, ?_, ?_, ?_⟩
  · unfold iteration prepare callChecker
    simp only [hg, hc]
  · rw [tally_world]
  · rw [t1]
  · rw [t2]
  · rw [t3]

theorem forLoop_run {σ : Type} (M : Int) (gen : Globals → σ → Option (σ × Globals))
    (chk : Globals → σ → Option (Int × σ × Globals)) (P Q : Nat → σ → Prop) (v : Nat → Int)
    (N : Nat)
    (hgen : ∀ i, i < N → ∀ w g, P i w → ∃ wg g1, gen g w = some (wg, g1) ∧ Q i wg)
    (hchk : ∀ i, i < N → ∀ wg g, Q i wg → ∃ w g1, chk g wg = some (v i, w, g1) ∧ P (i + 1) w)
    (s0 : MainState σ) (h0 : P 0 s0.world) (n : Nat) (hn : n ≤ N) :
    ∃ s, forLoop M gen chk n s0 = some s ∧ P n s.world
      ∧ s.nTest = s0.nTest + n
      ∧ s.nSuccess = s0.nSuccess + ((Finset.range n).filter (fun i => v i ≠ 0)).card
      ∧ s.nFailure = s0.nFailure + ((Finset.range n).filter (fun i => v i = 0)).card := by
  induction n with
  | zero => exact ⟨s0, rfl, h0, by simp, by simp, by simp⟩
  | succ n ih =>
    obtain ⟨s, hs, hP, h1, h2, h3⟩ := ih (Nat.le_of_succ_le hn)
    obtain ⟨wg, g1, hg, hQ⟩ := hgen n hn s.world s.glob hP
    obtain ⟨w, g2, hc, hP1⟩ := hchk n hn wg _ hQ
    obtain ⟨s1, hi, hw, i1, i2, i3⟩ := iteration_run M gen chk s wg w g1 g2 (v n) _ hg hc rfl
    refine ⟨s1, ?_, ?_, ?_, ?_, ?_⟩
    · rw [forLoop_snoc, hs, Option.some_bind, hi]
    · rw [hw]
      exact hP1
    · rw [i1, h1]
      push_cast
      ring
    · rw [i2, h2, Finset.range_succ, Finset.filter_insert]
      by_cases hv : v n = 0
      · simp [hv]
      · rw [if_neg hv, if_pos hv, Finset.card_insert_of_not_mem (by simp)]
        push_cast
        ring
    · rw [i3, h3, Finset.range_succ, Finset.filter_insert]
      by_cases hv : v n = 0
      · rw [if_pos hv, if_pos hv, Finset.card_insert_of_not_mem (by simp)]
        push_cast
        ring
      · simp [hv]

theorem driver_run {σ : Type} (MAXTEST : Nat) (M : Int) (banner : String)
    (summary : Int → Int → Int → String) (gen : Globals → σ → Option (σ × Globals))
    (chk : Globals → σ → Option (Int × σ × Globals)) (w0 : σ) (P Q : Nat → σ → Prop)
    (v : Nat → Int) (h0 : P 0 w0)
    (hgen : ∀ i, i < MAXTEST → ∀ w g, P i w → ∃ wg g1, gen g w = some (wg, g1) ∧ Q i wg)
    (hchk : ∀ i, i < MAXTEST → ∀ wg g, Q i wg →
      ∃ w g1, chk g wg = some (v i, w, g1) ∧ P (i + 1) w) :
    ∃ final, driver MAXTEST M banner summary gen chk w0 = some (0, final)
      ∧ final.nTest = MAXTEST
      ∧ final.nSuccess = ((Finset.range MAXTEST).filter (fun i => v i ≠ 0)).card
      ∧ final.nFailure = ((Finset.range MAXTEST).filter (fun i => v i = 0)).card
      ∧ final.nSuccess + final.nFailure = final.nTest := by
  obtain ⟨s, hs, -, h1, h2, h3⟩ := forLoop_run M gen chk P Q v MAXTEST hgen hchk
    (MainState.start banner w0) h0 MAXTEST (Nat.le_refl _)
  have e1 : s.nTest = MAXTEST := by
    rw [h1]
    simp [MainState.start]
  have e2 : s.nSuccess = ((Finset.range MAXTEST).filter (fun i => v i ≠ 0)).card := by
    rw [h2]
    simp [MainState.start]
  have e3 : s.nFailure = ((Finset.range MAXTEST).filter (fun i => v i = 0)).card := by
    rw [h3]
    simp [MainState.start]
  refine ⟨{ s with glob := printf (summary s.nTest s.nSuccess s.nFailure) s.glob },
    by unfold driver; rw [hs], e1, e2, e3, ?_⟩
  simp only
  rw [e1, e2, e3]
  have hc := Finset.filter_card_add_filter_neg_card_eq_card (s := Finset.range MAXTEST)
    (fun i => v i = 0)
  rw [Finset.card_range] at hc
  rw [add_comm]
  exact_mod_cast hc

theorem adventurer_generate_globals (D : Dominion) (size : Nat)
    (image : (Nat → Int) → gameState) (rnd : Nat → ℚ) (fuel k : Nat) (g g' : Globals)
    (game : gameState) (k1 : Nat) (g1 : Globals)
    (h : Adventurer.generateAdventurerTestCase D size image rnd fuel k g = some (game, k1, g1)) :
    ∃ g2, Adventurer.generateAdventurerTestCase D size image rnd fuel k g'
      = some (game, k1, g2) := by
  induction fuel generalizing k g g' with
  | zero => simp [Adventurer.generateAdventurerTestCase] at h
  | succ fuel ih =>
    unfold Adventurer.generateAdventurerTestCase at h ⊢
    simp only at h ⊢
    split_ifs at h ⊢ with hb
    · simp only [Option.some.injEq, Prod.mk.injEq] at h
      exact ⟨_, by rw [h.1, h.2.1]⟩
    · exact ih _ _ _ h

theorem smithy_generate_globals (D : Dominion) (size : Nat)
    (image : (Nat → Int) → gameState) (rnd : Nat → ℚ) (fuel k : Nat) (g g' : Globals)
    (game : gameState) (k1 : Nat) (g1 : Globals)
    (h : Smithy.generateSmithyTestCase D size image rnd fuel k g = some (game, k1, g1)) :
    ∃ g2, Smithy.generateSmithyTestCase D size image rnd fuel k g' = some (game, k1, g2) := by
  induction fuel generalizing k g g' with
  | zero => simp [Smithy.generateSmithyTestCase] at h
  | succ fuel ih =>
    unfold Smithy.generateSmithyTestCase at h ⊢
    simp only at h ⊢
    split_ifs at h ⊢ with hb
    · simp only [Option.some.injEq, Prod.mk.injEq] at h
      exact ⟨_, by rw [h.1, h.2.1]⟩
    · exact ih _ _ _ h

theorem card1_generate_globals (D : Dominion) (size : Nat)
    (image : (Nat → Int) → gameState) (rnd : Nat → ℚ) (fuel k : Nat) (g g' : Globals)
    (pos : Int) (game : gameState) (k1 : Nat) (g1 : Globals)
    (h : Card1.generateSmithyTestCase D size image rnd fuel k g = some (pos, game, k1, g1)) :
    ∃ g2, Card1.generateSmithyTestCase D size image rnd fuel k g'
      = some (pos, game, k1, g2) := by
  induction fuel generalizing k g g' with
  | zero => simp [Card1.generateSmithyTestCase] at h
  | succ fuel ih =>
    unfold Card1.generateSmithyTestCase at h ⊢
    simp only at h ⊢
    split_ifs at h ⊢ with hb
    · simp only [Option.some.injEq, Prod.mk.injEq] at h
      exact ⟨_, by rw [h.1, h.2.1, h.2.2.1]⟩
    · exact ih _ _ _ h

theorem adventurer_checkAdventurer_globals (D : Dominion) (cardEffect : CardEffect)
    (player : Int) (pre : gameState) (g g' : Globals) (v : Int) (post : gameState)
    (g1 : Globals)
    (h : Adventurer.checkAdventurer D cardEffect player pre g = some (v, post, g1)) :
    ∃ g2, Adventurer.checkAdventurer D cardEffect player pre g' = some (v, post, g2) := by
  unfold Adventurer.checkAdventurer at h ⊢
  simp only at h ⊢
  split at h
  · rename_i c1 c2 e1 e2
    simp only [Option.some.injEq, Prod.mk.injEq, assertTrue_fst] at h
    obtain ⟨hv, hp, -⟩ := h
    refine ⟨_, congrArg some (Prod.ext ?_ (Prod.ext ?_ rfl))⟩
    · dsimp only
      simp only [assertTrue_fst]
      exact hv
    · exact hp
  · exact absurd h (by simp)

theorem card1_checkSmithy_globals (D : Dominion) (cardEffect : CardEffect)
    (player : Int) (pre : gameState) (handPos : Int) (g g' : Globals) (v : Int)
    (post : gameState) (g1 : Globals)
    (h : Card1.checkSmithy D cardEffect player pre handPos g = some (v, post, g1)) :
    ∃ g2, Card1.checkSmithy D cardEffect player pre handPos g' = some (v, post, g2) := by
  unfold Card1.checkSmithy at h ⊢
  simp only at h ⊢
  split at h
  · rename_i c1 e1
    simp only [Option.some.injEq, Prod.mk.injEq, assertTrue_fst] at h
    obtain ⟨hv, hp, -⟩ := h
    refine ⟨_, congrArg some (Prod.ext ?_ (Prod.ext ?_ rfl))⟩
    · dsimp only
      simp only [assertTrue_fst]
      exact hv
    · exact hp
  · exact absurd h (by simp)

theorem smithy_checkSmithy_globals (cardEffect : CardEffect) (player : Int) (pre : gameState)
    (g g' : Globals) :
    (Smithy.checkSmithy cardEffect player pre g').1 = (Smithy.checkSmithy cardEffect player pre g).1
    ∧ (Smithy.checkSmithy cardEffect player pre g').2.1
        = (Smithy.checkSmithy cardEffect player pre g).2.1 := by
  obtain ⟨g1, -, -, h1⟩ := smithy_checkSmithy_eq cardEffect player pre g
  obtain ⟨g2, -, -, h2⟩ := smithy_checkSmithy_eq cardEffect player pre g'
  rw [h1, h2]
  exact ⟨rfl, rfl⟩

theorem adventurer_main_run (D : Dominion) (size : Nat) (image : (Nat → Int) → gameState)
    (rnd : Nat → ℚ) (cardEffect : CardEffect) (fuel : Nat) (G : gameState)
    (games : Nat → gameState) (ks : Nat → Nat) (v : Nat → Int) (hk : ks 0 = 0)
    (hgen : ∀ i, i < 10000 → ∃ g g1,
      Adventurer.generateAdventurerTestCase D size image rnd fuel (ks i) g
        = some (games i, ks (i + 1), g1))
    (hchk : ∀ i, i < 10000 → ∃ g post g1,
      Adventurer.checkAdventurer D cardEffect (games i).whoseTurn (games i) g
        = some (v i, post, g1)) :
    ∃ final, Adventurer.main D size image rnd cardEffect fuel G = some (0, final)
      ∧ final.nTest = 10000
      ∧ final.nSuccess = ((Finset.range 10000).filter (fun i => v i ≠ 0)).card
      ∧ final.nFailure = ((Finset.range 10000).filter (fun i => v i = 0)).card
      ∧ final.nSuccess + final.nFailure = final.nTest := by
  unfold Adventurer.main
  obtain ⟨final, h1, h2, h3, h4, h5⟩ := driver_run 10000 5
    "\n\n*************************  Random Testing - Acventurer  ***************************\n"
    summaryTight (Adventurer.generateCall D size image rnd fuel)
    (Adventurer.checkCall D cardEffect) (G, 0)
    (fun i w => w.2 = ks i) (fun i w => w = (games i, ks (i + 1))) v hk.symm
    (by
      intro i hi w g hP
      obtain ⟨g0, g1, h⟩ := hgen i hi
      obtain ⟨g2, h2⟩ := adventurer_generate_globals D size image rnd fuel (ks i) g0 g _ _ _ h
      refine ⟨(games i, ks (i + 1)), g2, ?_, rfl⟩
      unfold Adventurer.generateCall
      rw [hP, h2]
      rfl)
    (by
      intro i hi wg g hQ
      subst hQ
      obtain ⟨g0, post, g1, h⟩ := hchk i hi
      obtain ⟨g2, h2⟩ := adventurer_checkAdventurer_globals D cardEffect _ _ g0 g _ _ _ h
      refine ⟨(post, ks (i + 1)), g2, ?_, rfl⟩
      unfold Adventurer.checkCall
      rw [h2]
      rfl)
  exact ⟨final, h1, by exact_mod_cast h2, h3, h4, h5⟩

theorem smithy_main_run (D : Dominion) (size : Nat) (image : (Nat → Int) → gameState)
    (rnd : Nat → ℚ) (cardEffect : CardEffect) (fuel : Nat) (G : gameState)
    (games : Nat → gameState) (ks : Nat → Nat) (v : Nat → Int) (hk : ks 0 = 0)
    (hgen : ∀ i, i < 30 → ∃ g g1,
      Smithy.generateSmithyTestCase D size image rnd fuel (ks i) g
        = some (games i, ks (i + 1), g1))
    (hchk : ∀ i, i < 30 → ∃ g,
      (Smithy.checkSmithy cardEffect (games i).whoseTurn (games i) g).1 = v i) :
    ∃ final, Smithy.main D size image rnd cardEffect fuel G = some (0, final)
      ∧ final.nTest = 30
      ∧ final.nSuccess = ((Finset.range 30).filter (fun i => v i ≠ 0)).card
      ∧ final.nFailure = ((Finset.range 30).filter (fun i => v i = 0)).card
      ∧ final.nSuccess + final.nFailure = final.nTest := by
  unfold Smithy.main
  obtain ⟨final, h1, h2, h3, h4, h5⟩ := driver_run 30 5
    "\n\n*************************  Random Testing - Smithy  ***************************\n"
    summarySpaced (Smithy.generateCall D size image rnd fuel)
    (Smithy.checkCall cardEffect) (G, 0)
    (fun i w => w.2 = ks i) (fun i w => w = (games i, ks (i + 1))) v hk.symm
    (by
      intro i hi w g hP
      obtain ⟨g0, g1, h⟩ := hgen i hi
      obtain ⟨g2, h2⟩ := smithy_generate_globals D size image rnd fuel (ks i) g0 g _ _ _ h
      refine ⟨(games i, ks (i + 1)), g2, ?_, rfl⟩
      unfold Smithy.generateCall
      rw [hP, h2]
      rfl)
    (by
      intro i hi wg g hQ
      subst hQ
      obtain ⟨g0, h⟩ := hchk i hi
      refine ⟨((Smithy.checkSmithy cardEffect (games i).whoseTurn (games i) g).2.1, ks (i + 1)),
        (Smithy.checkSmithy cardEffect (games i).whoseTurn (games i) g).2.2, ?_, rfl⟩
      unfold Smithy.checkCall
      rw [(smithy_checkSmithy_globals cardEffect _ _ g0 g).1, h])
  exact ⟨final, h1, by exact_mod_cast h2, h3, h4, h5⟩

theorem card1_main_run (D : Dominion) (size : Nat) (image : (Nat → Int) → gameState)
    (rnd : Nat → ℚ) (cardEffect : CardEffect) (fuel : Nat) (G : gameState) (handPos : Int)
    (games : Nat → gameState) (hs : Nat → Int) (ks : Nat → Nat) (v : Nat → Int)
    (hk : ks 0 = 0)
    (hgen : ∀ i, i < 10000 → ∃ g g1,
      Card1.generateSmithyTestCase D size image rnd fuel (ks i) g
        = some (hs i, games i, ks (i + 1), g1))
    (hchk : ∀ i, i < 10000 → ∃ g post g1,
      Card1.checkSmithy D cardEffect (games i).whoseTurn (games i) (hs i) g
        = some (v i, post, g1)) :
    ∃ final, Card1.main D size image rnd cardEffect fuel G handPos = some (0, final)
      ∧ final.nTest = 10000
      ∧ final.nSuccess = ((Finset.range 10000).filter (fun i => v i ≠ 0)).card
      ∧ final.nFailure = ((Finset.range 10000).filter (fun i => v i = 0)).card
      ∧ final.nSuccess + final.nFailure = final.nTest := by
  unfold Card1.main
  obtain ⟨final, h1, h2, h3, h4, h5⟩ := driver_run 10000 5
    "\n\n*************************  Random Testing - Smithy  ***************************\n"
    summarySpaced (Card1.generateCall D size image rnd fuel)
    (Card1.checkCall D cardEffect) ((G, handPos), 0)
    (fun i w => w.2 = ks i) (fun i w => w = ((games i, hs i), ks (i + 1))) v hk.symm
    (by
      intro i hi w g hP
      obtain ⟨g0, g1, h⟩ := hgen i hi
      obtain ⟨g2, h2⟩ := card1_generate_globals D size image rnd fuel (ks i) g0 g _ _ _ _ h
      refine ⟨((games i, hs i), ks (i + 1)), g2, ?_, rfl⟩
      unfold Card1.generateCall
      rw [hP, h2]
      rfl)
    (by
      intro i hi wg g hQ
      subst hQ
      obtain ⟨g0, post, g1, h⟩ := hchk i hi
      obtain ⟨g2, h2⟩ := card1_checkSmithy_globals D cardEffect _ _ _ g0 g _ _ _ h
      refine ⟨((post, hs i), ks (i + 1)), g2, ?_, rfl⟩
      unfold Card1.checkCall
      rw [h2]
      rfl)
  exact ⟨final, h1, by exact_mod_cast h2, h3, h4, h5⟩

theorem councilroom_main_run (D : Dominion) (size : Nat) (image : (Nat → Int) → gameState)
    (rnd : Nat → ℚ) (ext : CouncilRoom.Externals) (fuel : Nat) (G : gameState)
    (games : Nat → gameState) (ks : Nat → Nat) (v : Nat → Int) (hk : ks 0 = 0)
    (hgen : ∀ i, i < 30 → ∃ g g1,
      CouncilRoom.generateSmithyTestCase D size image rnd fuel (ks i) g
        = some (games i, ks (i + 1), g1))
    (hchk : ∀ i, i < 30 → ∀ g, ∃ post g1,
      ext.checkSmithy (games i).whoseTurn (games i) g = some (v i, post, g1)) :
    ∃ final, CouncilRoom.main D size image rnd ext fuel G = some (0, final)
      ∧ final.nTest = 30
      ∧ final.nSuccess = ((Finset.range 30).filter (fun i => v i ≠ 0)).card
      ∧ final.nFailure = ((Finset.range 30).filter (fun i => v i = 0)).card
      ∧ final.nSuccess + final.nFailure = final.nTest := by
  unfold CouncilRoom.main
  obtain ⟨final, h1, h2, h3, h4, h5⟩ := driver_run 30 5 CouncilRoom.banner
    summarySpaced (CouncilRoom.generateCall D size image rnd fuel)
    (CouncilRoom.checkCall ext) (G, 0)
    (fun i w => w.2 = ks i) (fun i w => w = (games i, ks (i + 1))) v hk.symm
    (by
      intro i hi w g hP
      obtain ⟨g0, g1, h⟩ := hgen i hi
      obtain ⟨g2, h2⟩ := smithy_generate_globals D size image rnd fuel (ks i) g0 g _ _ _ h
      refine ⟨(games i, ks (i + 1)), g2, ?_, rfl⟩
      unfold CouncilRoom.generateCall CouncilRoom.generateSmithyTestCase
      rw [hP, h2]
      rfl)
    (by
      intro i hi wg g hQ
      subst hQ
      obtain ⟨post, g1, h⟩ := hchk i hi g
      refine ⟨(post, ks (i + 1)), g1, ?_, rfl⟩
      unfold CouncilRoom.checkCall
      rw [h]
      rfl)
  exact ⟨final, h1, by exact_mod_cast h2, h3, h4, h5⟩

/-! ## A run of main on a stream -/

theorem runStream_range (size : Nat) (i : Nat) :
    0 < runStream size i ∧ runStream size i < 1 := by
  unfold runStream
  split_ifs <;> norm_num

theorem smithy_attempt_of_even (rnd : Nat → ℚ) (k : Nat) (c : Int)
    (h : ∀ j, rnd (k + 100 + j) = 1 / 128) :
    (Smithy.generateAttempt dominionH 100 (fun _ => uniformState 0 c) rnd k).1 = true
    ∧ (Smithy.generateAttempt dominionH 100 (fun _ => uniformState 0 c) rnd k).2.2 = k + 110
    ∧ (Smithy.generateAttempt dominionH 100 (fun _ => uniformState 0 c) rnd k).2.1.whoseTurn = 0
    ∧ (Smithy.generateAttempt dominionH 100 (fun _ => uniformState 0 c) rnd k).2.1.deckCount 0 = 3
    ∧ (Smithy.generateAttempt dominionH 100 (fun _ => uniformState 0 c) rnd k).2.1.discardCount 0
        = 3
    ∧ (Smithy.generateAttempt dominionH 100 (fun _ => uniformState 0 c) rnd k).2.1.handCount 0 = 3
    ∧ (Smithy.generateAttempt dominionH 100 (fun _ => uniformState 0 c) rnd k).2.1.hand 0 0 = c
    ∧ (Smithy.generateAttempt dominionH 100 (fun _ => uniformState 0 c) rnd k).2.1.playedCardCount
        = 0
    ∧ (Smithy.generateAttempt dominionH 100 (fun _ => uniformState 0 c) rnd k).2.1.numActions
        = 1 := by
  have d0 : randomBelow rnd (k + 100) 4 = 0 :=
    randomBelow_eq_of_bounds rnd _ 4 0 (by rw [h 0]; norm_num) (by rw [h 0]; norm_num)
  have d1 : randomBelow rnd (k + 100 + 1) 500 = 3 :=
    randomBelow_eq_of_bounds rnd _ 500 3 (by rw [h 1]; norm_num) (by rw [h 1]; norm_num)
  have d2 : randomBelow rnd (k + 100 + 1 + 1) 500 = 3 :=
    randomBelow_eq_of_bounds rnd _ 500 3 (by rw [h 2]; norm_num) (by rw [h 2]; norm_num)
  have d3 : randomBelow rnd (k + 100 + 1 + 1 + 1) 500 = 3 :=
    randomBelow_eq_of_bounds rnd _ 500 3 (by rw [h 3]; norm_num) (by rw [h 3]; norm_num)
  refine ⟨?_, ?_, ?_, ?_, ?_, ?_, ?_, ?_, ?_⟩ <;>
  simp [Smithy.generateAttempt, Smithy.forceCounts, Smithy.deckStep, Smithy.discardStep,
    forRandom, writeAt, writeAt2, dominionH, uniformState, d0, d1, d2, d3]

theorem smithy_attempt_of_first (c : Int) :
    (Smithy.generateAttempt dominionH 100 (fun _ => uniformState 0 c) (runStream 100) 0).1 = true
    ∧ (Smithy.generateAttempt dominionH 100 (fun _ => uniformState 0 c) (runStream 100) 0).2.2
        = 107
    ∧ (runGame 100 c 0).whoseTurn = 0
    ∧ (runGame 100 c 0).deckCount 0 = 0
    ∧ (runGame 100 c 0).discardCount 0 = 3
    ∧ (runGame 100 c 0).handCount 0 = 3
    ∧ (runGame 100 c 0).hand 0 0 = c
    ∧ (runGame 100 c 0).playedCardCount = 0
    ∧ (runGame 100 c 0).numActions = 1 := by
  have d0 : randomBelow (runStream 100) 100 4 = 0 := by
    apply randomBelow_eq_of_bounds <;> norm_num [runStream]
  have d1 : randomBelow (runStream 100) 101 500 = 0 := by
    apply randomBelow_eq_of_bounds <;> norm_num [runStream]
  have d2 : randomBelow (runStream 100) 102 500 = 3 := by
    apply randomBelow_eq_of_bounds <;> norm_num [runStream]
  have d3 : randomBelow (runStream 100) 103 500 = 3 := by
    apply randomBelow_eq_of_bounds <;> norm_num [runStream]
  refine ⟨?_, ?_, ?_, ?_, ?_, ?_, ?_, ?_, ?_⟩ <;>
  simp [runGame, runCursor, Smithy.generateAttempt, Smithy.forceCounts, Smithy.deckStep,
    Smithy.discardStep, forRandom, writeAt, writeAt2, dominionH, uniformState, d0, d1, d2, d3]

theorem runCursor_succ (i : Nat) : runCursor 100 (i + 1) = 107 + 110 * i := by
  unfold runCursor
  rw [if_neg (Nat.succ_ne_zero i)]
  omega

theorem smithy_attempt_of_later (c : Int) (i : Nat) :
    (Smithy.generateAttempt dominionH 100 (fun _ => uniformState 0 c) (runStream 100)
        (runCursor 100 (i + 1))).1 = true
    ∧ (Smithy.generateAttempt dominionH 100 (fun _ => uniformState 0 c) (runStream 100)
        (runCursor 100 (i + 1))).2.2 = runCursor 100 (i + 2)
    ∧ (runGame 100 c (i + 1)).whoseTurn = 0
    ∧ (runGame 100 c (i + 1)).deckCount 0 = 3
    ∧ (runGame 100 c (i + 1)).discardCount 0 = 3
    ∧ (runGame 100 c (i + 1)).handCount 0 = 3
    ∧ (runGame 100 c (i + 1)).hand 0 0 = c
    ∧ (runGame 100 c (i + 1)).playedCardCount = 0
    ∧ (runGame 100 c (i + 1)).numActions = 1 := by
  have h : ∀ j, runStream 100 (runCursor 100 (i + 1) + 100 + j) = 1 / 128 := by
    intro j
    unfold runStream
    rw [if_neg]
    rw [runCursor_succ]
    omega
  obtain ⟨a1, a2, a3, a4, a5, a6, a7, a8, a9⟩ :=
    smithy_attempt_of_even (runStream 100) (runCursor 100 (i + 1)) c h
  refine ⟨a1, ?_, a3, a4, a5, a6, a7, a8, a9⟩
  rw [a2, runCursor_succ, runCursor_succ]
  ring

theorem smithy_run_generate (c : Int) (i : Nat) :
    Smithy.generateSmithyTestCase dominionH 100 (fun _ => uniformState 0 c) (runStream 100) 1
        (runCursor 100 i) startGlobals
      = some (runGame 100 c i, runCursor 100 (i + 1),
          { startGlobals with nGenerate := startGlobals.nGenerate + 1 }) := by
  have h : (Smithy.generateAttempt dominionH 100 (fun _ => uniformState 0 c) (runStream 100)
        (runCursor 100 i)).1 = true
      ∧ (Smithy.generateAttempt dominionH 100 (fun _ => uniformState 0 c) (runStream 100)
        (runCursor 100 i)).2.2 = runCursor 100 (i + 1) := by
    cases i with
    | zero => exact ⟨(smithy_attempt_of_first c).1, (smithy_attempt_of_first c).2.1⟩
    | succ i => exact ⟨(smithy_attempt_of_later c i).1, (smithy_attempt_of_later c i).2.1⟩
  unfold Smithy.generateSmithyTestCase
  simp only [h.1, if_true]
  rw [h.2]
  rfl

theorem smithy_run_fields (c : Int) (i : Nat) :
    (runGame 100 c i).whoseTurn = 0
    ∧ (runGame 100 c i).deckCount 0 = (if i = 0 then 0 else 3)
    ∧ (runGame 100 c i).discardCount 0 = 3
    ∧ (runGame 100 c i).handCount 0 = 3
    ∧ (runGame 100 c i).hand 0 0 = c
    ∧ (runGame 100 c i).playedCardCount = 0
    ∧ (runGame 100 c i).numActions = 1 := by
  cases i with
  | zero =>
    obtain ⟨-, -, a3, a4, a5, a6, a7, a8, a9⟩ := smithy_attempt_of_first c
    exact ⟨a3, by rw [a4]; rfl, a5, a6, a7, a8, a9⟩
  | succ i =>
    obtain ⟨-, -, a3, a4, a5, a6, a7, a8, a9⟩ := smithy_attempt_of_later c i
    exact ⟨a3, by rw [a4, if_neg (Nat.succ_ne_zero i)], a5, a6, a7, a8, a9⟩

theorem smithy_run_check (c : Int) (i : Nat) (g : Globals) :
    (Smithy.checkSmithy (sampleRules dominionH) (runGame 100 c i).whoseTurn (runGame 100 c i) g).1
      = (if i = 0 then 0 else 1) := by
  obtain ⟨f1, f2, f3, f4, -, -, -⟩ := smithy_run_fields c i
  generalize runGame 100 c i = game at f1 f2 f3 f4 ⊢
  obtain ⟨g1, -, -, he⟩ := smithy_checkSmithy_eq (sampleRules dominionH) game.whoseTurn game g
  rw [he]
  by_cases hi : i = 0
  · rw [if_pos hi] at f2
    simp [hi, cbool, sampleRules, Smithy.checkSmithyCall, dominionH, f1, f2, f3, f4]
  · rw [if_neg hi] at f2
    simp [hi, cbool, sampleRules, Smithy.checkSmithyCall, dominionH, f1, f2, f3, f4]

theorem councilroom_run_checkVillage (i : Nat) (g : Globals) :
    (CouncilRoom.checkVillage dominionH (linkedExternals (sampleRules dominionH))
        (runGame 100 14 i).whoseTurn (runGame 100 14 i) 0 g).map (fun r => r.1) = some 1
    ∧ (CouncilRoom.checkVillage dominionH (linkedExternals (fun _ s => s))
        (runGame 100 14 i).whoseTurn (runGame 100 14 i) 0 g).map (fun r => r.1) = some 0 := by
  obtain ⟨f1, -, f3, f4, f5, f6, f7⟩ := smithy_run_fields 14 i
  generalize runGame 100 14 i = game at f1 f3 f4 f5 f6 f7 ⊢
  constructor
  · simp [CouncilRoom.checkVillage, CouncilRoom.checkVillageCall, linkedExternals, sampleRules,
      sampleVillage, readAt, writeAt, dominionH, land, cbool, f1, f3, f4, f5, f6, f7]
    ring
  · simp [CouncilRoom.checkVillage, CouncilRoom.checkVillageCall, linkedExternals,
      readAt, writeAt, dominionH, land, cbool, f1, f3, f4, f5, f6, f7]

/-! ## Runs of main of randomtestadventurer.c and randomtestcard1.c on a stream -/

theorem treasureStream_range (size : Nat) (i : Nat) :
    0 < treasureStream size i ∧ treasureStream size i < 1 := by
  unfold treasureStream
  split_ifs <;> norm_num

theorem handStream_range (size : Nat) (i : Nat) :
    0 < handStream size i ∧ handStream size i < 1 := by
  unfold handStream
  split_ifs <;> norm_num

theorem adventurer_run_attempt (i : Nat) :
    (Adventurer.generateAttempt dominionH 100 (fun _ => uniformState 0 0) (treasureStream 100)
        (i * (100 + 7))).1 = true
    ∧ (Adventurer.generateAttempt dominionH 100 (fun _ => uniformState 0 0) (treasureStream 100)
        (i * (100 + 7))).2.2 = (i + 1) * (100 + 7)
    ∧ (treasureGame 100 i).whoseTurn = 0
    ∧ (treasureGame 100 i).deckCount 0 = 3
    ∧ (treasureGame 100 i).discardCount 0 = 0
    ∧ (treasureGame 100 i).handCount 0 = 0
    ∧ (treasureGame 100 i).deck 0 1 = 5
    ∧ (treasureGame 100 i).deck 0 2 = 5 := by
  unfold treasureGame
  generalize hk : i * (100 + 7) = k
  have hk1 : (i + 1) * (100 + 7) = k + 107 := by rw [← hk]; ring
  have hm : k % 107 = 0 := by rw [← hk]; omega
  have s0 : treasureStream 100 (k + 100) = 1 / 1024 := by
    unfold treasureStream
    rw [if_neg (by omega), if_neg (by omega)]
  have s1 : treasureStream 100 (k + 100 + 1) = 1 / 128 := by
    unfold treasureStream
    rw [if_pos (by omega)]
  have s2 : treasureStream 100 (k + 100 + 1 + 1) = 1 / 1024 := by
    unfold treasureStream
    rw [if_neg (by omega), if_neg (by omega)]
  have s3 : treasureStream 100 (k + 100 + 1 + 1 + 1) = 1 / 1024 := by
    unfold treasureStream
    rw [if_neg (by omega), if_neg (by omega)]
  have s4 : treasureStream 100 (k + 100 + 1 + 1 + 1 + 1) = 3 / 16 := by
    unfold treasureStream
    rw [if_neg (by omega), if_pos (by omega)]
  have s5 : treasureStream 100 (k + 100 + 1 + 1 + 1 + 1 + 1) = 3 / 16 := by
    unfold treasureStream
    rw [if_neg (by omega), if_pos (by omega)]
  have s6 : treasureStream 100 (k + 100 + 1 + 1 + 1 + 1 + 1 + 1) = 3 / 16 := by
    unfold treasureStream
    rw [if_neg (by omega), if_pos (by omega)]
  have d0 : randomBelow (treasureStream 100) (k + 100) 4 = 0 :=
    randomBelow_eq_of_bounds _ _ 4 0 (by rw [s0]; norm_num) (by rw [s0]; norm_num)
  have d1 : randomBelow (treasureStream 100) (k + 100 + 1) 500 = 3 :=
    randomBelow_eq_of_bounds _ _ 500 3 (by rw [s1]; norm_num) (by rw [s1]; norm_num)
  have d2 : randomBelow (treasureStream 100) (k + 100 + 1 + 1) 500 = 0 :=
    randomBelow_eq_of_bounds _ _ 500 0 (by rw [s2]; norm_num) (by rw [s2]; norm_num)
  have d3 : randomBelow (treasureStream 100) (k + 100 + 1 + 1 + 1) 500 = 0 :=
    randomBelow_eq_of_bounds _ _ 500 0 (by rw [s3]; norm_num) (by rw [s3]; norm_num)
  have d4 : randomBelow (treasureStream 100) (k + 100 + 1 + 1 + 1 + 1) 27 = 5 :=
    randomBelow_eq_of_bounds _ _ 27 5 (by rw [s4]; norm_num) (by rw [s4]; norm_num)
  have d5 : randomBelow (treasureStream 100) (k + 100 + 1 + 1 + 1 + 1 + 1) 27 = 5 :=
    randomBelow_eq_of_bounds _ _ 27 5 (by rw [s5]; norm_num) (by rw [s5]; norm_num)
  have d6 : randomBelow (treasureStream 100) (k + 100 + 1 + 1 + 1 + 1 + 1 + 1) 27 = 5 :=
    randomBelow_eq_of_bounds _ _ 27 5 (by rw [s6]; norm_num) (by rw [s6]; norm_num)
  rw [hk1]
  refine ⟨?_, ?_, ?_, ?_, ?_, ?_, ?_, ?_⟩ <;>
  simp [Adventurer.generateAttempt, Adventurer.forceCounts, Adventurer.fillDeck,
    Adventurer.fillDiscard, Adventurer.deckStep, Adventurer.discardStep, forRandom, writeAt,
    writeAt2, dominionH, uniformState, d0, d1, d2, d3, d4, d5, d6]

theorem adventurer_run_generate (i : Nat) :
    Adventurer.generateAdventurerTestCase dominionH 100 (fun _ => uniformState 0 0)
        (treasureStream 100) 1 (i * (100 + 7)) startGlobals
      = some (treasureGame 100 i, (i + 1) * (100 + 7),
          { startGlobals with nGenerate := startGlobals.nGenerate + 1 }) := by
  obtain ⟨h1, h2, -⟩ := adventurer_run_attempt i
  unfold Adventurer.generateAdventurerTestCase
  simp only [h1, if_true]
  rw [h2]
  rfl

theorem adventurer_run_check (i : Nat) (g : Globals) :
    ∃ post g1, Adventurer.checkAdventurer dominionH (sampleAdventurer dominionH)
        (treasureGame 100 i).whoseTurn (treasureGame 100 i) g = some (1, post, g1) := by
  obtain ⟨-, -, f1, f2, f3, f4, f5, f6⟩ := adventurer_run_attempt i
  generalize treasureGame 100 i = game at f1 f2 f3 f4 f5 f6 ⊢
  have hc : (sampleAdventurer dominionH (Adventurer.checkAdventurerCall dominionH)
      game).handCount game.whoseTurn = 2 := by
    simp [sampleAdventurer, Adventurer.checkAdventurerCall, f1, f4]
  obtain ⟨g1, -, -, he⟩ := adventurer_checkAdventurer_eq dominionH (sampleAdventurer dominionH)
    game.whoseTurn game g (by rw [hc]) (by rw [hc]; decide)
  refine ⟨sampleAdventurer dominionH (Adventurer.checkAdventurerCall dominionH) game, g1, ?_⟩
  rw [he]
  refine congrArg some (Prod.ext ?_ rfl)
  simp [cbool, sampleAdventurer, Adventurer.checkAdventurerCall, writeAt, dominionH,
    f1, f2, f3, f4, f5, f6]

theorem card1_run_attempt (i : Nat) :
    (Card1.generateAttempt dominionH 100 (fun _ => uniformState 0 0) (handStream 100)
        (i * (100 + 9))).1 = true
    ∧ (Card1.generateAttempt dominionH 100 (fun _ => uniformState 0 0) (handStream 100)
        (i * (100 + 9))).2.1 = 0
    ∧ (Card1.generateAttempt dominionH 100 (fun _ => uniformState 0 0) (handStream 100)
        (i * (100 + 9))).2.2.2 = (i + 1) * (100 + 9)
    ∧ (handGame 100 i).whoseTurn = 0
    ∧ (handGame 100 i).deckCount 0 = 3
    ∧ (handGame 100 i).discardCount 0 = 0
    ∧ (handGame 100 i).handCount 0 = 1
    ∧ (handGame 100 i).playedCardCount = 0
    ∧ (handGame 100 i).hand 0 0 = 13 := by
  unfold handGame
  generalize hk : i * (100 + 9) = k
  have hk1 : (i + 1) * (100 + 9) = k + 109 := by rw [← hk]; ring
  have hm : k % 109 = 0 := by rw [← hk]; omega
  have s0 : handStream 100 (k + 100) = 1 / 1024 := by
    unfold handStream
    rw [if_neg (by omega)]
  have s1 : handStream 100 (k + 100 + 1) = 1 / 128 := by
    unfold handStream
    rw [if_pos (by omega)]
  have s2 : handStream 100 (k + 100 + 1 + 1) = 1 / 1024 := by
    unfold handStream
    rw [if_neg (by omega)]
  have s3 : handStream 100 (k + 100 + 1 + 1 + 1) = 1 / 1024 := by
    unfold handStream
    rw [if_neg (by omega)]
  have s4 : handStream 100 (k + 100 + 1 + 1 + 1 + 1) = 1 / 1024 := by
    unfold handStream
    rw [if_neg (by omega)]
  have s5 : handStream 100 (k + 100 + 1 + 1 + 1 + 1 + 1) = 1 / 1024 := by
    unfold handStream
    rw [if_neg (by omega)]
  have s6 : handStream 100 (k + 100 + 1 + 1 + 1 + 1 + 1 + 1) = 1 / 1024 := by
    unfold handStream
    rw [if_neg (by omega)]
  have s7 : handStream 100 (k + 100 + 1 + 1 + 1 + 1 + 1 + 1 + 1) = 1 / 1024 := by
    unfold handStream
    rw [if_neg (by omega)]
  have s8 : handStream 100 (k + 100 + 1 + 1 + 1 + 1 + 1 + 1 + 1 + 1) = 1 / 1024 := by
    unfold handStream
    rw [if_neg (by omega)]
  have d0 : randomBelow (handStream 100) (k + 100) 4 = 0 :=
    randomBelow_eq_of_bounds _ _ 4 0 (by rw [s0]; norm_num) (by rw [s0]; norm_num)
  have d1 : randomBelow (handStream 100) (k + 100 + 1) 500 = 3 :=
    randomBelow_eq_of_bounds _ _ 500 3 (by rw [s1]; norm_num) (by rw [s1]; norm_num)
  have d2 : randomBelow (handStream 100) (k + 100 + 1 + 1) 500 = 0 :=
    randomBelow_eq_of_bounds _ _ 500 0 (by rw [s2]; norm_num) (by rw [s2]; norm_num)
  have d3 : randomBelow (handStream 100) (k + 100 + 1 + 1 + 1) 499 = 0 :=
    randomBelow_eq_of_bounds _ _ 499 0 (by rw [s3]; norm_num) (by rw [s3]; norm_num)
  have d4 : randomBelow (handStream 100) (k + 100 + 1 + 1 + 1 + 1) 499 = 0 :=
    randomBelow_eq_of_bounds _ _ 499 0 (by rw [s4]; norm_num) (by rw [s4]; norm_num)
  have d5 : randomBelow (handStream 100) (k + 100 + 1 + 1 + 1 + 1 + 1) 27 = 0 :=
    randomBelow_eq_of_bounds _ _ 27 0 (by rw [s5]; norm_num) (by rw [s5]; norm_num)
  have d6 : randomBelow (handStream 100) (k + 100 + 1 + 1 + 1 + 1 + 1 + 1) 27 = 0 :=
    randomBelow_eq_of_bounds _ _ 27 0 (by rw [s6]; norm_num) (by rw [s6]; norm_num)
  have d7 : randomBelow (handStream 100) (k + 100 + 1 + 1 + 1 + 1 + 1 + 1 + 1) 27 = 0 :=
    randomBelow_eq_of_bounds _ _ 27 0 (by rw [s7]; norm_num) (by rw [s7]; norm_num)
  have d8 : randomBelow (handStream 100) (k + 100 + 1 + 1 + 1 + 1 + 1 + 1 + 1 + 1) 1 = 0 :=
    randomBelow_eq_of_bounds _ _ 1 0 (by rw [s8]; norm_num) (by rw [s8]; norm_num)
  rw [hk1]
  refine ⟨?_, ?_, ?_, ?_, ?_, ?_, ?_, ?_, ?_⟩ <;>
  simp [Card1.generateAttempt, Card1.forceCounts, Card1.fillDeck, Card1.fillDiscard,
    Card1.deckStep, Card1.discardStep, forRandom, writeAt, writeAt2, dominionH, uniformState,
    d0, d1, d2, d3, d4, d5, d6, d7, d8]

theorem card1_run_generate (i : Nat) :
    Card1.generateSmithyTestCase dominionH 100 (fun _ => uniformState 0 0)
        (handStream 100) 1 (i * (100 + 9)) startGlobals
      = some (0, handGame 100 i, (i + 1) * (100 + 9),
          { startGlobals with nGenerate := startGlobals.nGenerate + 1 }) := by
  obtain ⟨h1, h2, h3, -⟩ := card1_run_attempt i
  unfold Card1.generateSmithyTestCase
  simp only [h1, if_true]
  rw [h2, h3]
  rfl

theorem card1_run_check (i : Nat) (g : Globals) :
    ∃ post g1, Card1.checkSmithy dominionH (sampleSmithy dominionH)
        (handGame 100 i).whoseTurn (handGame 100 i) 0 g = some (1, post, g1) := by
  obtain ⟨-, -, -, f1, f2, f3, f4, f5, f6⟩ := card1_run_attempt i
  generalize handGame 100 i = game at f1 f2 f3 f4 f5 f6 ⊢
  obtain ⟨g1, -, -, he⟩ := card1_checkSmithy_eq dominionH (sampleSmithy dominionH)
    game.whoseTurn game 0 g (by rw [f5]) (by rw [f5]; decide)
  refine ⟨sampleSmithy dominionH (Card1.checkSmithyCall dominionH) game, g1, ?_⟩
  rw [he]
  refine congrArg some (Prod.ext ?_ rfl)
  simp [cbool, sampleSmithy, Card1.checkSmithyCall, writeAt, dominionH,
    f1, f2, f3, f4, f5, f6]

/-! ## The counters of main -/

/-- C7. The loop of `main` runs exactly `MAXTEST` iterations, whatever the
checker returns.  For `main` of `randomtestadventurer.c` (`MAXTEST` 10000), of
`randomtestsmithy.c` (30) and of `randomtestcard1.c` (10000): let the call of
the generator in iteration `i`, which begins at cursor `ks i` of the random
stream (`ks 0 = 0`), return with the state `games i` and the cursor
`ks (i + 1)`, and let the checker, called on `games i` with its current
player, return the value `v i`.  Then `main` returns 0, `nTest = MAXTEST`,
`nSuccess` is the number of `i < MAXTEST` with `v i ≠ 0`, `nFailure` the
number with `v i = 0`, and `nSuccess + nFailure = nTest`.  The checker of
`randomtestsmithy.c` always returns; for the other two the hypothesis says
that it does (its array reads are in range). -/
theorem main_counts :
    (∀ (D : Dominion) (size : Nat) (image : (Nat → Int) → gameState) (rnd : Nat → ℚ)
        (cardEffect : CardEffect) (fuel : Nat) (G : gameState)
        (games : Nat → gameState) (ks : Nat → Nat) (v : Nat → Int),
      ks 0 = 0 →
      (∀ i, i < 10000 → ∃ g g1,
        Adventurer.generateAdventurerTestCase D size image rnd fuel (ks i) g
          = some (games i, ks (i + 1), g1)) →
      (∀ i, i < 10000 → ∃ g post g1,
        Adventurer.checkAdventurer D cardEffect (games i).whoseTurn (games i) g
          = some (v i, post, g1)) →
      ∃ final, Adventurer.main D size image rnd cardEffect fuel G = some (0, final)
        ∧ final.nTest = 10000
        ∧ final.nSuccess = ((Finset.range 10000).filter (fun i => v i ≠ 0)).card
        ∧ final.nFailure = ((Finset.range 10000).filter (fun i => v i = 0)).card
        ∧ final.nSuccess + final.nFailure = final.nTest)
    ∧ (∀ (D : Dominion) (size : Nat) (image : (Nat → Int) → gameState) (rnd : Nat → ℚ)
        (cardEffect : CardEffect) (fuel : Nat) (G : gameState)
        (games : Nat → gameState) (ks : Nat → Nat) (v : Nat → Int),
      ks 0 = 0 →
      (∀ i, i < 30 → ∃ g g1,
        Smithy.generateSmithyTestCase D size image rnd fuel (ks i) g
          = some (games i, ks (i + 1), g1)) →
      (∀ i, i < 30 → ∃ g,
        (Smithy.checkSmithy cardEffect (games i).whoseTurn (games i) g).1 = v i) →
      ∃ final, Smithy.main D size image rnd cardEffect fuel G = some (0, final)
        ∧ final.nTest = 30
        ∧ final.nSuccess = ((Finset.range 30).filter (fun i => v i ≠ 0)).card
        ∧ final.nFailure = ((Finset.range 30).filter (fun i => v i = 0)).card
        ∧ final.nSuccess + final.nFailure = final.nTest)
    ∧ (∀ (D : Dominion) (size : Nat) (image : (Nat → Int) → gameState) (rnd : Nat → ℚ)
        (cardEffect : CardEffect) (fuel : Nat) (G : gameState) (handPos : Int)
        (games : Nat → gameState) (hs : Nat → Int) (ks : Nat → Nat) (v : Nat → Int),
      ks 0 = 0 →
      (∀ i, i < 10000 → ∃ g g1,
        Card1.generateSmithyTestCase D size image rnd fuel (ks i) g
          = some (hs i, games i, ks (i + 1), g1)) →
      (∀ i, i < 10000 → ∃ g post g1,
        Card1.checkSmithy D cardEffect (games i).whoseTurn (games i) (hs i) g
          = some (v i, post, g1)) →
      ∃ final, Card1.main D size image rnd cardEffect fuel G handPos = some (0, final)
        ∧ final.nTest = 10000
        ∧ final.nSuccess = ((Finset.range 10000).filter (fun i => v i ≠ 0)).card
        ∧ final.nFailure = ((Finset.range 10000).filter (fun i => v i = 0)).card
        ∧ final.nSuccess + final.nFailure = final.nTest) :=
  ⟨adventurer_main_run, smithy_main_run, card1_main_run⟩

/-- Instance of C7: three runs in which every call of the generator returns
in its first pass.  `main` of `randomtestsmithy.c` on the stream `runStream`
with the effect `sampleRules`: the checker returns 0 in the first iteration,
where the deck is empty, and 1 in the other 29, and `main` returns 0 with
`nTest = 30`, `nSuccess = 29` and `nFailure = 1`.  `main` of
`randomtestadventurer.c` on `treasureStream` with `sampleAdventurer`, and
`main` of `randomtestcard1.c` on `handStream` with `sampleSmithy`: the checker
returns 1 in every iteration, and `main` returns 0 with `nTest = 10000`,
`nSuccess = 10000` and `nFailure = 0`. -/
theorem main_counts_witness :
    (∃ final, Smithy.main dominionH 100 (fun _ => uniformState 0 14) (runStream 100)
        (sampleRules dominionH) 1 (uniformState 0 0) = some (0, final)
      ∧ final.nTest = 30 ∧ final.nSuccess = 29 ∧ final.nFailure = 1)
    ∧ (∃ final, Adventurer.main dominionH 100 (fun _ => uniformState 0 0) (treasureStream 100)
        (sampleAdventurer dominionH) 1 (uniformState 0 0) = some (0, final)
      ∧ final.nTest = 10000 ∧ final.nSuccess = 10000 ∧ final.nFailure = 0)
    ∧ (∃ final, Card1.main dominionH 100 (fun _ => uniformState 0 0) (handStream 100)
        (sampleSmithy dominionH) 1 (uniformState 0 0) 0 = some (0, final)
      ∧ final.nTest = 10000 ∧ final.nSuccess = 10000 ∧ final.nFailure = 0) := by
  refine ⟨?_, ?_, ?_⟩
  · obtain ⟨final, h1, h2, h3, h4, -⟩ := main_counts.2.1 dominionH 100
      (fun _ => uniformState 0 14) (runStream 100) (sampleRules dominionH) 1 (uniformState 0 0)
      (runGame 100 14) (runCursor 100) (fun i => if i = 0 then 0 else 1) rfl
      (fun i _ => ⟨startGlobals, _, smithy_run_generate 14 i⟩)
      (fun i _ => ⟨startGlobals, smithy_run_check 14 i startGlobals⟩)
    refine ⟨final, h1, h2, ?_, ?_⟩
    · rw [h3]
      decide
    · rw [h4]
      decide
  · obtain ⟨final, h1, h2, h3, h4, -⟩ := main_counts.1 dominionH 100
      (fun _ => uniformState 0 0) (treasureStream 100) (sampleAdventurer dominionH) 1
      (uniformState 0 0) (treasureGame 100) (fun i => i * (100 + 7)) (fun _ => 1)
      (Nat.zero_mul _)
      (fun i _ => ⟨startGlobals, _, adventurer_run_generate i⟩)
      (fun i _ => ⟨startGlobals, adventurer_run_check i startGlobals⟩)
    refine ⟨final, h1, h2, ?_, ?_⟩
    · rw [h3]
      simp
    · rw [h4]
      simp
  · obtain ⟨final, h1, h2, h3, h4, -⟩ := main_counts.2.2 dominionH 100
      (fun _ => uniformState 0 0) (handStream 100) (sampleSmithy dominionH) 1
      (uniformState 0 0) 0 (handGame 100) (fun _ => 0) (fun i => i * (100 + 9)) (fun _ => 1)
      (Nat.zero_mul _)
      (fun i _ => ⟨startGlobals, _, card1_run_generate i⟩)
      (fun i _ => ⟨startGlobals, card1_run_check i startGlobals⟩)
    refine ⟨final, h1, h2, ?_, ?_⟩
    · rw [h3]
      simp
    · rw [h4]
      simp

/-! ## main of randomtestcouncilroom.c calls checkSmithy -/

/-- C14. In `main` of `randomtestcouncilroom.c` the value `pass` of every
iteration is what `checkSmithy(G.whoseTurn, &G)` returns on the state that
`generateSmithyTestCase` has just built, and `checkVillage` is not called.
Let the call of the generator in iteration `i`, which begins at cursor `ks i`
(`ks 0 = 0`), return with the state `games i` and the cursor `ks (i + 1)`, and
let `checkSmithy`, called on `games i` with its current player, return the
value `v i`.  Then `main` returns 0 with `nTest = 30`, `nSuccess` the number
of `i < 30` with `v i ≠ 0` and `nFailure` the number with `v i = 0`; and it
returns the same with every other `cardEffect` and `asswertTrue`, on which
alone the result of `checkVillage` depends beyond its arguments. -/
theorem councilroom_main_calls_checkSmithy (D : Dominion) (size : Nat)
    (image : (Nat → Int) → gameState) (rnd : Nat → ℚ) (ext : CouncilRoom.Externals)
    (fuel : Nat) (G : gameState) (games : Nat → gameState) (ks : Nat → Nat) (v : Nat → Int)
    (hk : ks 0 = 0)
    (hgen : ∀ i, i < 30 → ∃ g g1,
      CouncilRoom.generateSmithyTestCase D size image rnd fuel (ks i) g
        = some (games i, ks (i + 1), g1))
    (hchk : ∀ i, i < 30 → ∀ g, ∃ post g1,
      ext.checkSmithy (games i).whoseTurn (games i) g = some (v i, post, g1)) :
    ∃ final, CouncilRoom.main D size image rnd ext fuel G = some (0, final)
      ∧ final.nTest = 30
      ∧ final.nSuccess = ((Finset.range 30).filter (fun i => v i ≠ 0)).card
      ∧ final.nFailure = ((Finset.range 30).filter (fun i => v i = 0)).card
      ∧ ∀ (cardEffect : CardEffect) (asswertTrue : Int → Int → String → Globals → Int × Globals),
          CouncilRoom.main D size image rnd
              { ext with cardEffect := cardEffect, asswertTrue := asswertTrue } fuel G
            = some (0, final) := by
  obtain ⟨final, h1, h2, h3, h4, -⟩ :=
    councilroom_main_run D size image rnd ext fuel G games ks v hk hgen hchk
  exact ⟨final, h1, h2, h3, h4, fun _ _ => h1⟩

/-- Instance of C14: `main` of `randomtestcouncilroom.c` on the stream
`runStream`, linked with `checkSmithy` of `randomtestsmithy.c` and the effect
`sampleRules`.  `checkSmithy` returns 0 in the first iteration and 1 in the
other 29, and `main` returns 0 with `nSuccess = 29` and `nFailure = 1`, also
when `cardEffect` is replaced by an effect that does nothing; but on every one
of the 30 generated states `checkVillage` returns 1 with the first effect and
0 with the second. -/
theorem councilroom_main_calls_checkSmithy_witness :
    ∃ final, CouncilRoom.main dominionH 100 (fun _ => uniformState 0 14) (runStream 100)
        (linkedExternals (sampleRules dominionH)) 1 (uniformState 0 0) = some (0, final)
      ∧ final.nTest = 30 ∧ final.nSuccess = 29 ∧ final.nFailure = 1
      ∧ CouncilRoom.main dominionH 100 (fun _ => uniformState 0 14) (runStream 100)
          { linkedExternals (sampleRules dominionH) with cardEffect := fun _ s => s }
          1 (uniformState 0 0) = some (0, final)
      ∧ (∀ i, i < 30 →
          (CouncilRoom.checkVillage dominionH (linkedExternals (sampleRules dominionH))
            (runGame 100 14 i).whoseTurn (runGame 100 14 i) 0 startGlobals).map (fun r => r.1)
            = some 1)
      ∧ (∀ i, i < 30 →
          (CouncilRoom.checkVillage dominionH
            { linkedExternals (sampleRules dominionH) with cardEffect := fun _ s => s }
            (runGame 100 14 i).whoseTurn (runGame 100 14 i) 0 startGlobals).map (fun r => r.1)
            = some 0) := by
  obtain ⟨final, h1, h2, h3, h4, h5⟩ := councilroom_main_calls_checkSmithy dominionH 100
    (fun _ => uniformState 0 14) (runStream 100) (linkedExternals (sampleRules dominionH)) 1
    (uniformState 0 0) (runGame 100 14) (runCursor 100) (fun i => if i = 0 then 0 else 1) rfl
    (fun i _ => ⟨startGlobals, _, smithy_run_generate 14 i⟩)
    (fun i _ g => ⟨_, _, congrArg some (Prod.ext (smithy_run_check 14 i g) rfl)⟩)
  refine ⟨final, h1, h2, ?_, ?_, h5 (fun _ s => s) assertTrue,
    fun i _ => (councilroom_run_checkVillage i startGlobals).1,
    fun i _ => (councilroom_run_checkVillage i startGlobals).2⟩
  · rw [h3]
    decide
  · rw [h4]
    decide
